import Mathlib

/-!
# Real-Time-Operating-System: scheduler, priority engine and fault subsystem

A shallow embedding of the decision procedures of the simulated RTOS
(`src/core/scheduler.c`, `src/ml/ml_engine.c`, `src/fault/fault_tolerance.c`,
`src/core/kernel.c`, `src/core/task_manager.c`, `src/core/memory_matrix.c`)
together with theorems about them.

Conventions of the embedding.

* C unsigned integers (`uint8_t`, `uint32_t`, `uint64_t`) are natural numbers;
  where the width matters it appears as an explicit bound or an explicit
  `% 2 ^ w`.
* C `float` values are elements of an arbitrary linearly ordered field `α`
  with a floor function (`ℚ` and `ℝ` are instances).  Arithmetic is exact:
  rounding of sums, products and quotients, infinities and NaN are outside the
  model.  The conversion `(float)n` of a `uint32_t` that is stored in the
  execution history is rounded to binary32 (`uint32ToFloat`); an integer that
  enters float arithmetic as an operand is taken exactly.
* A C string is the list of its bytes before the terminating NUL.
* A C array passed as pointer plus element count (`Task *tasks, int count`)
  is the list of its first `count` elements; slot `i` is position `i`.
* A fixed-size global array `T g[MAX_TASKS]` is a function `Fin MAX_TASKS → T`.
* `printf` calls have no effect on the modelled state and are dropped.
* Global variables are fields of explicit state records that the functions
  take and return; a value read from the environment (`GetTickCount64()`, the
  measured duration of a tick) is an argument of the function that reads it.
* A pointer that the code tests against `NULL` is an `Option` (or the address
  `0`); the pointee is the content it points to.
-/

namespace RTOS

/-! ## Constants (`include/system_config.h`) -/

/-- Capacity of the task table (`#define MAX_TASKS 32`). -/
def MAX_TASKS : Nat := 32

/-- Number of base priority levels (`#define MAX_PRIORITY_LEVELS 16`). -/
def MAX_PRIORITY_LEVELS : Nat := 16

/-- Number of fuzzy levels (`#define FUZZY_LEVELS 5`). -/
def FUZZY_LEVELS : Nat := 5

/-- Largest `uint32_t` value (`UINT32_MAX`). -/
def UINT32_MAX : Nat := 4294967295

/-- Enumerator `DAL_A` of `CriticalityLevel` (safety-critical). -/
def DAL_A : Nat := 0

/-- Enumerator `DAL_B` of `CriticalityLevel` (mission-critical). -/
def DAL_B : Nat := 1

/-- Enumerator `DAL_C` of `CriticalityLevel` (important). -/
def DAL_C : Nat := 2

/-- Enumerator `DAL_D` of `CriticalityLevel` (non-critical). -/
def DAL_D : Nat := 3

/-! ## Data model (`include/task_manager.h`, `include/scheduler.h`) -/

/-- The `Task` struct.  Pointers (`entryPoint`, `args`) are addresses, `0`
being `NULL`; `criticality` is the integer value of the C enum; `name` holds
the bytes of the `char[32]` buffer before its first NUL. -/
structure Task (α : Type) where
  id : Nat
  name : List Nat
  entryPoint : Nat
  args : Nat
  periodMs : Nat
  deadlineMs : Nat
  executionTimeMs : Nat
  basePriority : Nat
  dynamicPriority : Nat
  criticality : Nat
  executionHistory : List α
  lastExecutionTime : Nat
  missedDeadlines : Nat
  coreAffinity : Nat
  active : Nat

/-- The `ScheduleDecision` struct. -/
structure ScheduleDecision where
  taskId : Nat
  targetCore : Nat
  timeSliceMs : Nat
  deriving DecidableEq

/-- The `SystemStateVector` struct. -/
structure SystemStateVector (α : Type) where
  cpuLoad : α
  memoryUsage : α
  temperature : α
  powerConsumption : α
  activeTaskCount : Nat
  state : Nat

/-- The value of `ScheduleDecision decision = {0}`. -/
def zeroDecision : ScheduleDecision := ⟨0, 0, 0⟩

/-- The three assignments `decision.taskId = tasks[i].id; decision.targetCore =
tasks[i].coreAffinity; decision.timeSliceMs = tasks[i].executionTimeMs;` that
every policy performs when it prefers slot `i`. -/
def decisionOf {α : Type} (t : Task α) : ScheduleDecision :=
  ⟨t.id, t.coreAffinity, t.executionTimeMs⟩

/-! ## Conversions and string copies performed by the C code -/

/-- The number of low bits of the integer `n` that the 24-bit significand of
binary32 cannot hold: 0 below `2 ^ 24`, otherwise one more than for `n / 2`.
The first argument bounds the recursion; 8 steps bring every 32-bit value
below `2 ^ 24`. -/
def droppedBits : Nat → Nat → Nat
  | 0, _ => 0
  | fuel + 1, n => if n < 2 ^ 24 then 0 else droppedBits fuel (n / 2) + 1

/-- The conversion `(float)n` of a `uint32_t` value, as the integer that the
resulting binary32 number denotes: `n` is rounded to the nearest multiple of
`2 ^ e`, where `e` is the number of bits that the significand cannot hold,
and a tie goes to the even significand (IEEE 754 round to nearest, ties to
even).  Below `2 ^ 24` the conversion is exact. -/
def uint32ToFloat (n : Nat) : Nat :=
  let e := droppedBits 8 n
  let q := n / 2 ^ e
  let r := n % 2 ^ e
  if 2 * r > 2 ^ e ∨ (2 * r = 2 ^ e ∧ q % 2 = 1) then (q + 1) * 2 ^ e else q * 2 ^ e

/-- The bytes that `strncpy(dest, src, n)` leaves before the first NUL of a
destination buffer that was zeroed and holds more than `n` bytes: the bytes
of `src` before its NUL, at most `n` of them. -/
def strncpy (src : List Nat) (n : Nat) : List Nat :=
  (src.takeWhile (fun b => b ≠ 0)).take n

/-! ## Fault subsystem (`src/fault/fault_tolerance.c`) -/

/-- The function `tmr_voting`: the return type is `uint8_t`, so the returned
`uint32_t` operand is converted modulo `2 ^ 8`. -/
def tmr_voting (result1 result2 result3 : Nat) : Nat :=
  if result1 = result2 ∨ result1 = result3 then
    result1 % 2 ^ 8
  else if result2 = result3 then
    result2 % 2 ^ 8
  else
    0xFF

section Floats

variable {α : Type} [LinearOrderedField α] [FloorRing α]

/-- The function `get_fault_recovery_factor`, reading the global array
`g_faultRecoveryCounter`. -/
def get_fault_recovery_factor (g_faultRecoveryCounter : Fin MAX_TASKS → Nat)
    (taskId : Nat) : α :=
  if h : taskId < MAX_TASKS then
    if g_faultRecoveryCounter ⟨taskId, h⟩ > 0 then
      let factor : α := 1 + (g_faultRecoveryCounter ⟨taskId, h⟩ : α) * (2 / 10)
      if factor > 2 then 2 else factor
    else 1
  else 1

/-! ## ML priority engine (`src/ml/ml_engine.c`) -/

/-- The C conversion `(int)x` of a float: truncation toward zero. -/
def truncToInt (x : α) : Int :=
  if 0 ≤ x then ⌊x⌋ else ⌈x⌉

/-- The function `fuzzy_level_for_value`. -/
def fuzzy_level_for_value (value min max : α) : Int :=
  let normalized := (value - min) / (max - min)
  let normalized := if normalized < 0 then 0 else normalized
  let normalized := if normalized > 1 then 1 else normalized
  truncToInt (normalized * ((FUZZY_LEVELS : α) - 1))

/-- The table `g_fuzzyMembershipMatrix`, row by row. -/
def g_fuzzyMembershipMatrix : List (List α) :=
  [[1, 7 / 10, 3 / 10, 1 / 10, 0],
   [7 / 10, 1, 7 / 10, 3 / 10, 1 / 10],
   [3 / 10, 7 / 10, 1, 7 / 10, 3 / 10],
   [1 / 10, 3 / 10, 7 / 10, 1, 7 / 10],
   [0, 1 / 10, 3 / 10, 7 / 10, 1]]

/-- The read `g_fuzzyMembershipMatrix[i][j]`.  Outside the 5×5 table the C
read is undefined; the model returns `0` there. -/
def fuzzyMembership (i j : Int) : α :=
  if 0 ≤ i ∧ i < 5 ∧ 0 ≤ j ∧ j < 5 then
    ((g_fuzzyMembershipMatrix (α := α)).getD i.toNat []).getD j.toNat 0
  else 0

/-- The `switch (task->criticality)` of `fuzzy_adjust_priority`. -/
def criticalityLevel (criticality : Nat) : Int :=
  if criticality = DAL_A then 0
  else if criticality = DAL_B then 1
  else if criticality = DAL_C then 3
  else if criticality = DAL_D then 4
  else 2

/-- The function `fuzzy_adjust_priority`. -/
def fuzzy_adjust_priority (task : Task α) (baseScore : α)
    (sysState : SystemStateVector α) : α :=
  let loadLevel := fuzzy_level_for_value sysState.cpuLoad 0 1
  let tempLevel := fuzzy_level_for_value sysState.temperature 20 80
  let powerLevel := fuzzy_level_for_value sysState.powerConsumption (5 / 10) 5
  let criticality := criticalityLevel task.criticality
  let loadFactor : α := fuzzyMembership loadLevel criticality
  let tempFactor : α := fuzzyMembership tempLevel criticality
  let powerFactor : α := fuzzyMembership powerLevel criticality
  let adjustmentFactor := 5 / 10 * loadFactor + 3 / 10 * tempFactor + 2 / 10 * powerFactor
  baseScore * adjustmentFactor

/-- The function `ml_predict_urgency`.  The argument `inference` stands for
the value of `xgboost_inference(&features)`: a logistic sigmoid (`expf`) of a
weighted sum in which seven features are drawn from `rand()`; it is an input
of the model. -/
def ml_predict_urgency (g_modelLoaded : Nat) (inference : α) : α :=
  if g_modelLoaded = 0 then 5 / 10 else inference

/-- The function `compute_dynamic_priority`. -/
def compute_dynamic_priority (g_faultRecoveryCounter : Fin MAX_TASKS → Nat)
    (g_modelLoaded : Nat) (inference : α) (task : Task α)
    (sysState : SystemStateVector α) : α :=
  let basePriority : α := (task.basePriority : α) / (MAX_PRIORITY_LEVELS : α)
  let mlUrgency : α := ml_predict_urgency g_modelLoaded inference
  let faultFactor : α := get_fault_recovery_factor g_faultRecoveryCounter task.id
  let energyPenalty : α :=
    if sysState.powerConsumption > 4 then 2 / 10
    else if sysState.temperature > 70 then 15 / 100
    else 0
  let dynamicPriority := basePriority + mlUrgency * faultFactor - energyPenalty
  let dynamicPriority := fuzzy_adjust_priority task dynamicPriority sysState
  let dynamicPriority := if dynamicPriority > 1 then 1 else dynamicPriority
  let dynamicPriority := if dynamicPriority < 0 then 0 else dynamicPriority
  dynamicPriority

/-! ## Scheduler policies (`src/core/scheduler.c`) -/

/-- One iteration of the loop of `rate_monotonic_schedule`; the loop state is
`(highest_priority, decision)`. -/
def rate_monotonic_step (acc : Int × ScheduleDecision) (t : Task α) :
    Int × ScheduleDecision :=
  if t.active ≠ 0 ∧ t.periodMs > 0 then
    let priority : Int := ((1000000 / t.periodMs : Nat) : Int)
    if priority > acc.1 then (priority, decisionOf t) else acc
  else acc

/-- The loop of `rate_monotonic_schedule` with its final state. -/
def rate_monotonic_loop (tasks : List (Task α)) : Int × ScheduleDecision :=
  tasks.foldl rate_monotonic_step (-1, zeroDecision)

/-- The function `rate_monotonic_schedule`. -/
def rate_monotonic_schedule (tasks : List (Task α)) : ScheduleDecision :=
  (rate_monotonic_loop tasks).2

/-- One iteration of the loop of `earliest_deadline_schedule`; the loop state
is `(earliest_deadline, decision)`. -/
def earliest_deadline_step (acc : Nat × ScheduleDecision) (t : Task α) :
    Nat × ScheduleDecision :=
  if t.active ≠ 0 ∧ t.deadlineMs < acc.1 then (t.deadlineMs, decisionOf t) else acc

/-- The loop of `earliest_deadline_schedule` with its final state. -/
def earliest_deadline_loop (tasks : List (Task α)) : Nat × ScheduleDecision :=
  tasks.foldl earliest_deadline_step (UINT32_MAX, zeroDecision)

/-- The function `earliest_deadline_schedule`. -/
def earliest_deadline_schedule (tasks : List (Task α)) : ScheduleDecision :=
  (earliest_deadline_loop tasks).2

/-- The score `compute_dynamic_priority(&tasks[i], state)` computed for slot
`i` during one call of `ml_schedule`; `inference i` is the value that
`xgboost_inference` yields in that call. -/
def ml_score (g_faultRecoveryCounter : Fin MAX_TASKS → Nat) (g_modelLoaded : Nat)
    (inference : Nat → α) (state : SystemStateVector α) (i : Nat) (t : Task α) : α :=
  compute_dynamic_priority g_faultRecoveryCounter g_modelLoaded (inference i) t state

/-- The loop of `ml_schedule` from slot `i` on, over the remaining slots; the
loop state is `(highest_score, decision)`. -/
def ml_schedule_from (g_faultRecoveryCounter : Fin MAX_TASKS → Nat) (g_modelLoaded : Nat)
    (inference : Nat → α) (state : SystemStateVector α) :
    Nat → List (Task α) → α × ScheduleDecision → α × ScheduleDecision
  | _, [], acc => acc
  | i, t :: ts, acc =>
    ml_schedule_from g_faultRecoveryCounter g_modelLoaded inference state (i + 1) ts
      (if t.active ≠ 0 then
        let score := ml_score g_faultRecoveryCounter g_modelLoaded inference state i t
        if score > acc.1 then (score, decisionOf t) else acc
      else acc)

/-- The loop of `ml_schedule` with its final state. -/
def ml_schedule_loop (g_faultRecoveryCounter : Fin MAX_TASKS → Nat) (g_modelLoaded : Nat)
    (inference : Nat → α) (tasks : List (Task α)) (state : SystemStateVector α) :
    α × ScheduleDecision :=
  ml_schedule_from g_faultRecoveryCounter g_modelLoaded inference state 0 tasks
    (-1, zeroDecision)

/-- The function `ml_schedule`. -/
def ml_schedule (g_faultRecoveryCounter : Fin MAX_TASKS → Nat) (g_modelLoaded : Nat)
    (inference : Nat → α) (tasks : List (Task α)) (state : SystemStateVector α) :
    ScheduleDecision :=
  (ml_schedule_loop g_faultRecoveryCounter g_modelLoaded inference tasks state).2

/-- The function `fpga_scheduler_decide`; `g_currentPolicy` is the content of
the policy buffer compared by `strcmp`. -/
def fpga_scheduler_decide (g_currentPolicy : String)
    (g_faultRecoveryCounter : Fin MAX_TASKS → Nat) (g_modelLoaded : Nat)
    (inference : Nat → α) (tasks : List (Task α)) (state : SystemStateVector α) :
    ScheduleDecision :=
  if g_currentPolicy = "RMS" then
    rate_monotonic_schedule tasks
  else if g_currentPolicy = "EDF" then
    earliest_deadline_schedule tasks
  else
    ml_schedule g_faultRecoveryCounter g_modelLoaded inference tasks state

/-- Whether the policy loop run by `fpga_scheduler_decide` executed its
assignment to `decision` at least once, i.e. its running best value left the
initial sentinel (`-1`, `UINT32_MAX`, `-1.0f`). -/
def policySelects (g_currentPolicy : String)
    (g_faultRecoveryCounter : Fin MAX_TASKS → Nat) (g_modelLoaded : Nat)
    (inference : Nat → α) (tasks : List (Task α)) (state : SystemStateVector α) : Prop :=
  if g_currentPolicy = "RMS" then
    (rate_monotonic_loop tasks).1 ≠ -1
  else if g_currentPolicy = "EDF" then
    (earliest_deadline_loop tasks).1 ≠ UINT32_MAX
  else
    (ml_schedule_loop g_faultRecoveryCounter g_modelLoaded inference tasks state).1 ≠ -1

/-- Eligibility of a task under a policy, as tested by the guard of the policy
loop: active, and under RMS additionally `periodMs > 0`. -/
def eligible (g_currentPolicy : String) (t : Task α) : Prop :=
  t.active ≠ 0 ∧ (g_currentPolicy = "RMS" → t.periodMs > 0)

end Floats

/-! ## Concrete tables used as test inputs -/

/-- A task descriptor with the given id, period, deadline and active flag; the
other fields are as `task_create` fills them (execution time `period / 10`,
base priority 8, core 0, history filled with the execution time). -/
def mkTask (id periodMs deadlineMs active : Nat) : Task ℚ :=
  { id := id, name := [], entryPoint := 1, args := 0, periodMs := periodMs,
    deadlineMs := deadlineMs, executionTimeMs := periodMs / 10, basePriority := 8,
    dynamicPriority := 8, criticality := DAL_A,
    executionHistory := List.replicate 10 ((periodMs / 10 : Nat) : ℚ),
    lastExecutionTime := 0, missedDeadlines := 0, coreAffinity := 0, active := active }

/-- The bytes of a string literal of ASCII characters, as passed for a
`char *` argument. -/
def cstr (s : String) : List Nat :=
  s.data.map Char.toNat

/-- The system state that `kernel_init` establishes: no load, 25 °C, 1 W,
no active task, `NORMAL_STATE`. -/
def kernelInitState : SystemStateVector ℚ := ⟨0, 0, 25, 1, 0, 0⟩

/-! ## Fault subsystem state and operations (`src/fault/fault_tolerance.c`) -/

/-- Enumerator `NO_FAULT` of `FaultType`. -/
def NO_FAULT : Nat := 0

/-- Enumerator `TIMING_FAULT` of `FaultType`. -/
def TIMING_FAULT : Nat := 1

/-- Enumerator `MEMORY_FAULT` of `FaultType`. -/
def MEMORY_FAULT : Nat := 2

/-- Enumerator `COMPUTATION_FAULT` of `FaultType`. -/
def COMPUTATION_FAULT : Nat := 3

/-- Enumerator `COMMUNICATION_FAULT` of `FaultType`. -/
def COMMUNICATION_FAULT : Nat := 4

/-- Enumerator `POWER_FAULT` of `FaultType`. -/
def POWER_FAULT : Nat := 5

/-- The `FaultDetectionResult` struct; `type` is the integer value of the C
enum `FaultType`. -/
structure FaultDetectionResult where
  faultDetected : Nat
  type : Nat
  taskId : Nat
  address : Nat
  timestamp : Nat
  deriving DecidableEq

/-- The value of `FaultDetectionResult result = {0}`. -/
def zeroResult : FaultDetectionResult := ⟨0, 0, 0, 0, 0⟩

/-- The static arrays and the time stamp of `fault_tolerance.c`. -/
structure FaultState where
  g_injectedFaults : Fin MAX_TASKS → Nat
  g_faultAddresses : Fin MAX_TASKS → Nat
  g_watchdogTimers : Fin MAX_TASKS → Nat
  g_watchdogDeadlines : Fin MAX_TASKS → Nat
  g_faultRecoveryCounter : Fin MAX_TASKS → Nat
  g_lastCheckTime : Nat

/-- The read `a[i]` of an array of `MAX_TASKS` elements by an index that the
caller keeps below the task count.  Outside the array the C read is undefined;
the model returns `0` there. -/
def arrayAt (a : Fin MAX_TASKS → Nat) (i : Nat) : Nat :=
  if h : i < MAX_TASKS then a ⟨i, h⟩ else 0

/-- The write `a[i] = v` to an array of `MAX_TASKS` elements.  Outside the
array the C write is undefined; the model leaves the array unchanged there. -/
def arraySet (a : Fin MAX_TASKS → Nat) (i v : Nat) : Fin MAX_TASKS → Nat :=
  if h : i < MAX_TASKS then Function.update a ⟨i, h⟩ v else a

/-- The function `fault_tolerance_init`; `now` is the value of
`GetTickCount64()`. -/
def fault_tolerance_init (now : Nat) : FaultState :=
  { g_injectedFaults := fun _ => NO_FAULT,
    g_faultAddresses := fun _ => 0,
    g_watchdogTimers := fun _ => 0,
    g_watchdogDeadlines := fun _ => 0,
    g_faultRecoveryCounter := fun _ => 0,
    g_lastCheckTime := now }

/-- The function `set_watchdog_timer`; `now` is the value of
`GetTickCount64()`, and the `uint64_t` sum wraps modulo `2 ^ 64`. -/
def set_watchdog_timer (s : FaultState) (now taskId timeoutMs : Nat) : FaultState :=
  if h : taskId < MAX_TASKS then
    { s with
      g_watchdogTimers := Function.update s.g_watchdogTimers ⟨taskId, h⟩ timeoutMs,
      g_watchdogDeadlines :=
        Function.update s.g_watchdogDeadlines ⟨taskId, h⟩ ((now + timeoutMs) % 2 ^ 64) }
  else s

/-- The second test of the loop body of `fault_check_system`: a pending
injected fault of slot `i`. -/
def injected_fault_check (s : FaultState) (currentTime i : Nat) :
    Option FaultDetectionResult :=
  if arrayAt s.g_injectedFaults i ≠ NO_FAULT then
    some { faultDetected := 1, type := arrayAt s.g_injectedFaults i, taskId := i,
           address := arrayAt s.g_faultAddresses i, timestamp := currentTime }
  else none

/-- The loop body of `fault_check_system` for slot `i` holding task `t`: the
result returned from inside the loop, or `none` when the loop goes on. -/
def fault_check_slot {α : Type} (s : FaultState) (currentTime i : Nat) (t : Task α) :
    Option FaultDetectionResult :=
  if t.active ≠ 0 ∧ arrayAt s.g_watchdogTimers i > 0 then
    if currentTime > arrayAt s.g_watchdogDeadlines i then
      some { faultDetected := 1, type := TIMING_FAULT, taskId := i, address := 0,
             timestamp := currentTime }
    else injected_fault_check s currentTime i
  else injected_fault_check s currentTime i

/-- The loop of `fault_check_system` from slot `i` on, over the remaining
slots: the result of the first `return` inside the loop, if any. -/
def fault_check_from {α : Type} (s : FaultState) (currentTime : Nat) :
    Nat → List (Task α) → Option FaultDetectionResult
  | _, [] => none
  | i, t :: ts =>
    match fault_check_slot s currentTime i t with
    | some r => some r
    | none => fault_check_from s currentTime (i + 1) ts

/-- The function `fault_check_system`; `tasks` is the table returned by
`kernel_get_tasks` and `currentTime` the value of `GetTickCount64()`.  The
result is the returned struct and the state left behind. -/
def fault_check_system {α : Type} (s : FaultState) (tasks : List (Task α))
    (currentTime : Nat) : FaultDetectionResult × FaultState :=
  match fault_check_from s currentTime 0 tasks with
  | some r => (r, s)
  | none => (zeroResult, { s with g_lastCheckTime := currentTime })

/-- The function `fault_inject`: the return code and the state left behind. -/
def fault_inject {α : Type} (s : FaultState) (tasks : List (Task α))
    (type taskId address : Nat) : Int × FaultState :=
  if taskId < tasks.length then
    (0, { s with
          g_injectedFaults := arraySet s.g_injectedFaults taskId type,
          g_faultAddresses := arraySet s.g_faultAddresses taskId address })
  else (-1, s)

/-- The statement `g_faultRecoveryCounter[taskId]++` on a `uint32_t` counter. -/
def incrementRecoveryCounter (s : FaultState) (taskId : Nat) : FaultState :=
  { s with
    g_faultRecoveryCounter :=
      arraySet s.g_faultRecoveryCounter taskId
        ((arrayAt s.g_faultRecoveryCounter taskId + 1) % 2 ^ 32) }

/-- The function `fault_recovery_action`.  The pointer argument is `none` for
`NULL`; `now` is the value of `GetTickCount64()` read by `set_watchdog_timer`.
The product `deadlineMs * 2` is a `uint32_t` product and wraps modulo
`2 ^ 32`. -/
def fault_recovery_action {α : Type} (s : FaultState) (tasks : List (Task α))
    (result : Option FaultDetectionResult) (now : Nat) : FaultState :=
  match result with
  | none => s
  | some res =>
    if res.faultDetected = 0 then s
    else if h : res.taskId < tasks.length then
      let faultyTask := tasks[res.taskId]
      let s1 :=
        if res.type = TIMING_FAULT then
          incrementRecoveryCounter
            (set_watchdog_timer s now res.taskId ((faultyTask.deadlineMs * 2) % 2 ^ 32))
            res.taskId
        else if res.type = MEMORY_FAULT then incrementRecoveryCounter s res.taskId
        else if res.type = COMPUTATION_FAULT then incrementRecoveryCounter s res.taskId
        else if res.type = COMMUNICATION_FAULT then incrementRecoveryCounter s res.taskId
        else if res.type = POWER_FAULT then incrementRecoveryCounter s res.taskId
        else s
      { s1 with
        g_injectedFaults := arraySet s1.g_injectedFaults res.taskId NO_FAULT,
        g_faultAddresses := arraySet s1.g_faultAddresses res.taskId 0 }
    else s

/-- The watchdog test of `fault_check_system` for slot `i` holding task `t`:
active, timeout armed, and the current time past the watchdog deadline. -/
def watchdogExpired {α : Type} (s : FaultState) (currentTime i : Nat) (t : Task α) : Prop :=
  t.active ≠ 0 ∧ arrayAt s.g_watchdogTimers i > 0 ∧ currentTime > arrayAt s.g_watchdogDeadlines i

/-- The injection test of `fault_check_system` for slot `i`: an injected fault
other than `NO_FAULT` is pending. -/
def injectedPending (s : FaultState) (i : Nat) : Prop :=
  arrayAt s.g_injectedFaults i ≠ NO_FAULT

/-- Slot `i` makes `fault_check_system` return: its watchdog has expired or an
injected fault is pending. -/
def slotHit {α : Type} (s : FaultState) (currentTime i : Nat) (t : Task α) : Prop :=
  watchdogExpired s currentTime i t ∨ injectedPending s i

/-! ## Kernel registry and task creation (`src/core/kernel.c`,
`src/core/task_manager.c`) -/

/-- The registry globals of `kernel.c`: `g_tasks` holds the first
`g_taskCount` slots of the table, so `g_taskCount` is its length. -/
structure KernelState (α : Type) where
  g_tasks : List (Task α)
  g_systemState : SystemStateVector α
  g_tickCount : Nat

/-- The function `kernel_add_task`: the returned id (or `-1`) and the state
left behind. -/
def kernel_add_task {α : Type} (k : KernelState α) (task : Task α) :
    Int × KernelState α :=
  if k.g_tasks.length ≥ MAX_TASKS then (-1, k)
  else
    ((k.g_tasks.length : Int),
     { k with
       g_tasks := k.g_tasks ++ [{ task with id := k.g_tasks.length, active := 1 }],
       g_systemState := { k.g_systemState with activeTaskCount := k.g_tasks.length + 1 } })

/-- The descriptor that `task_create` builds in `*task` before it calls
`kernel_add_task`: `memset` to zero, `strncpy` of at most 31 bytes of the
name, then the field assignments and the history loop, which stores
`(float)task->executionTimeMs` in each of the ten entries. -/
def newTask {α : Type} [NatCast α] (name : List Nat)
    (entryPoint args periodMs deadlineMs criticality : Nat) : Task α :=
  { id := 0, name := strncpy name 31, entryPoint := entryPoint, args := args,
    periodMs := periodMs, deadlineMs := deadlineMs, executionTimeMs := periodMs / 10,
    basePriority := 8, dynamicPriority := 8, criticality := criticality,
    executionHistory := List.replicate 10 ((uint32ToFloat (periodMs / 10) : Nat) : α),
    lastExecutionTime := 0, missedDeadlines := 0, coreAffinity := 0, active := 1 }

/-- The function `task_create`.  The pointers `task` and `name` are `none`
for `NULL`, `entryPoint` is `0` for `NULL`; `now` is the value of
`GetTickCount64()` read by `set_watchdog_timer`.  The result is the return
code, the content of `*task`, and the kernel and fault states left behind. -/
def task_create {α : Type} [NatCast α] (k : KernelState α) (f : FaultState) (now : Nat)
    (task : Option (Task α)) (name : Option (List Nat))
    (entryPoint args periodMs deadlineMs criticality : Nat) :
    Int × Option (Task α) × KernelState α × FaultState :=
  match task, name with
  | some _, some nm =>
    if entryPoint = 0 then (-1, task, k, f)
    else
      let t : Task α := newTask nm entryPoint args periodMs deadlineMs criticality
      let r := kernel_add_task k t
      if r.1 ≥ 0 then
        (r.1, some { t with id := r.1.toNat }, r.2,
          if criticality = DAL_A ∨ criticality = DAL_B then
            set_watchdog_timer f now r.1.toNat deadlineMs
          else f)
      else (-1, some t, k, f)
  | _, _ => (-1, task, k, f)

/-! ## Memory matrix (`src/core/memory_matrix.c`) -/

/-- Enumerator `SHM_COUNT` of `SharedMemoryRegion`: the number of regions. -/
def SHM_COUNT : Nat := 6

/-- The table `DEFAULT_SIZES`, indexed by region. -/
def DEFAULT_SIZES : Fin SHM_COUNT → Nat :=
  ![1024, 4096, 1024, 2048, 8192, 16384]

/-- The globals of `memory_matrix.c`.  A region pointer is `none` for `NULL`
and otherwise the bytes of the allocated block. -/
structure MemoryMatrix where
  g_sharedMemory : Fin SHM_COUNT → Option (List Nat)
  g_regionSizes : Fin SHM_COUNT → Nat
  g_initialized : Nat

/-- The globals of `memory_matrix.c` at program start. -/
def memoryMatrixStartup : MemoryMatrix :=
  { g_sharedMemory := fun _ => none, g_regionSizes := fun _ => 0, g_initialized := 0 }

/-- The function `memory_matrix_init`.  Every `malloc` is taken to succeed (on
failure the C code leaves the process with `exit(1)`); each region is a block
of `DEFAULT_SIZES[i]` zero bytes. -/
def memory_matrix_init (m : MemoryMatrix) : MemoryMatrix :=
  if m.g_initialized ≠ 0 then m
  else
    { g_sharedMemory := fun i => some (List.replicate (DEFAULT_SIZES i) 0),
      g_regionSizes := fun i => DEFAULT_SIZES i,
      g_initialized := 1 }

/-- The call `memcpy(dest, src, n)` on the bytes at `dest` and `src`. -/
def memcpy (dest src : List Nat) (n : Nat) : List Nat :=
  src.take n ++ dest.drop n

/-- The function `memory_matrix_write`: the return code and the state left
behind.  The pointer `data` is `none` for `NULL` and otherwise the bytes it
points to. -/
def memory_matrix_write (m : MemoryMatrix) (region : Nat) (data : Option (List Nat))
    (size : Nat) : Int × MemoryMatrix :=
  if h : region < SHM_COUNT then
    if m.g_initialized = 0 then (-1, m)
    else
      match m.g_sharedMemory ⟨region, h⟩, data with
      | some block, some d =>
        if size > m.g_regionSizes ⟨region, h⟩ then (-2, m)
        else
          (0, { m with
                g_sharedMemory :=
                  Function.update m.g_sharedMemory ⟨region, h⟩ (some (memcpy block d size)) })
      | _, _ => (-1, m)
  else (-1, m)

/-- The function `memory_matrix_read`: the return code and the content of the
caller's buffer afterwards.  The pointer `buffer` is `none` for `NULL`. -/
def memory_matrix_read (m : MemoryMatrix) (region : Nat) (buffer : Option (List Nat))
    (size : Nat) : Int × Option (List Nat) :=
  if h : region < SHM_COUNT then
    if m.g_initialized = 0 then (-1, buffer)
    else
      match m.g_sharedMemory ⟨region, h⟩, buffer with
      | some block, some b =>
        if size > m.g_regionSizes ⟨region, h⟩ then (-2, buffer)
        else (0, some (memcpy b block size))
      | _, _ => (-1, buffer)
  else (-1, buffer)

/-- The state of the memory matrix after `memory_matrix_init`: the flag is
set and every region is an allocated block of its configured capacity. -/
def MemoryMatrixReady (m : MemoryMatrix) : Prop :=
  m.g_initialized ≠ 0 ∧
  ∀ i : Fin SHM_COUNT, m.g_regionSizes i = DEFAULT_SIZES i ∧
    ∃ block, m.g_sharedMemory i = some block ∧ block.length = DEFAULT_SIZES i

/-! ## Scheduler tick (`src/core/scheduler.c`) -/

/-- The static variables of `scheduler.c`. -/
structure SchedulerState (α : Type) where
  g_currentPolicy : String
  g_lastJitterNs : Nat
  g_worstCaseJitterNs : Nat
  g_schedulerRuns : Nat
  g_currentSystemState : SystemStateVector α
  g_lastDecision : ScheduleDecision

/-- The function `update_task_metrics`: the loop `for (i = 9; i > 0; i--)`
copies `executionHistory[i - 1]` to `executionHistory[i]`, then entry 0
receives `(float)task->lastExecutionTime`, the `uint32_t` rounded to
binary32. -/
def update_task_metrics {α : Type} [NatCast α] [Zero α] (task : Task α) : Task α :=
  let shifted := [9, 8, 7, 6, 5, 4, 3, 2, 1].foldl
    (fun (h : List α) (i : Nat) => h.set i (h.getD (i - 1) 0)) task.executionHistory
  { task with
    executionHistory := shifted.set 0 ((uint32ToFloat task.lastExecutionTime : Nat) : α) }

/-- The function `scheduler_tick`.  The argument `elapsed_ns` is the measured
duration `(endTime - startTime) * 1000000000 / frequency` as a `uint64_t`;
the casts `(uint32_t)elapsed_ns` are reductions modulo `2 ^ 32`.  The result
is the scheduler state and the kernel state left behind. -/
def scheduler_tick {α : Type} [LinearOrderedField α] [FloorRing α]
    (sch : SchedulerState α) (k : KernelState α)
    (g_faultRecoveryCounter : Fin MAX_TASKS → Nat) (g_modelLoaded : Nat)
    (inference : Nat → α) (elapsed_ns : Nat) : SchedulerState α × KernelState α :=
  let decision := fpga_scheduler_decide sch.g_currentPolicy g_faultRecoveryCounter
    g_modelLoaded inference k.g_tasks sch.g_currentSystemState
  let tasks :=
    if h : decision.taskId < k.g_tasks.length then
      if k.g_tasks[decision.taskId].active ≠ 0 then
        k.g_tasks.set decision.taskId (update_task_metrics k.g_tasks[decision.taskId])
      else k.g_tasks
    else k.g_tasks
  ({ sch with
     g_lastDecision := decision,
     g_lastJitterNs := elapsed_ns % 2 ^ 32,
     g_worstCaseJitterNs :=
       if elapsed_ns > sch.g_worstCaseJitterNs then elapsed_ns % 2 ^ 32
       else sch.g_worstCaseJitterNs,
     g_schedulerRuns := (sch.g_schedulerRuns + 1) % 2 ^ 32 },
   { k with g_tasks := tasks, g_tickCount := (k.g_tickCount + 1) % 2 ^ 64 })

/-! ## Concrete states used as test inputs -/

/-- The kernel registry holding the given table, with the system state of
`kernel_init` and tick count 0. -/
def kernelWith (tasks : List (Task ℚ)) : KernelState ℚ :=
  { g_tasks := tasks, g_systemState := kernelInitState, g_tickCount := 0 }

/-- The scheduler state of `scheduler_init` under the default policy, with
the given worst-case jitter already recorded. -/
def schedulerWith (worst : Nat) : SchedulerState ℚ :=
  { g_currentPolicy := "ML_HYBRID", g_lastJitterNs := 0, g_worstCaseJitterNs := worst,
    g_schedulerRuns := 0, g_currentSystemState := ⟨0, 0, 0, 0, 0, 0⟩,
    g_lastDecision := zeroDecision }

/-! ## Task lifecycle operations (`src/core/task_manager.c`) -/

/-- The function `task_delete`. -/
def task_delete {α : Type} (k : KernelState α) (taskId : Nat) : KernelState α :=
  if h : taskId < k.g_tasks.length then
    { k with g_tasks := k.g_tasks.set taskId { k.g_tasks[taskId] with active := 0 } }
  else k

/-- The function `task_set_priority`. -/
def task_set_priority {α : Type} (k : KernelState α) (taskId priority : Nat) :
    KernelState α :=
  if h : taskId < k.g_tasks.length then
    if priority < MAX_PRIORITY_LEVELS then
      { k with
        g_tasks := k.g_tasks.set taskId { k.g_tasks[taskId] with basePriority := priority } }
    else k
  else k

/-- The function `task_ready`. -/
def task_ready {α : Type} (k : KernelState α) (taskId : Nat) : Int :=
  if h : taskId < k.g_tasks.length then (k.g_tasks[taskId].active : Int) else 0

/-- The function `task_suspend`: the return code and the state left behind. -/
def task_suspend {α : Type} (k : KernelState α) (taskId : Nat) : Int × KernelState α :=
  if h : taskId < k.g_tasks.length then
    if k.g_tasks[taskId].active ≠ 0 then
      (0, { k with g_tasks := k.g_tasks.set taskId { k.g_tasks[taskId] with active := 0 } })
    else (-1, k)
  else (-1, k)

/-- The function `task_resume`: the return code and the state left behind. -/
def task_resume {α : Type} (k : KernelState α) (taskId : Nat) : Int × KernelState α :=
  if h : taskId < k.g_tasks.length then
    if k.g_tasks[taskId].active = 0 then
      (0, { k with g_tasks := k.g_tasks.set taskId { k.g_tasks[taskId] with active := 1 } })
    else (-1, k)
  else (-1, k)

/-! ## Initialisation and runs of the system (`src/core/kernel.c`) -/

/-- The registry globals that `kernel_init` leaves: task count 0, tick count
0, and the initial system state (25 °C, 1 W, `NORMAL_STATE`). -/
def kernel_init {α : Type} [LinearOrderedField α] : KernelState α :=
  { g_tasks := [], g_systemState := ⟨0, 0, 25, 1, 0, 0⟩, g_tickCount := 0 }

/-- The function `scheduler_init`: it resets the metrics and the last
decision and keeps the policy and the system-state copy. -/
def scheduler_init {α : Type} (sch : SchedulerState α) : SchedulerState α :=
  { sch with
    g_lastJitterNs := 0, g_worstCaseJitterNs := 0, g_schedulerRuns := 0,
    g_lastDecision := zeroDecision }

/-- The state of the three subsystems that own the registry, the fault tables
and the scheduler metrics. -/
structure RtosState (α : Type) where
  kernel : KernelState α
  fault : FaultState
  scheduler : SchedulerState α

/-- The state after `kernel_init`, called at time `now` with the scheduler
variables `sch`. -/
def rtosInit {α : Type} [LinearOrderedField α] (sch : SchedulerState α) (now : Nat) :
    RtosState α :=
  { kernel := kernel_init, fault := fault_tolerance_init now, scheduler := scheduler_init sch }

/-- One call of a registry, scheduler or recovery operation, with its
arguments and the values it reads from the environment. -/
inductive RtosOp (α : Type) where
  | create (now : Nat) (task : Option (Task α)) (name : Option (List Nat))
      (entryPoint args periodMs deadlineMs criticality : Nat)
  | delete (taskId : Nat)
  | suspend (taskId : Nat)
  | resume (taskId : Nat)
  | setPriority (taskId priority : Nat)
  | tick (g_modelLoaded : Nat) (inference : Nat → α) (elapsed_ns : Nat)
  | recovery (result : Option FaultDetectionResult) (now : Nat)

/-- The effect of one operation on the system state: `task_create`,
`task_delete`, `task_suspend`, `task_resume`, `task_set_priority`,
`scheduler_tick` or `fault_recovery_action`. -/
def rtosStep {α : Type} [LinearOrderedField α] [FloorRing α] (s : RtosState α) :
    RtosOp α → RtosState α
  | RtosOp.create now task name entryPoint args periodMs deadlineMs criticality =>
    { s with
      kernel := (task_create s.kernel s.fault now task name entryPoint args periodMs
        deadlineMs criticality).2.2.1,
      fault := (task_create s.kernel s.fault now task name entryPoint args periodMs
        deadlineMs criticality).2.2.2 }
  | RtosOp.delete taskId => { s with kernel := task_delete s.kernel taskId }
  | RtosOp.suspend taskId => { s with kernel := (task_suspend s.kernel taskId).2 }
  | RtosOp.resume taskId => { s with kernel := (task_resume s.kernel taskId).2 }
  | RtosOp.setPriority taskId priority =>
    { s with kernel := task_set_priority s.kernel taskId priority }
  | RtosOp.tick g_modelLoaded inference elapsed_ns =>
    { s with
      scheduler := (scheduler_tick s.scheduler s.kernel s.fault.g_faultRecoveryCounter
        g_modelLoaded inference elapsed_ns).1,
      kernel := (scheduler_tick s.scheduler s.kernel s.fault.g_faultRecoveryCounter
        g_modelLoaded inference elapsed_ns).2 }
  | RtosOp.recovery result now =>
    { s with fault := fault_recovery_action s.fault s.kernel.g_tasks result now }

/-- The state after a sequence of operations. -/
def rtosRun {α : Type} [LinearOrderedField α] [FloorRing α] (s : RtosState α)
    (ops : List (RtosOp α)) : RtosState α :=
  ops.foldl rtosStep s

/-- The registry invariant: at most `MAX_TASKS` registered slots, and the task
in slot `i` has id `i`. -/
def RegistryInvariant {α : Type} (k : KernelState α) : Prop :=
  k.g_tasks.length ≤ MAX_TASKS ∧ ∀ (i : Nat) (t : Task α), k.g_tasks[i]? = some t → t.id = i

/-! ## The priority formulas in the words of the specification -/

/-- The specification's `clamp(x, 0, 1)`. -/
def specClamp01 {α : Type} [LinearOrderedField α] (x : α) : α :=
  max 0 (min x 1)

/-- The specification's energy penalty: 0.20 whenever the power exceeds 4.0,
0.15 when the power is at most 4.0 and the temperature exceeds 70, else 0. -/
def specEnergyPenalty {α : Type} [LinearOrderedField α] (sysState : SystemStateVector α) : α :=
  if sysState.powerConsumption > 4 then 20 / 100
  else if sysState.powerConsumption ≤ 4 ∧ sysState.temperature > 70 then 15 / 100
  else 0

/-- The specification's dynamic priority:
`clamp(fuzzy_adjust(base + urg * fault - penalty), 0, 1)`. -/
def specDynamicPriority {α : Type} [LinearOrderedField α] [FloorRing α]
    (g_faultRecoveryCounter : Fin MAX_TASKS → Nat) (g_modelLoaded : Nat) (inference : α)
    (task : Task α) (sysState : SystemStateVector α) : α :=
  specClamp01
    (fuzzy_adjust_priority task
      ((task.basePriority : α) / (MAX_PRIORITY_LEVELS : α) +
        ml_predict_urgency g_modelLoaded inference *
          get_fault_recovery_factor g_faultRecoveryCounter task.id -
        specEnergyPenalty sysState)
      sysState)

/-- The specification's quantisation:
`floor(4 * clamp((v - min) / (max - min), 0, 1))`. -/
def specFuzzyLevel {α : Type} [LinearOrderedField α] [FloorRing α] (v min max : α) : Int :=
  ⌊4 * specClamp01 ((v - min) / (max - min))⌋

/-! ## Jitter read-out and stressed inputs (`src/core/scheduler.c`,
`src/ml/ml_engine.c`) -/

/-- The function `scheduler_get_jitter_ns`: it returns `g_worstCaseJitterNs`. -/
def scheduler_get_jitter_ns {α : Type} (sch : SchedulerState α) : Nat :=
  sch.g_worstCaseJitterNs

/-- A fully stressed system state: CPU load 1.0, 80 °C and 5 W, the upper ends
of the three ranges that `fuzzy_adjust_priority` quantises. -/
def stressedState : SystemStateVector ℚ := ⟨1, 0, 80, 5, 0, 0⟩

/-- An active task of period and deadline 100 ms with the given id and
criticality. -/
def mkCriticalTask (id criticality : Nat) : Task ℚ :=
  { mkTask id 100 100 1 with criticality := criticality }

/-! ## Lemmas on the policy loops -/

/-- The loop of `rate_monotonic_schedule` leaves its state unchanged over slots
that fail its guard. -/
theorem rate_monotonic_foldl_skip {α : Type} (ts : List (Task α)) (acc : Int × ScheduleDecision)
    (h : ∀ t ∈ ts, ¬ (t.active ≠ 0 ∧ t.periodMs > 0)) :
    ts.foldl rate_monotonic_step acc = acc := by
  induction ts generalizing acc with
  | nil => rfl
  | cons t ts ih =>
    have ht : rate_monotonic_step acc t = acc := by
      unfold rate_monotonic_step
      rw [if_neg (h t (List.mem_cons_self t ts))]
    rw [List.foldl_cons, ht]
    exact ih acc (fun u hu => h u (List.mem_cons_of_mem t hu))

/-- The loop of `earliest_deadline_schedule` leaves its state unchanged over
inactive slots. -/
theorem earliest_deadline_foldl_skip {α : Type} (ts : List (Task α))
    (acc : Nat × ScheduleDecision) (h : ∀ t ∈ ts, ¬ t.active ≠ 0) :
    ts.foldl earliest_deadline_step acc = acc := by
  induction ts generalizing acc with
  | nil => rfl
  | cons t ts ih =>
    have ht : earliest_deadline_step acc t = acc := by
      unfold earliest_deadline_step
      rw [if_neg (fun hc => h t (List.mem_cons_self t ts) hc.1)]
    rw [List.foldl_cons, ht]
    exact ih acc (fun u hu => h u (List.mem_cons_of_mem t hu))

/-- The loop of `ml_schedule` leaves its state unchanged over inactive slots. -/
theorem ml_schedule_from_skip {α : Type} [LinearOrderedField α] [FloorRing α]
    (c : Fin MAX_TASKS → Nat) (l : Nat) (inf : Nat → α) (st : SystemStateVector α)
    (ts : List (Task α)) (i : Nat) (acc : α × ScheduleDecision)
    (h : ∀ t ∈ ts, ¬ t.active ≠ 0) :
    ml_schedule_from c l inf st i ts acc = acc := by
  induction ts generalizing i acc with
  | nil => rfl
  | cons t ts ih =>
    unfold ml_schedule_from
    rw [if_neg (h t (List.mem_cons_self t ts))]
    exact ih (i + 1) acc (fun u hu => h u (List.mem_cons_of_mem t hu))

/-- The loop of `rate_monotonic_schedule` either keeps its state or ends with
the decision built from a slot that passed its guard. -/
theorem rate_monotonic_foldl_inv {α : Type} (ts : List (Task α)) (acc : Int × ScheduleDecision) :
    ts.foldl rate_monotonic_step acc = acc ∨
    ∃ t ∈ ts, (t.active ≠ 0 ∧ t.periodMs > 0) ∧
      (ts.foldl rate_monotonic_step acc).2 = decisionOf t := by
  induction ts generalizing acc with
  | nil => exact Or.inl rfl
  | cons t ts ih =>
    rw [List.foldl_cons]
    rcases ih (rate_monotonic_step acc t) with h | ⟨u, hu, he, hd⟩
    · rw [h]
      unfold rate_monotonic_step
      dsimp only
      split_ifs with h1
      · exact Or.inr ⟨t, List.mem_cons_self t ts, h1, rfl⟩
      · exact Or.inl rfl
      · exact Or.inl rfl
    · exact Or.inr ⟨u, List.mem_cons_of_mem t hu, he, hd⟩

/-- The loop of `earliest_deadline_schedule` either keeps its state or ends
with the decision built from an active slot. -/
theorem earliest_deadline_foldl_inv {α : Type} (ts : List (Task α))
    (acc : Nat × ScheduleDecision) :
    ts.foldl earliest_deadline_step acc = acc ∨
    ∃ t ∈ ts, t.active ≠ 0 ∧ (ts.foldl earliest_deadline_step acc).2 = decisionOf t := by
  induction ts generalizing acc with
  | nil => exact Or.inl rfl
  | cons t ts ih =>
    rw [List.foldl_cons]
    rcases ih (earliest_deadline_step acc t) with h | ⟨u, hu, he, hd⟩
    · rw [h]
      unfold earliest_deadline_step
      split_ifs with h1
      · exact Or.inr ⟨t, List.mem_cons_self t ts, h1.1, rfl⟩
      · exact Or.inl rfl
    · exact Or.inr ⟨u, List.mem_cons_of_mem t hu, he, hd⟩

/-- The loop of `ml_schedule`, started at slot `i` in state `acc`: either no
active slot beats the running best and the state is unchanged, or the final
state comes from an active slot `i + k` whose score beats the initial best, is
maximal among the active slots, and is strictly larger than the score of every
active slot before it. -/
theorem ml_schedule_from_spec {α : Type} [LinearOrderedField α] [FloorRing α]
    (c : Fin MAX_TASKS → Nat) (l : Nat) (inf : Nat → α) (st : SystemStateVector α)
    (ts : List (Task α)) (i : Nat) (acc : α × ScheduleDecision) :
    (ml_schedule_from c l inf st i ts acc = acc ∧
      ∀ k t, ts[k]? = some t → t.active ≠ 0 → ml_score c l inf st (i + k) t ≤ acc.1) ∨
    (∃ k t, ts[k]? = some t ∧ t.active ≠ 0 ∧
      ml_schedule_from c l inf st i ts acc = (ml_score c l inf st (i + k) t, decisionOf t) ∧
      acc.1 < ml_score c l inf st (i + k) t ∧
      (∀ j u, ts[j]? = some u → u.active ≠ 0 →
        ml_score c l inf st (i + j) u ≤ ml_score c l inf st (i + k) t) ∧
      (∀ j u, j < k → ts[j]? = some u → u.active ≠ 0 →
        ml_score c l inf st (i + j) u < ml_score c l inf st (i + k) t)) := by
  induction ts generalizing i acc with
  | nil =>
    left
    exact ⟨rfl, fun k t hk => by simp at hk⟩
  | cons t ts ih =>
    have hshift : ∀ j, i + 1 + j = i + (j + 1) := fun j => by omega
    unfold ml_schedule_from
    by_cases hsel : t.active ≠ 0 ∧ ml_score c l inf st i t > acc.1
    · have hacc : (if t.active ≠ 0 then
            (if ml_score c l inf st i t > acc.1 then (ml_score c l inf st i t, decisionOf t)
              else acc) else acc) = (ml_score c l inf st i t, decisionOf t) := by
        rw [if_pos hsel.1, if_pos hsel.2]
      dsimp only
      rw [hacc]
      rcases ih (i + 1) (ml_score c l inf st i t, decisionOf t) with
        ⟨hr, hall⟩ | ⟨k, u, hk, hu, hr, hlt, hall, hbefore⟩
      · right
        refine ⟨0, t, List.getElem?_cons_zero, hsel.1, by rw [hr]; rfl, hsel.2, ?_, ?_⟩
        · intro j u hj hu
          cases j with
          | zero =>
            simp only [List.getElem?_cons_zero, Option.some.injEq] at hj
            subst hj
            exact le_refl _
          | succ j =>
            rw [List.getElem?_cons_succ] at hj
            have := hall j u hj hu
            rw [hshift j] at this
            exact this
        · intro j u hj
          exact absurd hj (Nat.not_lt_zero j)
      · right
        rw [hshift k] at hr hlt hall hbefore
        refine ⟨k + 1, u, by rw [List.getElem?_cons_succ]; exact hk, hu, hr,
          lt_trans hsel.2 hlt, ?_, ?_⟩
        · intro j v hj hv
          cases j with
          | zero =>
            simp only [List.getElem?_cons_zero, Option.some.injEq] at hj
            subst hj
            exact le_of_lt hlt
          | succ j =>
            rw [List.getElem?_cons_succ] at hj
            have := hall j v hj hv
            rw [hshift j] at this
            exact this
        · intro j v hjk hj hv
          cases j with
          | zero =>
            simp only [List.getElem?_cons_zero, Option.some.injEq] at hj
            subst hj
            exact hlt
          | succ j =>
            rw [List.getElem?_cons_succ] at hj
            have := hbefore j v (by omega) hj hv
            rw [hshift j] at this
            exact this
    · have hacc : (if t.active ≠ 0 then
            (if ml_score c l inf st i t > acc.1 then (ml_score c l inf st i t, decisionOf t)
              else acc) else acc) = acc := by
        split_ifs with h1 h2
        · exact absurd ⟨h1, h2⟩ hsel
        · rfl
        · rfl
      have hle : t.active ≠ 0 → ml_score c l inf st i t ≤ acc.1 := fun h1 =>
        le_of_not_lt (fun h2 => hsel ⟨h1, h2⟩)
      dsimp only
      rw [hacc]
      rcases ih (i + 1) acc with ⟨hr, hall⟩ | ⟨k, u, hk, hu, hr, hlt, hall, hbefore⟩
      · left
        refine ⟨hr, ?_⟩
        intro j v hj hv
        cases j with
        | zero =>
          simp only [List.getElem?_cons_zero, Option.some.injEq] at hj
          subst hj
          exact hle hv
        | succ j =>
          rw [List.getElem?_cons_succ] at hj
          have := hall j v hj hv
          rw [hshift j] at this
          exact this
      · right
        rw [hshift k] at hr hlt hall hbefore
        refine ⟨k + 1, u, by rw [List.getElem?_cons_succ]; exact hk, hu, hr, hlt, ?_, ?_⟩
        · intro j v hj hv
          cases j with
          | zero =>
            simp only [List.getElem?_cons_zero, Option.some.injEq] at hj
            subst hj
            exact le_of_lt (lt_of_le_of_lt (hle hv) hlt)
          | succ j =>
            rw [List.getElem?_cons_succ] at hj
            have := hall j v hj hv
            rw [hshift j] at this
            exact this
        · intro j v hjk hj hv
          cases j with
          | zero =>
            simp only [List.getElem?_cons_zero, Option.some.injEq] at hj
            subst hj
            exact lt_of_le_of_lt (hle hv) hlt
          | succ j =>
            rw [List.getElem?_cons_succ] at hj
            have := hbefore j v (by omega) hj hv
            rw [hshift j] at this
            exact this

/-! ## Lemmas on the priority engine -/

/-- The two final clamps of `compute_dynamic_priority` keep the result in
`[0, 1]`. -/
theorem compute_dynamic_priority_clamped {α : Type} [LinearOrderedField α] [FloorRing α]
    (c : Fin MAX_TASKS → Nat) (l : Nat) (x : α) (task : Task α)
    (sysState : SystemStateVector α) :
    0 ≤ compute_dynamic_priority c l x task sysState ∧
    compute_dynamic_priority c l x task sysState ≤ 1 := by
  unfold compute_dynamic_priority
  dsimp only
  generalize fuzzy_adjust_priority task _ sysState = y
  split_ifs <;> constructor <;> linarith

/-- Closed form of `get_fault_recovery_factor` inside the table. -/
theorem get_fault_recovery_factor_min {α : Type} [LinearOrderedField α]
    (c : Fin MAX_TASKS → Nat) (taskId : Nat) (h : taskId < MAX_TASKS) :
    (get_fault_recovery_factor c taskId : α) = min 2 (1 + 2 / 10 * (c ⟨taskId, h⟩ : α)) := by
  unfold get_fault_recovery_factor
  dsimp only
  rw [dif_pos h]
  split_ifs with hc hf
  · rw [min_eq_left]; linarith
  · rw [min_eq_right]
    · ring
    · linarith
  · have h0 : c ⟨taskId, h⟩ = 0 := by omega
    rw [h0]; norm_num

/-! ## When a policy loop selects -/

/-- The running best of the RMS loop never decreases, and is non-negative once
a slot passing the guard has been visited. -/
theorem rate_monotonic_foldl_best {α : Type} (ts : List (Task α))
    (acc : Int × ScheduleDecision) :
    acc.1 ≤ (ts.foldl rate_monotonic_step acc).1 ∧
    ((∃ t ∈ ts, t.active ≠ 0 ∧ t.periodMs > 0) → 0 ≤ (ts.foldl rate_monotonic_step acc).1) := by
  induction ts generalizing acc with
  | nil => exact ⟨le_refl _, fun ⟨t, ht, _⟩ => absurd ht (List.not_mem_nil t)⟩
  | cons t ts ih =>
    rw [List.foldl_cons]
    have hq : (0 : Int) ≤ ((1000000 / t.periodMs : Nat) : Int) := Int.ofNat_nonneg _
    have hstep : acc.1 ≤ (rate_monotonic_step acc t).1 ∧
        (t.active ≠ 0 ∧ t.periodMs > 0 → 0 ≤ (rate_monotonic_step acc t).1) := by
      unfold rate_monotonic_step
      dsimp only
      split_ifs with h1 h2
      · exact ⟨le_of_lt h2, fun _ => hq⟩
      · exact ⟨le_refl _, fun _ => le_trans hq (not_lt.mp h2)⟩
      · exact ⟨le_refl _, fun h => absurd h h1⟩
    obtain ⟨ih1, ih2⟩ := ih (rate_monotonic_step acc t)
    refine ⟨le_trans hstep.1 ih1, ?_⟩
    rintro ⟨u, hu, helig⟩
    rcases List.mem_cons.mp hu with rfl | hu
    · exact le_trans (hstep.2 helig) ih1
    · exact ih2 ⟨u, hu, helig⟩

/-- The running best of the EDF loop never increases, and lies below the
deadline bound of every active slot visited. -/
theorem earliest_deadline_foldl_best {α : Type} (ts : List (Task α))
    (acc : Nat × ScheduleDecision) :
    (ts.foldl earliest_deadline_step acc).1 ≤ acc.1 ∧
    (∀ t ∈ ts, t.active ≠ 0 → (ts.foldl earliest_deadline_step acc).1 ≤ t.deadlineMs) := by
  induction ts generalizing acc with
  | nil => exact ⟨le_refl _, fun t ht => absurd ht (List.not_mem_nil t)⟩
  | cons t ts ih =>
    rw [List.foldl_cons]
    have hstep : (earliest_deadline_step acc t).1 ≤ acc.1 ∧
        (t.active ≠ 0 → (earliest_deadline_step acc t).1 ≤ t.deadlineMs) := by
      unfold earliest_deadline_step
      split_ifs with h1
      · exact ⟨le_of_lt h1.2, fun _ => le_refl _⟩
      · exact ⟨le_refl _, fun ha => not_lt.mp (fun hlt => h1 ⟨ha, hlt⟩)⟩
    obtain ⟨ih1, ih2⟩ := ih (earliest_deadline_step acc t)
    refine ⟨le_trans ih1 hstep.1, ?_⟩
    intro u hu hact
    rcases List.mem_cons.mp hu with rfl | hu
    · exact le_trans ih1 (hstep.2 hact)
    · exact ih2 u hu hact

/-- When the running best of the EDF loop changed, an active slot with a
deadline below the initial best was visited. -/
theorem earliest_deadline_foldl_changed {α : Type} (ts : List (Task α))
    (acc : Nat × ScheduleDecision)
    (h : (ts.foldl earliest_deadline_step acc).1 ≠ acc.1) :
    ∃ t ∈ ts, t.active ≠ 0 ∧ t.deadlineMs < acc.1 := by
  induction ts generalizing acc with
  | nil => exact absurd rfl h
  | cons t ts ih =>
    rw [List.foldl_cons] at h
    by_cases hsel : t.active ≠ 0 ∧ t.deadlineMs < acc.1
    · exact ⟨t, List.mem_cons_self t ts, hsel⟩
    · have hacc : earliest_deadline_step acc t = acc := by
        unfold earliest_deadline_step
        rw [if_neg hsel]
      rw [hacc] at h
      obtain ⟨u, hu, hres⟩ := ih acc h
      exact ⟨u, List.mem_cons_of_mem t hu, hres⟩

/-- A policy loop selects a task exactly when the table holds a task that is
eligible under the policy and, under EDF, has a deadline below `UINT32_MAX`. -/
theorem policySelects_iff {α : Type} [LinearOrderedField α] [FloorRing α]
    (g_currentPolicy : String) (g_faultRecoveryCounter : Fin MAX_TASKS → Nat)
    (g_modelLoaded : Nat) (inference : Nat → α) (tasks : List (Task α))
    (state : SystemStateVector α) :
    policySelects g_currentPolicy g_faultRecoveryCounter g_modelLoaded inference tasks state ↔
    ∃ t ∈ tasks, eligible g_currentPolicy t ∧
      (g_currentPolicy = "EDF" → t.deadlineMs < UINT32_MAX) := by
  unfold policySelects eligible
  split_ifs with hr he
  · subst hr
    constructor
    · intro hsel
      rcases rate_monotonic_foldl_inv tasks (-1, zeroDecision) with h | ⟨t, ht, helig, _⟩
      · exact absurd (by unfold rate_monotonic_loop; rw [h]) hsel
      · exact ⟨t, ht, ⟨helig.1, fun _ => helig.2⟩, fun hc => absurd hc (by decide)⟩
    · rintro ⟨t, ht, ⟨ha, hp⟩, _⟩
      have h0 := (rate_monotonic_foldl_best tasks (-1, zeroDecision)).2 ⟨t, ht, ha, hp rfl⟩
      unfold rate_monotonic_loop
      omega
  · subst he
    constructor
    · intro hsel
      obtain ⟨t, ht, ha, hd⟩ :=
        earliest_deadline_foldl_changed tasks (UINT32_MAX, zeroDecision) hsel
      exact ⟨t, ht, ⟨ha, fun hc => absurd hc (by decide)⟩, fun _ => hd⟩
    · rintro ⟨t, ht, ⟨ha, _⟩, hd⟩
      have h0 := (earliest_deadline_foldl_best tasks (UINT32_MAX, zeroDecision)).2 t ht ha
      have h1 := hd rfl
      unfold earliest_deadline_loop
      omega
  · constructor
    · intro hsel
      rcases ml_schedule_from_spec g_faultRecoveryCounter g_modelLoaded inference state tasks 0
          (-1, zeroDecision) with ⟨h, _⟩ | ⟨k, t, hk, ht, _, _, _, _⟩
      · exact absurd (by unfold ml_schedule_loop; rw [h]) hsel
      · exact ⟨t, List.getElem?_mem hk, ⟨ht, fun hc => absurd hc hr⟩, fun hc => absurd hc he⟩
    · rintro ⟨t, ht, ⟨ha, _⟩, _⟩
      obtain ⟨i, hi⟩ := List.getElem?_of_mem ht
      unfold ml_schedule_loop
      rcases ml_schedule_from_spec g_faultRecoveryCounter g_modelLoaded inference state tasks 0
          (-1, zeroDecision) with ⟨_, hall⟩ | ⟨k, u, _, _, hd, hlt, _, _⟩
      · exfalso
        have h1 := hall i t hi ha
        have h2 := (compute_dynamic_priority_clamped g_faultRecoveryCounter g_modelLoaded
          (inference (0 + i)) t state).1
        unfold ml_score at h1
        have h3 : ((-1 : α), zeroDecision).1 = -1 := rfl
        rw [h3] at h1
        linarith
      · rw [hd]
        have h3 : ((-1 : α), zeroDecision).1 = -1 := rfl
        rw [h3] at hlt
        exact ne_of_gt hlt

/-! ## Scheduler policies -/

/-- C1, defect of the code: under RMS, with two active tasks of periods 2000 ms
(slot 0) and 1999 ms (slot 1), both integer quotients `1000000 / period` are
500, so the decision names slot 0 although slot 1 has the shorter period. -/
theorem rate_monotonic_quotient_collision :
    (mkTask 0 2000 2000 1).active ≠ 0 ∧ (mkTask 1 1999 1999 1).active ≠ 0 ∧
    (mkTask 1 1999 1999 1).periodMs < (mkTask 0 2000 2000 1).periodMs ∧
    (fpga_scheduler_decide "RMS" (fun _ => 0) 1 (fun _ => (0 : ℚ))
      [mkTask 0 2000 2000 1, mkTask 1 1999 1999 1] kernelInitState).taskId = 0 := by
  decide

/-- C2, defect of the code: under EDF, a table whose only active task (slot 1)
has the relative deadline `UINT32_MAX` yields the zero decision, whose
`taskId` 0 names an inactive slot. -/
theorem earliest_deadline_misses_uint32_max :
    (mkTask 0 100 10 0).active = 0 ∧ (mkTask 1 100 4294967295 1).active ≠ 0 ∧
    (mkTask 1 100 4294967295 1).deadlineMs < 2 ^ 32 ∧
    fpga_scheduler_decide "EDF" (fun _ => 0) 1 (fun _ => (0 : ℚ))
      [mkTask 0 100 10 0, mkTask 1 100 4294967295 1] kernelInitState = zeroDecision := by
  decide

/-- C3: under ML_HYBRID, and under every policy string other than RMS and EDF,
for every table with ids equal to slot indices and at least one active task,
the decision names an active task whose dynamic priority computed in this call
is maximal among the active tasks, and which has the lowest id among the active
tasks reaching that maximum. -/
theorem fpga_scheduler_decide_ml_argmax {α : Type} [LinearOrderedField α] [FloorRing α]
    (g_currentPolicy : String) (g_faultRecoveryCounter : Fin MAX_TASKS → Nat)
    (g_modelLoaded : Nat) (inference : Nat → α) (tasks : List (Task α))
    (state : SystemStateVector α)
    (hrms : g_currentPolicy ≠ "RMS") (hedf : g_currentPolicy ≠ "EDF")
    (hid : ∀ (i : Nat) (t : Task α), tasks[i]? = some t → t.id = i)
    (hact : ∃ t ∈ tasks, t.active ≠ 0) :
    ∃ t, tasks[(fpga_scheduler_decide g_currentPolicy g_faultRecoveryCounter g_modelLoaded
          inference tasks state).taskId]? = some t ∧
      t.active ≠ 0 ∧
      t.id = (fpga_scheduler_decide g_currentPolicy g_faultRecoveryCounter g_modelLoaded
          inference tasks state).taskId ∧
      (∀ (i : Nat) (u : Task α), tasks[i]? = some u → u.active ≠ 0 →
        ml_score g_faultRecoveryCounter g_modelLoaded inference state i u ≤
          ml_score g_faultRecoveryCounter g_modelLoaded inference state t.id t) ∧
      (∀ (i : Nat) (u : Task α), tasks[i]? = some u → u.active ≠ 0 →
        ml_score g_faultRecoveryCounter g_modelLoaded inference state i u =
          ml_score g_faultRecoveryCounter g_modelLoaded inference state t.id t →
        t.id ≤ u.id) := by
  have hdec : fpga_scheduler_decide g_currentPolicy g_faultRecoveryCounter g_modelLoaded
      inference tasks state =
      (ml_schedule_from g_faultRecoveryCounter g_modelLoaded inference state 0 tasks
        (-1, zeroDecision)).2 := by
    unfold fpga_scheduler_decide
    rw [if_neg hrms, if_neg hedf]
    rfl
  rcases ml_schedule_from_spec g_faultRecoveryCounter g_modelLoaded inference state tasks 0
      (-1, zeroDecision) with ⟨_, hall⟩ | ⟨k, t, hk, ht, hd, _, hall, hbefore⟩
  · exfalso
    obtain ⟨t, htm, hta⟩ := hact
    obtain ⟨i, hi⟩ := List.getElem?_of_mem htm
    have h1 := hall i t hi hta
    have h2 := (compute_dynamic_priority_clamped g_faultRecoveryCounter g_modelLoaded
      (inference (0 + i)) t state).1
    unfold ml_score at h1
    have h3 : ((-1 : α), zeroDecision).1 = -1 := rfl
    rw [h3] at h1
    linarith
  · simp only [Nat.zero_add] at hd hall hbefore
    have hkid : t.id = k := hid k t hk
    have htask : (fpga_scheduler_decide g_currentPolicy g_faultRecoveryCounter g_modelLoaded
        inference tasks state).taskId = t.id := by
      rw [hdec, hd]
      rfl
    refine ⟨t, ?_, ht, htask.symm, ?_, ?_⟩
    · rw [htask, hkid]
      exact hk
    · intro i u hi hu
      rw [hkid]
      exact hall i u hi hu
    · intro i u hi hu heq
      rw [hkid] at heq ⊢
      rw [hid i u hi]
      by_contra hlt
      have := hbefore i u (by omega) hi hu
      rw [heq] at this
      exact lt_irrefl _ this

/-- Witness for C3: with slot 0 inactive and slot 1 active under ML_HYBRID the
hypotheses hold and the decision names slot 1. -/
theorem fpga_scheduler_decide_ml_argmax_witness :
    "ML_HYBRID" ≠ "RMS" ∧ "ML_HYBRID" ≠ "EDF" ∧
    (∀ (i : Nat) (t : Task ℚ),
      [mkTask 0 100 90 0, mkTask 1 50 40 1][i]? = some t → t.id = i) ∧
    (∃ t ∈ [mkTask 0 100 90 0, mkTask 1 50 40 1], t.active ≠ 0) ∧
    (fpga_scheduler_decide "ML_HYBRID" (fun _ => 0) 1 (fun _ => (1 / 2 : ℚ))
      [mkTask 0 100 90 0, mkTask 1 50 40 1] kernelInitState).taskId = 1 :=
  have hid : ∀ (i : Nat) (t : Task ℚ),
      [mkTask 0 100 90 0, mkTask 1 50 40 1][i]? = some t → t.id = i := by
    intro i t h
    rcases i with _ | _ | i
    · simp at h; subst h; rfl
    · simp at h; subst h; rfl
    · simp at h
  have hact : ∃ t ∈ [mkTask 0 100 90 0, mkTask 1 50 40 1], t.active ≠ 0 :=
    ⟨mkTask 1 50 40 1, by simp, by decide⟩
  ⟨by decide, by decide, hid, hact, by
    obtain ⟨t, hslot, hta, hti, _, _⟩ :=
      fpga_scheduler_decide_ml_argmax "ML_HYBRID" (fun _ => 0) 1 (fun _ => (1 / 2 : ℚ))
        [mkTask 0 100 90 0, mkTask 1 50 40 1] kernelInitState (by decide) (by decide) hid hact
    have hmem := List.getElem?_mem hslot
    simp only [List.mem_cons, List.mem_singleton, List.not_mem_nil, or_false] at hmem
    rcases hmem with rfl | rfl
    · exact absurd rfl hta
    · exact hti.symm⟩

/-- C4: for each policy and every table whose ids equal the slot indices,
whenever the policy loop selects a task, the slot named by `taskId` holds an
eligible task, and `targetCore` and `timeSliceMs` are that task's
`coreAffinity` and `executionTimeMs`. -/
theorem fpga_scheduler_decide_fields {α : Type} [LinearOrderedField α] [FloorRing α]
    (g_currentPolicy : String) (g_faultRecoveryCounter : Fin MAX_TASKS → Nat)
    (g_modelLoaded : Nat) (inference : Nat → α) (tasks : List (Task α))
    (state : SystemStateVector α)
    (hid : ∀ (i : Nat) (t : Task α), tasks[i]? = some t → t.id = i)
    (hsel : policySelects g_currentPolicy g_faultRecoveryCounter g_modelLoaded inference
      tasks state) :
    ∃ t, tasks[(fpga_scheduler_decide g_currentPolicy g_faultRecoveryCounter g_modelLoaded
          inference tasks state).taskId]? = some t ∧
      eligible g_currentPolicy t ∧
      (fpga_scheduler_decide g_currentPolicy g_faultRecoveryCounter g_modelLoaded
          inference tasks state).targetCore = t.coreAffinity ∧
      (fpga_scheduler_decide g_currentPolicy g_faultRecoveryCounter g_modelLoaded
          inference tasks state).timeSliceMs = t.executionTimeMs := by
  have hslot : ∀ t ∈ tasks, tasks[t.id]? = some t := by
    intro t ht
    obtain ⟨i, hi⟩ := List.getElem?_of_mem ht
    rw [hid i t hi]
    exact hi
  unfold policySelects at hsel
  unfold fpga_scheduler_decide
  split_ifs at hsel ⊢ with hr he
  · rcases rate_monotonic_foldl_inv tasks (-1, zeroDecision) with h | ⟨t, ht, helig, hd⟩
    · exact absurd (by unfold rate_monotonic_loop; rw [h]) hsel
    · refine ⟨t, ?_, ⟨helig.1, fun _ => helig.2⟩, ?_, ?_⟩
      · unfold rate_monotonic_schedule rate_monotonic_loop
        rw [hd]
        exact hslot t ht
      · unfold rate_monotonic_schedule rate_monotonic_loop
        rw [hd]
        rfl
      · unfold rate_monotonic_schedule rate_monotonic_loop
        rw [hd]
        rfl
  · rcases earliest_deadline_foldl_inv tasks (UINT32_MAX, zeroDecision) with
      h | ⟨t, ht, helig, hd⟩
    · exact absurd (by unfold earliest_deadline_loop; rw [h]) hsel
    · refine ⟨t, ?_, ⟨helig, fun hp => absurd hp hr⟩, ?_, ?_⟩
      · unfold earliest_deadline_schedule earliest_deadline_loop
        rw [hd]
        exact hslot t ht
      · unfold earliest_deadline_schedule earliest_deadline_loop
        rw [hd]
        rfl
      · unfold earliest_deadline_schedule earliest_deadline_loop
        rw [hd]
        rfl
  · rcases ml_schedule_from_spec g_faultRecoveryCounter g_modelLoaded inference state tasks 0
        (-1, zeroDecision) with ⟨h, _⟩ | ⟨k, t, hk, ht, hd, _, _, _⟩
    · exact absurd (by unfold ml_schedule_loop; rw [h]) hsel
    · refine ⟨t, ?_, ⟨ht, fun hp => absurd hp hr⟩, ?_, ?_⟩
      · unfold ml_schedule ml_schedule_loop
        rw [hd]
        exact hslot t (List.getElem?_mem hk)
      · unfold ml_schedule ml_schedule_loop
        rw [hd]
        rfl
      · unfold ml_schedule ml_schedule_loop
        rw [hd]
        rfl

/-- Witness for C4: under EDF a two-task table with ids 0 and 1 selects a
task. -/
theorem fpga_scheduler_decide_fields_witness :
    (∀ (i : Nat) (t : Task ℚ),
      [mkTask 0 100 90 1, mkTask 1 50 40 1][i]? = some t → t.id = i) ∧
    policySelects "EDF" (fun _ => 0) 1 (fun _ => (0 : ℚ))
      [mkTask 0 100 90 1, mkTask 1 50 40 1] kernelInitState ∧
    ∃ t, [mkTask 0 100 90 1, mkTask 1 50 40 1][(fpga_scheduler_decide "EDF" (fun _ => 0) 1
          (fun _ => (0 : ℚ)) [mkTask 0 100 90 1, mkTask 1 50 40 1]
          kernelInitState).taskId]? = some t ∧
      eligible "EDF" t ∧
      (fpga_scheduler_decide "EDF" (fun _ => 0) 1 (fun _ => (0 : ℚ))
          [mkTask 0 100 90 1, mkTask 1 50 40 1] kernelInitState).targetCore = t.coreAffinity ∧
      (fpga_scheduler_decide "EDF" (fun _ => 0) 1 (fun _ => (0 : ℚ))
          [mkTask 0 100 90 1, mkTask 1 50 40 1] kernelInitState).timeSliceMs
        = t.executionTimeMs :=
  have hid : ∀ (i : Nat) (t : Task ℚ),
      [mkTask 0 100 90 1, mkTask 1 50 40 1][i]? = some t → t.id = i := by
    intro i t h
    rcases i with _ | _ | i
    · simp at h; subst h; rfl
    · simp at h; subst h; rfl
    · simp at h
  have hsel : policySelects "EDF" (fun _ => 0) 1 (fun _ => (0 : ℚ))
      [mkTask 0 100 90 1, mkTask 1 50 40 1] kernelInitState := by
    unfold policySelects
    decide
  ⟨hid, hsel, fpga_scheduler_decide_fields "EDF" (fun _ => 0) 1 (fun _ => (0 : ℚ))
      [mkTask 0 100 90 1, mkTask 1 50 40 1] kernelInitState hid hsel⟩

/-- C5: under each of the three policies, when no task of the table is
eligible (empty table, no active task, or under RMS no active task with a
positive period), `fpga_scheduler_decide` returns the zero decision. -/
theorem fpga_scheduler_decide_no_eligible {α : Type} [LinearOrderedField α] [FloorRing α]
    (g_currentPolicy : String) (g_faultRecoveryCounter : Fin MAX_TASKS → Nat)
    (g_modelLoaded : Nat) (inference : Nat → α) (tasks : List (Task α))
    (state : SystemStateVector α)
    (h : ∀ t ∈ tasks, ¬ eligible g_currentPolicy t) :
    fpga_scheduler_decide g_currentPolicy g_faultRecoveryCounter g_modelLoaded inference
      tasks state = zeroDecision := by
  unfold fpga_scheduler_decide
  split_ifs with hr he
  · unfold rate_monotonic_schedule rate_monotonic_loop
    rw [rate_monotonic_foldl_skip tasks _ (fun t ht hc => h t ht ⟨hc.1, fun _ => hc.2⟩)]
  · unfold earliest_deadline_schedule earliest_deadline_loop
    rw [earliest_deadline_foldl_skip tasks _
      (fun t ht hc => h t ht ⟨hc, fun hp => absurd hp hr⟩)]
  · unfold ml_schedule ml_schedule_loop
    rw [ml_schedule_from_skip _ _ _ _ tasks 0 _
      (fun t ht hc => h t ht ⟨hc, fun hp => absurd hp hr⟩)]

/-- Witness for C5: under RMS a table with an active task of period 0 and an
inactive task has no eligible task. -/
theorem fpga_scheduler_decide_no_eligible_witness :
    (∀ t ∈ [mkTask 0 0 10 1, mkTask 1 100 10 0], ¬ eligible "RMS" t) ∧
    fpga_scheduler_decide "RMS" (fun _ => 0) 1 (fun _ => (0 : ℚ))
      [mkTask 0 0 10 1, mkTask 1 100 10 0] kernelInitState = zeroDecision :=
  ⟨by simp [eligible, mkTask],
   fpga_scheduler_decide_no_eligible "RMS" (fun _ => 0) 1 (fun _ => (0 : ℚ))
      [mkTask 0 0 10 1, mkTask 1 100 10 0] kernelInitState (by simp [eligible, mkTask])⟩

/-! ## Priority engine and fault subsystem -/

/-- C6: for every task, system state, recovery counters, model flag and
inference value, `compute_dynamic_priority` returns a value in `[0, 1]`. -/
theorem compute_dynamic_priority_range {α : Type} [LinearOrderedField α] [FloorRing α]
    (g_faultRecoveryCounter : Fin MAX_TASKS → Nat) (g_modelLoaded : Nat) (inference : α)
    (task : Task α) (sysState : SystemStateVector α) :
    0 ≤ compute_dynamic_priority g_faultRecoveryCounter g_modelLoaded inference task sysState ∧
    compute_dynamic_priority g_faultRecoveryCounter g_modelLoaded inference task sysState ≤ 1 :=
  compute_dynamic_priority_clamped g_faultRecoveryCounter g_modelLoaded inference task sysState

/-- C7, defect of the code: with the 32-bit inputs 256, 256, 0 the first two
agree on 256, yet `tmr_voting` returns 0, the low eight bits of 256. -/
theorem tmr_voting_truncates_majority :
    (256 : Nat) < 2 ^ 32 ∧ tmr_voting 256 256 0 = 0 ∧ tmr_voting 256 256 0 ≠ 256 := by
  decide

/-- C8: when the three inputs are pairwise different, `tmr_voting` returns the
sentinel `0xFF`. -/
theorem tmr_voting_no_majority (result1 result2 result3 : Nat)
    (h12 : result1 ≠ result2) (h13 : result1 ≠ result3) (h23 : result2 ≠ result3) :
    tmr_voting result1 result2 result3 = 0xFF := by
  unfold tmr_voting
  rw [if_neg (by tauto), if_neg h23]

/-- Witness for C8: the inputs 1, 2, 3 are pairwise different. -/
theorem tmr_voting_no_majority_witness :
    (1 : Nat) ≠ 2 ∧ (1 : Nat) ≠ 3 ∧ (2 : Nat) ≠ 3 ∧ tmr_voting 1 2 3 = 0xFF :=
  ⟨by decide, by decide, by decide,
    tmr_voting_no_majority 1 2 3 (by decide) (by decide) (by decide)⟩

/-- C9: for every task id, also one outside the table, and all recovery
counters, `get_fault_recovery_factor` lies between `1` and `2`. -/
theorem get_fault_recovery_factor_range {α : Type} [LinearOrderedField α]
    (g_faultRecoveryCounter : Fin MAX_TASKS → Nat) (taskId : Nat) :
    (1 : α) ≤ get_fault_recovery_factor g_faultRecoveryCounter taskId ∧
    get_fault_recovery_factor g_faultRecoveryCounter taskId ≤ (2 : α) := by
  unfold get_fault_recovery_factor
  dsimp only
  split_ifs with h hc hf
  · exact ⟨by norm_num, le_refl _⟩
  · have hnn : (0 : α) ≤ (g_faultRecoveryCounter ⟨taskId, h⟩ : α) * (2 / 10) :=
      mul_nonneg (Nat.cast_nonneg _) (by norm_num)
    exact ⟨by linarith, by linarith⟩
  · exact ⟨le_refl _, by norm_num⟩
  · exact ⟨le_refl _, by norm_num⟩

/-- C10: for a task id inside the table with recovery counter `c`,
`get_fault_recovery_factor` is exactly `min 2 (1 + 0.2 * c)`; it is `1` at
`c = 0`, `1 + 0.2 * c` up to `c = 5`, and `2` from `c = 5` on. -/
theorem get_fault_recovery_factor_eq {α : Type} [LinearOrderedField α]
    (g_faultRecoveryCounter : Fin MAX_TASKS → Nat) (taskId : Nat) (h : taskId < MAX_TASKS) :
    (get_fault_recovery_factor g_faultRecoveryCounter taskId : α) =
        min 2 (1 + 2 / 10 * (g_faultRecoveryCounter ⟨taskId, h⟩ : α)) ∧
    (g_faultRecoveryCounter ⟨taskId, h⟩ = 0 →
      (get_fault_recovery_factor g_faultRecoveryCounter taskId : α) = 1) ∧
    (g_faultRecoveryCounter ⟨taskId, h⟩ ≤ 5 →
      (get_fault_recovery_factor g_faultRecoveryCounter taskId : α) =
        1 + 2 / 10 * (g_faultRecoveryCounter ⟨taskId, h⟩ : α)) ∧
    (5 ≤ g_faultRecoveryCounter ⟨taskId, h⟩ →
      (get_fault_recovery_factor g_faultRecoveryCounter taskId : α) = 2) := by
  have key := get_fault_recovery_factor_min (α := α) g_faultRecoveryCounter taskId h
  refine ⟨key, ?_, ?_, ?_⟩
  · intro h0
    rw [key, h0]; norm_num
  · intro h5
    have h5c : (g_faultRecoveryCounter ⟨taskId, h⟩ : α) ≤ 5 := by exact_mod_cast h5
    rw [key, min_eq_right]
    linarith
  · intro h5
    have h5c : (5 : α) ≤ (g_faultRecoveryCounter ⟨taskId, h⟩ : α) := by exact_mod_cast h5
    rw [key, min_eq_left]
    linarith

/-- Witness for C10: slot 2 lies inside the table; with three recoveries its
factor is `8 / 5`, with seven it is capped at `2`. -/
theorem get_fault_recovery_factor_eq_witness :
    (2 : Nat) < MAX_TASKS ∧
    (get_fault_recovery_factor (fun _ => 3) 2 : ℚ) = 1 + 2 / 10 * ((3 : Nat) : ℚ) ∧
    (get_fault_recovery_factor (fun _ => 7) 2 : ℚ) = 2 :=
  ⟨by decide,
   (get_fault_recovery_factor_eq (fun _ => 3) 2 (by decide)).2.2.1 (by decide),
   (get_fault_recovery_factor_eq (fun _ => 7) 2 (by decide)).2.2.2 (by decide)⟩

/-! ## Lemmas on the fault subsystem -/

/-- Reading back the element just written. -/
theorem arrayAt_arraySet_same (a : Fin MAX_TASKS → Nat) (i v : Nat) (h : i < MAX_TASKS) :
    arrayAt (arraySet a i v) i = v := by
  unfold arrayAt arraySet
  rw [dif_pos h, dif_pos h]
  exact Function.update_same _ _ _

/-- A write leaves every other element as it was. -/
theorem arrayAt_arraySet_ne (a : Fin MAX_TASKS → Nat) (i j v : Nat) (h : j ≠ i) :
    arrayAt (arraySet a i v) j = arrayAt a j := by
  unfold arrayAt arraySet
  by_cases hi : i < MAX_TASKS
  · rw [dif_pos hi]
    by_cases hj : j < MAX_TASKS
    · rw [dif_pos hj, dif_pos hj]
      exact Function.update_noteq (fun hc => h (congrArg Fin.val hc)) _ _
    · rw [dif_neg hj, dif_neg hj]
  · rw [dif_neg hi]

/-- A write leaves every other element as it was, by `Fin` index. -/
theorem arraySet_apply_ne (a : Fin MAX_TASKS → Nat) (i v : Nat) (j : Fin MAX_TASKS)
    (h : j.val ≠ i) : arraySet a i v j = a j := by
  unfold arraySet
  by_cases hi : i < MAX_TASKS
  · rw [dif_pos hi]
    exact Function.update_noteq (fun hc => h (congrArg Fin.val hc)) _ _
  · rw [dif_neg hi]

/-- The loop body returns nothing exactly when the slot is no hit. -/
theorem fault_check_slot_eq_none_iff {α : Type} (s : FaultState) (now i : Nat) (t : Task α) :
    fault_check_slot s now i t = none ↔ ¬ slotHit s now i t := by
  unfold fault_check_slot injected_fault_check slotHit watchdogExpired injectedPending
  split_ifs with h1 h2 h3 h4
  · simp only [reduceCtorEq, false_iff, not_not]
    exact Or.inl ⟨h1.1, h1.2, h2⟩
  · simp only [reduceCtorEq, false_iff, not_not]
    exact Or.inr h3
  · simp only [true_iff]
    rintro (⟨_, _, hc⟩ | hc)
    · exact h2 hc
    · exact h3 hc
  · simp only [reduceCtorEq, false_iff, not_not]
    exact Or.inr h4
  · simp only [true_iff]
    rintro (⟨ha, hb, _⟩ | hc)
    · exact h1 ⟨ha, hb⟩
    · exact h4 hc

/-- On an expired watchdog the loop body returns the TIMING result. -/
theorem fault_check_slot_of_expired {α : Type} (s : FaultState) (now i : Nat) (t : Task α)
    (h : watchdogExpired s now i t) :
    fault_check_slot s now i t = some ⟨1, TIMING_FAULT, i, 0, now⟩ := by
  unfold fault_check_slot
  rw [if_pos ⟨h.1, h.2.1⟩, if_pos h.2.2]

/-- Without an expired watchdog the loop body returns what the injection test
returns. -/
theorem fault_check_slot_of_not_expired {α : Type} (s : FaultState) (now i : Nat) (t : Task α)
    (h : ¬ watchdogExpired s now i t) :
    fault_check_slot s now i t = injected_fault_check s now i := by
  unfold fault_check_slot
  split_ifs with h1 h2
  · exact absurd ⟨h1.1, h1.2, h2⟩ h
  · rfl
  · rfl

/-- The scan of `fault_check_system` from slot `i`: either no slot returns, or
the result is that of the first slot whose loop body returns. -/
theorem fault_check_from_spec {α : Type} (s : FaultState) (now : Nat) (ts : List (Task α))
    (i : Nat) :
    (fault_check_from s now i ts = none ∧
      ∀ k t, ts[k]? = some t → fault_check_slot s now (i + k) t = none) ∨
    (∃ k t r, ts[k]? = some t ∧ fault_check_slot s now (i + k) t = some r ∧
      fault_check_from s now i ts = some r ∧
      ∀ j u, j < k → ts[j]? = some u → fault_check_slot s now (i + j) u = none) := by
  induction ts generalizing i with
  | nil =>
    left
    exact ⟨rfl, fun k t hk => by simp at hk⟩
  | cons t ts ih =>
    have hshift : ∀ j, i + 1 + j = i + (j + 1) := fun j => by omega
    unfold fault_check_from
    cases hslot : fault_check_slot s now i t with
    | some r =>
      right
      refine ⟨0, t, r, List.getElem?_cons_zero, hslot, rfl, ?_⟩
      intro j u hj
      exact absurd hj (Nat.not_lt_zero j)
    | none =>
      dsimp only
      rcases ih (i + 1) with ⟨hr, hall⟩ | ⟨k, u, r, hk, hu, hr, hbefore⟩
      · left
        refine ⟨hr, ?_⟩
        intro j v hj
        cases j with
        | zero =>
          simp only [List.getElem?_cons_zero, Option.some.injEq] at hj
          subst hj
          exact hslot
        | succ j =>
          rw [List.getElem?_cons_succ] at hj
          have := hall j v hj
          rw [hshift j] at this
          exact this
      · right
        rw [hshift k] at hu
        refine ⟨k + 1, u, r, by rw [List.getElem?_cons_succ]; exact hk, hu, hr, ?_⟩
        intro j v hjk hj
        cases j with
        | zero =>
          simp only [List.getElem?_cons_zero, Option.some.injEq] at hj
          subst hj
          exact hslot
        | succ j =>
          rw [List.getElem?_cons_succ] at hj
          have := hbefore j v (by omega) hj
          rw [hshift j] at this
          exact this

/-- The result of `fault_check_system` when slot `i` is the first slot whose
loop body returns. -/
theorem fault_check_system_of_first {α : Type} (s : FaultState) (tasks : List (Task α))
    (now i : Nat) (t : Task α) (r : FaultDetectionResult)
    (hi : tasks[i]? = some t) (hr : fault_check_slot s now i t = some r)
    (hbefore : ∀ j u, j < i → tasks[j]? = some u → fault_check_slot s now j u = none) :
    (fault_check_system s tasks now).1 = r := by
  unfold fault_check_system
  rcases fault_check_from_spec s now tasks 0 with ⟨_, hall⟩ | ⟨k, u, r2, hk, hu, hfrom, hb⟩
  · have := hall i t hi
    rw [Nat.zero_add, hr] at this
    exact absurd this (by simp)
  · simp only [Nat.zero_add] at hu hb
    rw [hfrom]
    rcases Nat.lt_trichotomy k i with hlt | heq | hgt
    · have := hbefore k u hlt hk
      rw [hu] at this
      exact absurd this (by simp)
    · subst heq
      rw [hi] at hk
      cases hk
      rw [hr] at hu
      cases hu
      rfl
    · have := hb i t hgt hi
      rw [hr] at this
      exact absurd this (by simp)

/-- A detected result of `fault_check_system` comes from the loop body of the
slot it names. -/
theorem fault_check_system_detected {α : Type} (s : FaultState) (tasks : List (Task α))
    (now : Nat) (h : (fault_check_system s tasks now).1.faultDetected ≠ 0) :
    ∃ i t, tasks[i]? = some t ∧
      fault_check_slot s now i t = some (fault_check_system s tasks now).1 ∧
      (fault_check_system s tasks now).1.taskId = i ∧
      ∀ j u, j < i → tasks[j]? = some u → fault_check_slot s now j u = none := by
  unfold fault_check_system at h ⊢
  rcases fault_check_from_spec s now tasks 0 with ⟨hnone, _⟩ | ⟨k, u, r, hk, hu, hfrom, hb⟩
  · rw [hnone] at h
    exact absurd rfl h
  · simp only [Nat.zero_add] at hu hb
    rw [hfrom]
    refine ⟨k, u, hk, hu, ?_, hb⟩
    have hu2 := hu
    unfold fault_check_slot injected_fault_check at hu2
    split_ifs at hu2 <;> (cases hu2; rfl)

/-- The result of `fault_check_system` when no slot is a hit. -/
theorem fault_check_system_of_none {α : Type} (s : FaultState) (tasks : List (Task α))
    (now : Nat) (h : ∀ i t, tasks[i]? = some t → fault_check_slot s now i t = none) :
    (fault_check_system s tasks now).1 = zeroResult := by
  unfold fault_check_system
  rcases fault_check_from_spec s now tasks 0 with ⟨hnone, _⟩ | ⟨k, u, r, hk, hu, _, _⟩
  · rw [hnone]
  · rw [Nat.zero_add, h k u hk] at hu
    exact absurd hu (by simp)

/-- The result of `fault_check_system` when slot `i` is the least hit: it names
slot `i`, and it is the TIMING result when the watchdog of slot `i` expired and
the injected result otherwise. -/
theorem fault_check_system_least_hit {α : Type} (s : FaultState) (tasks : List (Task α))
    (now i : Nat) (t : Task α) (hi : tasks[i]? = some t) (hhit : slotHit s now i t)
    (hlow : ∀ j u, j < i → tasks[j]? = some u → ¬ slotHit s now j u) :
    (fault_check_system s tasks now).1.taskId = i ∧
    (watchdogExpired s now i t →
      (fault_check_system s tasks now).1 = ⟨1, TIMING_FAULT, i, 0, now⟩) ∧
    (¬ watchdogExpired s now i t →
      (fault_check_system s tasks now).1 =
        ⟨1, arrayAt s.g_injectedFaults i, i, arrayAt s.g_faultAddresses i, now⟩) := by
  have hlow2 : ∀ j u, j < i → tasks[j]? = some u → fault_check_slot s now j u = none :=
    fun j u hj hu => (fault_check_slot_eq_none_iff s now j u).mpr (hlow j u hj hu)
  have hexp : watchdogExpired s now i t →
      (fault_check_system s tasks now).1 = ⟨1, TIMING_FAULT, i, 0, now⟩ := fun hw =>
    fault_check_system_of_first s tasks now i t _ hi
      (fault_check_slot_of_expired s now i t hw) hlow2
  have hinj : ¬ watchdogExpired s now i t →
      (fault_check_system s tasks now).1 =
        ⟨1, arrayAt s.g_injectedFaults i, i, arrayAt s.g_faultAddresses i, now⟩ := by
    intro hw
    have hp : injectedPending s i := hhit.resolve_left hw
    refine fault_check_system_of_first s tasks now i t _ hi ?_ hlow2
    rw [fault_check_slot_of_not_expired s now i t hw]
    unfold injected_fault_check
    exact if_pos hp
  refine ⟨?_, hexp, hinj⟩
  by_cases hw : watchdogExpired s now i t
  · rw [hexp hw]
  · rw [hinj hw]

/-- The fault arrays that `set_watchdog_timer` does not write. -/
theorem set_watchdog_timer_frame (s : FaultState) (now taskId timeoutMs : Nat) :
    (set_watchdog_timer s now taskId timeoutMs).g_injectedFaults = s.g_injectedFaults ∧
    (set_watchdog_timer s now taskId timeoutMs).g_faultAddresses = s.g_faultAddresses ∧
    (set_watchdog_timer s now taskId timeoutMs).g_faultRecoveryCounter =
      s.g_faultRecoveryCounter := by
  unfold set_watchdog_timer
  split_ifs <;> exact ⟨rfl, rfl, rfl⟩

/-- The watchdog entries that `set_watchdog_timer` writes for a slot inside the
table. -/
theorem set_watchdog_timer_at (s : FaultState) (now taskId timeoutMs : Nat)
    (h : taskId < MAX_TASKS) :
    arrayAt (set_watchdog_timer s now taskId timeoutMs).g_watchdogTimers taskId = timeoutMs ∧
    arrayAt (set_watchdog_timer s now taskId timeoutMs).g_watchdogDeadlines taskId =
      (now + timeoutMs) % 2 ^ 64 := by
  unfold set_watchdog_timer arrayAt
  rw [dif_pos h, dif_pos h, dif_pos h]
  exact ⟨Function.update_same _ _ _, Function.update_same _ _ _⟩

/-- The recovery counters after `fault_recovery_action` on a detected result of
one of the five fault types for a registered task. -/
theorem fault_recovery_action_counter {α : Type} (s : FaultState) (tasks : List (Task α))
    (res : FaultDetectionResult) (now : Nat)
    (hdet : res.faultDetected ≠ 0) (hreg : res.taskId < tasks.length)
    (htype : res.type = TIMING_FAULT ∨ res.type = MEMORY_FAULT ∨
      res.type = COMPUTATION_FAULT ∨ res.type = COMMUNICATION_FAULT ∨
      res.type = POWER_FAULT) :
    (fault_recovery_action s tasks (some res) now).g_faultRecoveryCounter =
      arraySet s.g_faultRecoveryCounter res.taskId
        ((arrayAt s.g_faultRecoveryCounter res.taskId + 1) % 2 ^ 32) := by
  unfold fault_recovery_action
  dsimp only
  rw [if_neg hdet, dif_pos hreg]
  dsimp only
  split_ifs with h1 h2 h3 h4 h5
  · unfold incrementRecoveryCounter
    dsimp only
    rw [(set_watchdog_timer_frame s now res.taskId _).2.2]
  · rfl
  · rfl
  · rfl
  · rfl
  · rcases htype with h | h | h | h | h
    · exact absurd h h1
    · exact absurd h h2
    · exact absurd h h3
    · exact absurd h h4
    · exact absurd h h5

/-- The injection arrays after `fault_recovery_action` on a detected result for
a registered task: the slot of that task is cleared. -/
theorem fault_recovery_action_injected {α : Type} (s : FaultState) (tasks : List (Task α))
    (res : FaultDetectionResult) (now : Nat)
    (hdet : res.faultDetected ≠ 0) (hreg : res.taskId < tasks.length) :
    (fault_recovery_action s tasks (some res) now).g_injectedFaults =
      arraySet s.g_injectedFaults res.taskId NO_FAULT ∧
    (fault_recovery_action s tasks (some res) now).g_faultAddresses =
      arraySet s.g_faultAddresses res.taskId 0 := by
  unfold fault_recovery_action
  dsimp only
  rw [if_neg hdet, dif_pos hreg]
  dsimp only
  split_ifs
  · unfold incrementRecoveryCounter
    dsimp only
    rw [(set_watchdog_timer_frame s now res.taskId _).1,
      (set_watchdog_timer_frame s now res.taskId _).2.1]
    exact ⟨rfl, rfl⟩
  all_goals exact ⟨rfl, rfl⟩


/-- A check does not report TIMING for a slot whose watchdog has not expired
and for which no TIMING fault is injected. -/
theorem fault_check_system_no_timing {α : Type} (s : FaultState) (tasks : List (Task α))
    (now id : Nat) (hquiet : ∀ t : Task α, ¬ watchdogExpired s now id t)
    (hinj : arrayAt s.g_injectedFaults id ≠ TIMING_FAULT) :
    ¬ ((fault_check_system s tasks now).1.faultDetected ≠ 0 ∧
      (fault_check_system s tasks now).1.type = TIMING_FAULT ∧
      (fault_check_system s tasks now).1.taskId = id) := by
  rintro ⟨hdet, htype, hname⟩
  obtain ⟨i, t, _, hslot, hid, _⟩ := fault_check_system_detected s tasks now hdet
  have hi : i = id := by rw [← hid, hname]
  subst hi
  rw [fault_check_slot_of_not_expired s now i t (hquiet t)] at hslot
  unfold injected_fault_check at hslot
  split_ifs at hslot
  have hty := congrArg FaultDetectionResult.type (Option.some.inj hslot)
  dsimp only at hty
  rw [htype] at hty
  exact hinj hty

/-- A successful `task_create`: the return value is the old task count, the
descriptor is appended to the table, and the watchdog is set exactly for the
criticalities `DAL_A` and `DAL_B`. -/
theorem task_create_success {α : Type} [NatCast α] (k : KernelState α) (f : FaultState)
    (now : Nat) (task : Task α) (name : List Nat)
    (entryPoint args periodMs deadlineMs criticality : Nat)
    (hentry : entryPoint ≠ 0) (hroom : k.g_tasks.length < MAX_TASKS) :
    (task_create k f now (some task) (some name) entryPoint args periodMs deadlineMs
        criticality).1 = (k.g_tasks.length : Int) ∧
    (task_create k f now (some task) (some name) entryPoint args periodMs deadlineMs
        criticality).2.2.1.g_tasks =
      k.g_tasks ++ [{ (newTask name entryPoint args periodMs deadlineMs criticality : Task α)
        with id := k.g_tasks.length, active := 1 }] ∧
    (task_create k f now (some task) (some name) entryPoint args periodMs deadlineMs
        criticality).2.2.2 =
      if criticality = DAL_A ∨ criticality = DAL_B then
        set_watchdog_timer f now k.g_tasks.length deadlineMs
      else f := by
  have hadd : kernel_add_task k
      (newTask name entryPoint args periodMs deadlineMs criticality : Task α) =
      ((k.g_tasks.length : Int),
       { k with
         g_tasks := k.g_tasks ++
           [{ (newTask name entryPoint args periodMs deadlineMs criticality : Task α)
              with id := k.g_tasks.length, active := 1 }],
         g_systemState :=
           { k.g_systemState with activeTaskCount := k.g_tasks.length + 1 } }) := by
    unfold kernel_add_task
    rw [if_neg (not_le.mpr hroom)]
  unfold task_create
  dsimp only
  rw [if_neg hentry, hadd]
  dsimp only
  rw [if_pos (Int.ofNat_nonneg _)]
  exact ⟨rfl, rfl, by simp only [Int.toNat_ofNat]⟩
/-! ## Fault detection, injection and recovery -/

/-- C11: `fault_check_system` returns the first hit of an ascending scan over
the registered slots: a fault is detected exactly when some slot has an
expired watchdog or a pending injected fault; the result then names the least
such slot and is the TIMING result when that slot's watchdog expired, the
injected result otherwise; without any hit the result is all zero. -/
theorem fault_check_system_first_hit {α : Type} (s : FaultState) (tasks : List (Task α))
    (now : Nat) (hcount : tasks.length ≤ MAX_TASKS) :
    ((fault_check_system s tasks now).1.faultDetected ≠ 0 ↔
      ∃ i t, tasks[i]? = some t ∧ slotHit s now i t) ∧
    (∀ i t, tasks[i]? = some t → slotHit s now i t →
      (∀ j u, j < i → tasks[j]? = some u → ¬ slotHit s now j u) →
      i < MAX_TASKS ∧
      (fault_check_system s tasks now).1.taskId = i ∧
      (watchdogExpired s now i t →
        (fault_check_system s tasks now).1 = ⟨1, TIMING_FAULT, i, 0, now⟩) ∧
      (¬ watchdogExpired s now i t →
        (fault_check_system s tasks now).1 =
          ⟨1, arrayAt s.g_injectedFaults i, i, arrayAt s.g_faultAddresses i, now⟩)) ∧
    ((∀ i t, tasks[i]? = some t → ¬ slotHit s now i t) →
      (fault_check_system s tasks now).1 = zeroResult) := by
  have hfirst : ∀ i t, tasks[i]? = some t → slotHit s now i t →
      (∀ j u, j < i → tasks[j]? = some u → ¬ slotHit s now j u) →
      i < MAX_TASKS ∧
      (fault_check_system s tasks now).1.taskId = i ∧
      (watchdogExpired s now i t →
        (fault_check_system s tasks now).1 = ⟨1, TIMING_FAULT, i, 0, now⟩) ∧
      (¬ watchdogExpired s now i t →
        (fault_check_system s tasks now).1 =
          ⟨1, arrayAt s.g_injectedFaults i, i, arrayAt s.g_faultAddresses i, now⟩) := by
    intro i t hi hhit hlow
    have hlen : i < tasks.length := by
      rcases List.getElem?_eq_some.mp hi with ⟨h, _⟩
      exact h
    exact ⟨lt_of_lt_of_le hlen hcount, fault_check_system_least_hit s tasks now i t hi hhit hlow⟩
  refine ⟨⟨?_, ?_⟩, hfirst, ?_⟩
  · intro hdet
    obtain ⟨i, t, hi, hslot, _, _⟩ := fault_check_system_detected s tasks now hdet
    refine ⟨i, t, hi, ?_⟩
    by_contra hno
    rw [(fault_check_slot_eq_none_iff s now i t).mpr hno] at hslot
    exact absurd hslot (by simp)
  · rintro ⟨i, t, hi, hhit⟩
    have hex : ∃ n, ∃ u, tasks[n]? = some u ∧ slotHit s now n u := ⟨i, t, hi, hhit⟩
    classical
    obtain ⟨u, hu, hhitu⟩ := Nat.find_spec hex
    have hmin : ∀ j v, j < Nat.find hex → tasks[j]? = some v → ¬ slotHit s now j v :=
      fun j v hj hv hc => Nat.find_min hex hj ⟨v, hv, hc⟩
    obtain ⟨_, _, h1, h2⟩ := hfirst (Nat.find hex) u hu hhitu hmin
    by_cases hw : watchdogExpired s now (Nat.find hex) u
    · rw [h1 hw]
      exact Nat.one_ne_zero
    · rw [h2 hw]
      exact Nat.one_ne_zero
  · intro hno
    exact fault_check_system_of_none s tasks now
      (fun i t hi => (fault_check_slot_eq_none_iff s now i t).mpr (hno i t hi))

/-- Witness for C11: in a two-slot table with a MEMORY fault injected for
slot 1 and no watchdog armed, the check names slot 1. -/
theorem fault_check_system_first_hit_witness :
    [mkTask 0 100 100 1, mkTask 1 50 40 1].length ≤ MAX_TASKS ∧
    (fault_check_system
      (fault_inject (fault_tolerance_init 0) [mkTask 0 100 100 1, mkTask 1 50 40 1]
        MEMORY_FAULT 1 4096).2
      [mkTask 0 100 100 1, mkTask 1 50 40 1] 7).1.taskId = 1 :=
  ⟨by decide,
   ((fault_check_system_first_hit
      (fault_inject (fault_tolerance_init 0) [mkTask 0 100 100 1, mkTask 1 50 40 1]
        MEMORY_FAULT 1 4096).2
      [mkTask 0 100 100 1, mkTask 1 50 40 1] 7 (by decide)).2.1 1 (mkTask 1 50 40 1) rfl
      (Or.inr (by unfold injectedPending; decide))
      (fun j u hj hu => by
        have hj0 : j = 0 := by omega
        subst hj0
        simp only [List.getElem?_cons_zero, Option.some.injEq] at hu
        subst hu
        unfold slotHit watchdogExpired injectedPending
        decide)).2.1⟩

/-- C12: for a registered task id and a fault type other than `NO_FAULT`,
`fault_inject` returns success and the next `fault_check_system` returns the
injected fault with that id and address, provided the watchdog of that slot has
not expired and no lower-numbered slot is a hit; for an id at or above the
task count `fault_inject` fails and leaves the fault state unchanged. -/
theorem fault_inject_then_check {α : Type} (s : FaultState) (tasks : List (Task α))
    (type taskId address now : Nat) (hcount : tasks.length ≤ MAX_TASKS) :
    (taskId < tasks.length → type ≠ NO_FAULT →
      (fault_inject s tasks type taskId address).1 = 0 ∧
      ∀ t, tasks[taskId]? = some t →
        ¬ watchdogExpired (fault_inject s tasks type taskId address).2 now taskId t →
        (∀ j u, j < taskId → tasks[j]? = some u →
          ¬ slotHit (fault_inject s tasks type taskId address).2 now j u) →
        (fault_check_system (fault_inject s tasks type taskId address).2 tasks now).1 =
          ⟨1, type, taskId, address, now⟩) ∧
    (tasks.length ≤ taskId →
      (fault_inject s tasks type taskId address).1 = -1 ∧
      (fault_inject s tasks type taskId address).2 = s) := by
  constructor
  · intro hreg htype
    have hmax : taskId < MAX_TASKS := lt_of_lt_of_le hreg hcount
    have hstate : (fault_inject s tasks type taskId address).2 =
        { s with
          g_injectedFaults := arraySet s.g_injectedFaults taskId type,
          g_faultAddresses := arraySet s.g_faultAddresses taskId address } := by
      unfold fault_inject
      rw [if_pos hreg]
    refine ⟨by unfold fault_inject; rw [if_pos hreg], ?_⟩
    intro t ht hw hlow
    have hpend : injectedPending (fault_inject s tasks type taskId address).2 taskId := by
      unfold injectedPending
      rw [hstate]
      dsimp only
      rw [arrayAt_arraySet_same _ _ _ hmax]
      exact htype
    have hres := (fault_check_system_least_hit (fault_inject s tasks type taskId address).2
      tasks now taskId t ht (Or.inr hpend) hlow).2.2 hw
    rw [hres, hstate]
    dsimp only
    rw [arrayAt_arraySet_same _ _ _ hmax, arrayAt_arraySet_same _ _ _ hmax]
  · intro hout
    unfold fault_inject
    rw [if_neg (not_lt.mpr hout)]
    exact ⟨rfl, rfl⟩

/-- Witness for C12: a MEMORY fault injected for slot 1 of a two-slot table
during the first check after `fault_tolerance_init`. -/
theorem fault_inject_then_check_witness :
    [mkTask 0 100 100 1, mkTask 1 50 40 1].length ≤ MAX_TASKS ∧
    (1 : Nat) < [mkTask 0 100 100 1, mkTask 1 50 40 1].length ∧
    MEMORY_FAULT ≠ NO_FAULT ∧
    (fault_check_system
      (fault_inject (fault_tolerance_init 0) [mkTask 0 100 100 1, mkTask 1 50 40 1]
        MEMORY_FAULT 1 8192).2
      [mkTask 0 100 100 1, mkTask 1 50 40 1] 7).1 = ⟨1, MEMORY_FAULT, 1, 8192, 7⟩ :=
  ⟨by decide, by decide, by decide,
   ((fault_inject_then_check (fault_tolerance_init 0) [mkTask 0 100 100 1, mkTask 1 50 40 1]
      MEMORY_FAULT 1 8192 7 (by decide)).1 (by decide) (by decide)).2 (mkTask 1 50 40 1) rfl
      (by unfold watchdogExpired; decide)
      (fun j u hj hu => by
        have hj0 : j = 0 := by omega
        subst hj0
        simp only [List.getElem?_cons_zero, Option.some.injEq] at hu
        subst hu
        unfold slotHit watchdogExpired injectedPending
        decide)⟩

/-- C13: after `fault_recovery_action` on a detected result for a registered
task, whatever its fault type, the injected fault of that task is `NO_FAULT`
and its injected address is 0; as long as no new fault is injected for it, a
detected result of `fault_check_system` naming that task is the watchdog
TIMING result and never an injected fault. -/
theorem fault_recovery_clears_injected {α : Type} (s : FaultState) (tasks : List (Task α))
    (res : FaultDetectionResult) (now : Nat) (hcount : tasks.length ≤ MAX_TASKS)
    (hdet : res.faultDetected ≠ 0) (hreg : res.taskId < tasks.length) :
    arrayAt (fault_recovery_action s tasks (some res) now).g_injectedFaults res.taskId
      = NO_FAULT ∧
    arrayAt (fault_recovery_action s tasks (some res) now).g_faultAddresses res.taskId = 0 ∧
    ∀ (s2 : FaultState) (tasks2 : List (Task α)) (now2 : Nat),
      arrayAt s2.g_injectedFaults res.taskId =
        arrayAt (fault_recovery_action s tasks (some res) now).g_injectedFaults res.taskId →
      (fault_check_system s2 tasks2 now2).1.faultDetected ≠ 0 →
      (fault_check_system s2 tasks2 now2).1.taskId = res.taskId →
      (fault_check_system s2 tasks2 now2).1 = ⟨1, TIMING_FAULT, res.taskId, 0, now2⟩ := by
  have hmax : res.taskId < MAX_TASKS := lt_of_lt_of_le hreg hcount
  obtain ⟨hinj, haddr⟩ := fault_recovery_action_injected s tasks res now hdet hreg
  have hcleared : arrayAt (fault_recovery_action s tasks (some res) now).g_injectedFaults
      res.taskId = NO_FAULT := by
    rw [hinj, arrayAt_arraySet_same _ _ _ hmax]
  refine ⟨hcleared, by rw [haddr, arrayAt_arraySet_same _ _ _ hmax], ?_⟩
  intro s2 tasks2 now2 hsame hdet2 hname
  obtain ⟨i, t, _, hslot, hid, _⟩ := fault_check_system_detected s2 tasks2 now2 hdet2
  have hi : i = res.taskId := by rw [← hid, hname]
  subst hi
  by_cases hw : watchdogExpired s2 now2 res.taskId t
  · rw [fault_check_slot_of_expired s2 now2 res.taskId t hw] at hslot
    exact (Option.some.inj hslot).symm
  · exfalso
    rw [fault_check_slot_of_not_expired s2 now2 res.taskId t hw] at hslot
    unfold injected_fault_check at hslot
    rw [if_neg (not_not.mpr (hsame.trans hcleared))] at hslot
    exact absurd hslot (by simp)

/-- Witness for C13: recovery from a MEMORY fault injected for slot 1. -/
theorem fault_recovery_clears_injected_witness :
    [mkTask 0 100 100 1, mkTask 1 50 40 1].length ≤ MAX_TASKS ∧
    (⟨1, MEMORY_FAULT, 1, 8192, 7⟩ : FaultDetectionResult).faultDetected ≠ 0 ∧
    (⟨1, MEMORY_FAULT, 1, 8192, 7⟩ : FaultDetectionResult).taskId
      < [mkTask 0 100 100 1, mkTask 1 50 40 1].length ∧
    arrayAt (fault_recovery_action
      (fault_inject (fault_tolerance_init 0) [mkTask 0 100 100 1, mkTask 1 50 40 1]
        MEMORY_FAULT 1 8192).2
      [mkTask 0 100 100 1, mkTask 1 50 40 1] (some ⟨1, MEMORY_FAULT, 1, 8192, 7⟩)
      7).g_injectedFaults 1 = NO_FAULT :=
  ⟨by decide, by decide, by decide,
   (fault_recovery_clears_injected
      (fault_inject (fault_tolerance_init 0) [mkTask 0 100 100 1, mkTask 1 50 40 1]
        MEMORY_FAULT 1 8192).2
      [mkTask 0 100 100 1, mkTask 1 50 40 1] ⟨1, MEMORY_FAULT, 1, 8192, 7⟩ 7
      (by decide) (by decide) (by decide)).1⟩

/-- The effect of `fault_recovery_action` on the recovery counters: on a
detected result of type TIMING, MEMORY, COMPUTATION, COMMUNICATION or POWER for
a registered task the counter of that task becomes its successor modulo
`2 ^ 32` (the successor itself below `UINT32_MAX`) and every other recovery
counter is unchanged; on a null result, a result that is not detected, or a
task id at or above the task count, the fault state is unchanged. -/
theorem fault_recovery_counter_frame {α : Type} (s : FaultState) (tasks : List (Task α))
    (now : Nat) (hcount : tasks.length ≤ MAX_TASKS) :
    (∀ res : FaultDetectionResult, res.faultDetected ≠ 0 → res.taskId < tasks.length →
      (res.type = TIMING_FAULT ∨ res.type = MEMORY_FAULT ∨ res.type = COMPUTATION_FAULT ∨
        res.type = COMMUNICATION_FAULT ∨ res.type = POWER_FAULT) →
      arrayAt (fault_recovery_action s tasks (some res) now).g_faultRecoveryCounter res.taskId
        = (arrayAt s.g_faultRecoveryCounter res.taskId + 1) % 2 ^ 32 ∧
      (arrayAt s.g_faultRecoveryCounter res.taskId < UINT32_MAX →
        arrayAt (fault_recovery_action s tasks (some res) now).g_faultRecoveryCounter
          res.taskId = arrayAt s.g_faultRecoveryCounter res.taskId + 1) ∧
      ∀ j : Fin MAX_TASKS, j.val ≠ res.taskId →
        (fault_recovery_action s tasks (some res) now).g_faultRecoveryCounter j =
          s.g_faultRecoveryCounter j) ∧
    fault_recovery_action s tasks none now = s ∧
    (∀ res : FaultDetectionResult, res.faultDetected = 0 →
      fault_recovery_action s tasks (some res) now = s) ∧
    (∀ res : FaultDetectionResult, tasks.length ≤ res.taskId →
      fault_recovery_action s tasks (some res) now = s) := by
  refine ⟨?_, rfl, ?_, ?_⟩
  · intro res hdet hreg htype
    have hmax : res.taskId < MAX_TASKS := lt_of_lt_of_le hreg hcount
    have hc := fault_recovery_action_counter s tasks res now hdet hreg htype
    have hval : arrayAt (fault_recovery_action s tasks (some res) now).g_faultRecoveryCounter
        res.taskId = (arrayAt s.g_faultRecoveryCounter res.taskId + 1) % 2 ^ 32 := by
      rw [hc, arrayAt_arraySet_same _ _ _ hmax]
    refine ⟨hval, ?_, ?_⟩
    · intro hlt
      rw [hval]
      unfold UINT32_MAX at hlt
      omega
    · intro j hj
      rw [hc]
      exact arraySet_apply_ne _ _ _ j hj
  · intro res hnot
    unfold fault_recovery_action
    dsimp only
    rw [if_pos hnot]
  · intro res hout
    unfold fault_recovery_action
    dsimp only
    by_cases h1 : res.faultDetected = 0
    · rw [if_pos h1]
    · rw [if_neg h1, dif_neg (not_lt.mpr hout)]

/-- An instance of the counter frame: recovery from a TIMING fault of slot 1,
whose counter stood at 3. -/
theorem fault_recovery_counter_frame_witness :
    [mkTask 0 100 100 1, mkTask 1 50 40 1].length ≤ MAX_TASKS ∧
    arrayAt (fault_recovery_action
      { fault_tolerance_init 0 with g_faultRecoveryCounter := fun _ => 3 }
      [mkTask 0 100 100 1, mkTask 1 50 40 1] (some ⟨1, TIMING_FAULT, 1, 0, 7⟩)
      7).g_faultRecoveryCounter 1 = 3 + 1 :=
  ⟨by decide,
   ((fault_recovery_counter_frame
      { fault_tolerance_init 0 with g_faultRecoveryCounter := fun _ => 3 }
      [mkTask 0 100 100 1, mkTask 1 50 40 1] 7 (by decide)).1 ⟨1, TIMING_FAULT, 1, 0, 7⟩
      (by decide) (by decide) (Or.inl rfl)).2.1 (by decide)⟩

/-- Repeating the recovery action for a detected fault of a registered task
`n` times adds `n` to the recovery counter of that task modulo `2 ^ 32`. -/
theorem rtosRun_recovery_counter {α : Type} [LinearOrderedField α] [FloorRing α]
    (res : FaultDetectionResult) (now : Nat) (hdet : res.faultDetected ≠ 0)
    (htype : res.type = TIMING_FAULT ∨ res.type = MEMORY_FAULT ∨
      res.type = COMPUTATION_FAULT ∨ res.type = COMMUNICATION_FAULT ∨
      res.type = POWER_FAULT)
    (n : Nat) (s : RtosState α) (hreg : res.taskId < s.kernel.g_tasks.length)
    (hcount : s.kernel.g_tasks.length ≤ MAX_TASKS)
    (hc : arrayAt s.fault.g_faultRecoveryCounter res.taskId < 2 ^ 32) :
    arrayAt (rtosRun s (List.replicate n
        (RtosOp.recovery (some res) now))).fault.g_faultRecoveryCounter res.taskId =
      (arrayAt s.fault.g_faultRecoveryCounter res.taskId + n) % 2 ^ 32 := by
  induction n generalizing s with
  | zero => exact (Nat.mod_eq_of_lt hc).symm
  | succ n ih =>
    have hrun : rtosRun s (List.replicate (n + 1) (RtosOp.recovery (some res) now)) =
        rtosRun (rtosStep s (RtosOp.recovery (some res) now))
          (List.replicate n (RtosOp.recovery (some res) now)) := rfl
    have hkernel : (rtosStep s (RtosOp.recovery (some res) now)).kernel = s.kernel := rfl
    have hfault : (rtosStep s (RtosOp.recovery (some res) now)).fault =
        fault_recovery_action s.fault s.kernel.g_tasks (some res) now := rfl
    have hmax : res.taskId < MAX_TASKS := lt_of_lt_of_le hreg hcount
    have hval : arrayAt (rtosStep s (RtosOp.recovery (some res)
        now)).fault.g_faultRecoveryCounter res.taskId =
        (arrayAt s.fault.g_faultRecoveryCounter res.taskId + 1) % 2 ^ 32 := by
      rw [hfault, fault_recovery_action_counter s.fault s.kernel.g_tasks res now hdet hreg htype,
        arrayAt_arraySet_same _ _ _ hmax]
    rw [hrun, ih (rtosStep s (RtosOp.recovery (some res) now)) (by rw [hkernel]; exact hreg)
      (by rw [hkernel]; exact hcount) (by rw [hval]; exact Nat.mod_lt _ (by norm_num)), hval]
    omega

/-- C14, defect of the code: with the recovery counter of the registered task
0 at `UINT32_MAX`, `fault_recovery_action` on a detected MEMORY fault of that
task computes the `uint32_t` increment, which wraps, and leaves the counter
at 0, not at `UINT32_MAX + 1`; so the recovery factor of the task falls from
2 to 1, and after `2 ^ 32` recovery actions from the initial fault state the
counter reads 0. -/
theorem fault_recovery_counter_wraps :
    (0 : Nat) < [mkTask 0 100 100 1].length ∧
    arrayAt ({ fault_tolerance_init 0 with
      g_faultRecoveryCounter := fun _ => 4294967295 } : FaultState).g_faultRecoveryCounter 0
      = UINT32_MAX ∧
    arrayAt (fault_recovery_action
      { fault_tolerance_init 0 with g_faultRecoveryCounter := fun _ => 4294967295 }
      [mkTask 0 100 100 1] (some ⟨1, MEMORY_FAULT, 0, 0, 7⟩) 7).g_faultRecoveryCounter 0 = 0 ∧
    (get_fault_recovery_factor ({ fault_tolerance_init 0 with
      g_faultRecoveryCounter := fun _ => 4294967295 } : FaultState).g_faultRecoveryCounter 0
      : ℚ) = 2 ∧
    (get_fault_recovery_factor (fault_recovery_action
      { fault_tolerance_init 0 with g_faultRecoveryCounter := fun _ => 4294967295 }
      [mkTask 0 100 100 1] (some ⟨1, MEMORY_FAULT, 0, 0, 7⟩) 7).g_faultRecoveryCounter 0
      : ℚ) = 1 ∧
    arrayAt (rtosRun
      (⟨kernelWith [mkTask 0 100 100 1], fault_tolerance_init 0, schedulerWith 0⟩ : RtosState ℚ)
      (List.replicate 4294967296
        (RtosOp.recovery (some ⟨1, MEMORY_FAULT, 0, 0, 7⟩) 7))).fault.g_faultRecoveryCounter 0
      = 0 := by
  have hwrap : arrayAt (fault_recovery_action
      { fault_tolerance_init 0 with g_faultRecoveryCounter := fun _ => 4294967295 }
      [mkTask 0 100 100 1] (some ⟨1, MEMORY_FAULT, 0, 0, 7⟩) 7).g_faultRecoveryCounter 0 = 0 := by
    decide
  refine ⟨by decide, by decide, hwrap, ?_, ?_, ?_⟩
  · unfold get_fault_recovery_factor
    rw [dif_pos (by decide)]
    dsimp only
    rw [if_pos (by decide)]
    norm_num
  · have h0 : (fault_recovery_action
        { fault_tolerance_init 0 with g_faultRecoveryCounter := fun _ => 4294967295 }
        [mkTask 0 100 100 1] (some ⟨1, MEMORY_FAULT, 0, 0, 7⟩) 7).g_faultRecoveryCounter
        ⟨0, by decide⟩ = 0 := by
      decide
    unfold get_fault_recovery_factor
    rw [dif_pos (by decide), h0]
    rfl
  · have h := rtosRun_recovery_counter (α := ℚ) ⟨1, MEMORY_FAULT, 0, 0, 7⟩ 7 (by decide)
      (Or.inr (Or.inl rfl)) 4294967296
      ⟨kernelWith [mkTask 0 100 100 1], fault_tolerance_init 0, schedulerWith 0⟩
      (by decide) (by decide) (by decide)
    rw [h]
    decide

/-- C15, defect of the code: recovery from a TIMING fault of a task whose
relative deadline is `2 ^ 31` ms computes the `uint32_t` product
`deadlineMs * 2 = 0`, so the watchdog timeout becomes 0 (disarmed) and the
watchdog deadline becomes the current time, not `2 * deadlineMs` and
`now + 2 * deadlineMs`. -/
theorem timing_recovery_timeout_wraps :
    (mkTask 0 100 2147483648 1).deadlineMs < 2 ^ 32 ∧
    arrayAt (fault_recovery_action
      (set_watchdog_timer (fault_tolerance_init 0) 0 0 2147483648)
      [mkTask 0 100 2147483648 1] (some ⟨1, TIMING_FAULT, 0, 0, 2147483649⟩)
      2147483649).g_watchdogTimers 0 = 0 ∧
    arrayAt (fault_recovery_action
      (set_watchdog_timer (fault_tolerance_init 0) 0 0 2147483648)
      [mkTask 0 100 2147483648 1] (some ⟨1, TIMING_FAULT, 0, 0, 2147483649⟩)
      2147483649).g_watchdogDeadlines 0 = 2147483649 ∧
    2 * (mkTask 0 100 2147483648 1).deadlineMs = 4294967296 := by
  decide

/-! ## Watchdog of a created task -/

/-- C16, counterexample: a `DAL_A` task with deadline 50 ms is created at time
0; a TIMING fault is then injected for it, which leaves its watchdog entries
as they were; the check at time 10, before the watchdog deadline, reports
TIMING for that task. -/
theorem injected_timing_reported_before_deadline :
    (task_create (kernelWith []) (fault_tolerance_init 0) 0 (some (mkTask 0 0 0 0))
      (some (cstr "SafetyCritical")) 1 0 100 50 DAL_A).1 = 0 ∧
    arrayAt (fault_inject
      (task_create (kernelWith []) (fault_tolerance_init 0) 0 (some (mkTask 0 0 0 0))
        (some (cstr "SafetyCritical")) 1 0 100 50 DAL_A).2.2.2
      (task_create (kernelWith []) (fault_tolerance_init 0) 0 (some (mkTask 0 0 0 0))
        (some (cstr "SafetyCritical")) 1 0 100 50 DAL_A).2.2.1.g_tasks
      TIMING_FAULT 0 4096).2.g_watchdogTimers 0 = 50 ∧
    arrayAt (fault_inject
      (task_create (kernelWith []) (fault_tolerance_init 0) 0 (some (mkTask 0 0 0 0))
        (some (cstr "SafetyCritical")) 1 0 100 50 DAL_A).2.2.2
      (task_create (kernelWith []) (fault_tolerance_init 0) 0 (some (mkTask 0 0 0 0))
        (some (cstr "SafetyCritical")) 1 0 100 50 DAL_A).2.2.1.g_tasks
      TIMING_FAULT 0 4096).2.g_watchdogDeadlines 0 = 0 + 50 ∧
    (10 : Nat) ≤ 0 + 50 ∧
    (fault_check_system
      (fault_inject
        (task_create (kernelWith []) (fault_tolerance_init 0) 0 (some (mkTask 0 0 0 0))
          (some (cstr "SafetyCritical")) 1 0 100 50 DAL_A).2.2.2
        (task_create (kernelWith []) (fault_tolerance_init 0) 0 (some (mkTask 0 0 0 0))
          (some (cstr "SafetyCritical")) 1 0 100 50 DAL_A).2.2.1.g_tasks
        TIMING_FAULT 0 4096).2
      (task_create (kernelWith []) (fault_tolerance_init 0) 0 (some (mkTask 0 0 0 0))
        (some (cstr "SafetyCritical")) 1 0 100 50 DAL_A).2.2.1.g_tasks
      10).1 = ⟨1, TIMING_FAULT, 0, 4096, 10⟩ := by
  decide

/-- C16, amended: a task created at time `t0` with criticality `DAL_A` or
`DAL_B` and deadline `d > 0` gets the id equal to the old task count and the
watchdog deadline `(t0 + d) mod 2 ^ 64`; while its watchdog entries stay as
created, a check at any time after that deadline, with the task active and no
hit on a lower slot, returns the TIMING result for it, and a check at any time
up to that deadline does not report TIMING for it unless a TIMING fault is
injected for it. -/
theorem watchdog_fires_after_deadline {α : Type} [NatCast α] (k : KernelState α)
    (f : FaultState) (t0 : Nat) (task : Task α) (name : List Nat)
    (entryPoint args periodMs deadlineMs criticality : Nat)
    (hentry : entryPoint ≠ 0) (hroom : k.g_tasks.length < MAX_TASKS)
    (hcrit : criticality = DAL_A ∨ criticality = DAL_B) (hd : 0 < deadlineMs) :
    (task_create k f t0 (some task) (some name) entryPoint args periodMs deadlineMs
      criticality).1 = (k.g_tasks.length : Int) ∧
    (t0 + deadlineMs < 2 ^ 64 → (t0 + deadlineMs) % 2 ^ 64 = t0 + deadlineMs) ∧
    ∀ (s2 : FaultState) (tasks2 : List (Task α)) (now : Nat),
      arrayAt s2.g_watchdogTimers k.g_tasks.length =
        arrayAt (task_create k f t0 (some task) (some name) entryPoint args periodMs
          deadlineMs criticality).2.2.2.g_watchdogTimers k.g_tasks.length →
      arrayAt s2.g_watchdogDeadlines k.g_tasks.length =
        arrayAt (task_create k f t0 (some task) (some name) entryPoint args periodMs
          deadlineMs criticality).2.2.2.g_watchdogDeadlines k.g_tasks.length →
      ((t0 + deadlineMs) % 2 ^ 64 < now →
        ∀ t, tasks2[k.g_tasks.length]? = some t → t.active ≠ 0 →
          (∀ j u, j < k.g_tasks.length → tasks2[j]? = some u → ¬ slotHit s2 now j u) →
          (fault_check_system s2 tasks2 now).1 =
            ⟨1, TIMING_FAULT, k.g_tasks.length, 0, now⟩) ∧
      (now ≤ (t0 + deadlineMs) % 2 ^ 64 →
        arrayAt s2.g_injectedFaults k.g_tasks.length ≠ TIMING_FAULT →
        ¬ ((fault_check_system s2 tasks2 now).1.faultDetected ≠ 0 ∧
          (fault_check_system s2 tasks2 now).1.type = TIMING_FAULT ∧
          (fault_check_system s2 tasks2 now).1.taskId = k.g_tasks.length)) := by
  obtain ⟨hret, _, hfault⟩ := task_create_success k f t0 task name entryPoint args periodMs
    deadlineMs criticality hentry hroom
  rw [if_pos hcrit] at hfault
  obtain ⟨htimer, hdeadline⟩ := set_watchdog_timer_at f t0 k.g_tasks.length deadlineMs hroom
  refine ⟨hret, fun h => Nat.mod_eq_of_lt h, ?_⟩
  intro s2 tasks2 now ht hdl
  rw [hfault, htimer] at ht
  rw [hfault, hdeadline] at hdl
  constructor
  · intro hlate t hslot hact hlow
    have hw : watchdogExpired s2 now k.g_tasks.length t := by
      refine ⟨hact, ?_, ?_⟩
      · rw [ht]; exact hd
      · rw [hdl]; exact hlate
    exact (fault_check_system_least_hit s2 tasks2 now k.g_tasks.length t hslot
      (Or.inl hw) hlow).2.1 hw
  · intro hearly hinj
    refine fault_check_system_no_timing s2 tasks2 now k.g_tasks.length ?_ hinj
    rintro t ⟨_, _, hgt⟩
    rw [hdl] at hgt
    omega

/-- Witness for C16, amended: a `DAL_A` task with deadline 50 ms is created
at time 0 in an empty registry; checked at time 120 it is reported with the
watchdog TIMING result. -/
theorem watchdog_fires_after_deadline_witness :
    (1 : Nat) ≠ 0 ∧ (kernelWith []).g_tasks.length < MAX_TASKS ∧
    (DAL_A = DAL_A ∨ DAL_A = DAL_B) ∧ (0 : Nat) < 50 ∧
    (fault_check_system
      (task_create (kernelWith []) (fault_tolerance_init 0) 0 (some (mkTask 0 0 0 0))
        (some (cstr "SafetyCritical")) 1 0 100 50 DAL_A).2.2.2
      [mkTask 0 100 50 1] 120).1 = ⟨1, TIMING_FAULT, 0, 0, 120⟩ :=
  ⟨by decide, by decide, Or.inl rfl, by decide,
   ((watchdog_fires_after_deadline (kernelWith []) (fault_tolerance_init 0) 0
      (mkTask 0 0 0 0) (cstr "SafetyCritical") 1 0 100 50 DAL_A (by decide) (by decide)
      (Or.inl rfl) (by decide)).2.2 _ [mkTask 0 100 50 1] 120 rfl rfl).1 (by decide)
      (mkTask 0 100 50 1) rfl (by decide)
      (fun j _ hj _ => absurd hj (Nat.not_lt_zero j))⟩

/-- C17, counterexample: a `DAL_C` task is created right after
`fault_tolerance_init`, so its watchdog timeout stays 0 and
`set_watchdog_timer` is never called for it; after a TIMING fault is injected
for it, the check reports that task with a TIMING fault. -/
theorem unwatched_task_reported_timing :
    (task_create (kernelWith []) (fault_tolerance_init 0) 0 (some (mkTask 0 0 0 0))
      (some (cstr "Monitoring")) 1 0 500 450 DAL_C).1 = 0 ∧
    (task_create (kernelWith []) (fault_tolerance_init 0) 0 (some (mkTask 0 0 0 0))
      (some (cstr "Monitoring")) 1 0 500 450 DAL_C).2.2.2.g_watchdogTimers
      = (fault_tolerance_init 0).g_watchdogTimers ∧
    arrayAt (fault_inject
      (task_create (kernelWith []) (fault_tolerance_init 0) 0 (some (mkTask 0 0 0 0))
        (some (cstr "Monitoring")) 1 0 500 450 DAL_C).2.2.2
      (task_create (kernelWith []) (fault_tolerance_init 0) 0 (some (mkTask 0 0 0 0))
        (some (cstr "Monitoring")) 1 0 500 450 DAL_C).2.2.1.g_tasks
      TIMING_FAULT 0 4096).2.g_watchdogTimers 0 = 0 ∧
    (fault_check_system
      (fault_inject
        (task_create (kernelWith []) (fault_tolerance_init 0) 0 (some (mkTask 0 0 0 0))
          (some (cstr "Monitoring")) 1 0 500 450 DAL_C).2.2.2
        (task_create (kernelWith []) (fault_tolerance_init 0) 0 (some (mkTask 0 0 0 0))
          (some (cstr "Monitoring")) 1 0 500 450 DAL_C).2.2.1.g_tasks
        TIMING_FAULT 0 4096).2
      (task_create (kernelWith []) (fault_tolerance_init 0) 0 (some (mkTask 0 0 0 0))
        (some (cstr "Monitoring")) 1 0 500 450 DAL_C).2.2.1.g_tasks
      600).1 = ⟨1, TIMING_FAULT, 0, 4096, 600⟩ := by
  refine ⟨by decide, rfl, by decide, by decide⟩

/-- C17, amended: a successful `task_create` at time `t0` sets the watchdog of
the new task exactly when its criticality is `DAL_A` or `DAL_B`, with timeout
`deadlineMs` and deadline instant `(t0 + deadlineMs) mod 2 ^ 64`, and otherwise
leaves the fault state untouched; in the latter case, if the timeout of that
slot was 0 (as after `fault_tolerance_init`), then as long as it stays as
created a check reports no TIMING fault for that task unless a TIMING fault is
injected for it. -/
theorem task_create_watchdog {α : Type} [NatCast α] (k : KernelState α)
    (f : FaultState) (t0 : Nat) (task : Task α) (name : List Nat)
    (entryPoint args periodMs deadlineMs criticality : Nat)
    (hentry : entryPoint ≠ 0) (hroom : k.g_tasks.length < MAX_TASKS) :
    ((criticality = DAL_A ∨ criticality = DAL_B) →
      (task_create k f t0 (some task) (some name) entryPoint args periodMs deadlineMs
        criticality).2.2.2 = set_watchdog_timer f t0 k.g_tasks.length deadlineMs ∧
      arrayAt (task_create k f t0 (some task) (some name) entryPoint args periodMs
        deadlineMs criticality).2.2.2.g_watchdogTimers k.g_tasks.length = deadlineMs ∧
      arrayAt (task_create k f t0 (some task) (some name) entryPoint args periodMs
        deadlineMs criticality).2.2.2.g_watchdogDeadlines k.g_tasks.length =
          (t0 + deadlineMs) % 2 ^ 64 ∧
      (t0 + deadlineMs < 2 ^ 64 →
        arrayAt (task_create k f t0 (some task) (some name) entryPoint args periodMs
          deadlineMs criticality).2.2.2.g_watchdogDeadlines k.g_tasks.length =
            t0 + deadlineMs)) ∧
    (¬ (criticality = DAL_A ∨ criticality = DAL_B) →
      (task_create k f t0 (some task) (some name) entryPoint args periodMs deadlineMs
        criticality).2.2.2 = f ∧
      (arrayAt f.g_watchdogTimers k.g_tasks.length = 0 →
        ∀ (s2 : FaultState) (tasks2 : List (Task α)) (now : Nat),
          arrayAt s2.g_watchdogTimers k.g_tasks.length =
            arrayAt (task_create k f t0 (some task) (some name) entryPoint args periodMs
              deadlineMs criticality).2.2.2.g_watchdogTimers k.g_tasks.length →
          arrayAt s2.g_injectedFaults k.g_tasks.length ≠ TIMING_FAULT →
          ¬ ((fault_check_system s2 tasks2 now).1.faultDetected ≠ 0 ∧
            (fault_check_system s2 tasks2 now).1.type = TIMING_FAULT ∧
            (fault_check_system s2 tasks2 now).1.taskId = k.g_tasks.length))) ∧
    (∀ t i, arrayAt (fault_tolerance_init t).g_watchdogTimers i = 0) := by
  obtain ⟨_, _, hfault⟩ := task_create_success k f t0 task name entryPoint args periodMs
    deadlineMs criticality hentry hroom
  refine ⟨?_, ?_, ?_⟩
  · intro hcrit
    rw [if_pos hcrit] at hfault
    obtain ⟨htimer, hdeadline⟩ := set_watchdog_timer_at f t0 k.g_tasks.length deadlineMs hroom
    rw [hfault]
    exact ⟨rfl, htimer, hdeadline, fun h => by rw [hdeadline, Nat.mod_eq_of_lt h]⟩
  · intro hcrit
    rw [if_neg hcrit] at hfault
    refine ⟨hfault, ?_⟩
    intro hzero s2 tasks2 now ht hinj
    rw [hfault, hzero] at ht
    refine fault_check_system_no_timing s2 tasks2 now k.g_tasks.length ?_ hinj
    rintro t ⟨_, hpos, _⟩
    omega
  · intro t i
    unfold arrayAt fault_tolerance_init
    split_ifs <;> rfl

/-- Witness for C17, amended: in an empty registry a `DAL_B` task with deadline
180 ms created at time 5 gets the watchdog timeout 180. -/
theorem task_create_watchdog_witness :
    (1 : Nat) ≠ 0 ∧ (kernelWith []).g_tasks.length < MAX_TASKS ∧
    (DAL_B = DAL_A ∨ DAL_B = DAL_B) ∧
    arrayAt (task_create (kernelWith []) (fault_tolerance_init 0) 5 (some (mkTask 0 0 0 0))
      (some (cstr "Control")) 1 0 200 180 DAL_B).2.2.2.g_watchdogTimers
      (kernelWith []).g_tasks.length = 180 :=
  ⟨by decide, by decide, Or.inr rfl,
   ((task_create_watchdog (kernelWith []) (fault_tolerance_init 0) 5 (mkTask 0 0 0 0)
      (cstr "Control") 1 0 200 180 DAL_B (by decide) (by decide)).1 (Or.inr rfl)).2.1⟩

/-! ## Lemmas on the memory matrix -/

/-- The state left by `memory_matrix_init` at program start is ready. -/
theorem memory_matrix_init_ready : MemoryMatrixReady (memory_matrix_init memoryMatrixStartup) := by
  unfold memory_matrix_init memoryMatrixStartup MemoryMatrixReady
  dsimp only
  rw [if_neg (by decide)]
  exact ⟨by decide, fun i => ⟨rfl, _, rfl, List.length_replicate _ _⟩⟩

/-- A write within the capacity of a valid region of a ready matrix: the
return code is 0 and the block of that region receives the bytes. -/
theorem memory_matrix_write_ok (m : MemoryMatrix) (hready : MemoryMatrixReady m)
    (region : Nat) (h : region < SHM_COUNT) (block d : List Nat) (size : Nat)
    (hblock : m.g_sharedMemory ⟨region, h⟩ = some block)
    (hsize : size ≤ DEFAULT_SIZES ⟨region, h⟩) :
    memory_matrix_write m region (some d) size =
      (0, { m with
            g_sharedMemory :=
              Function.update m.g_sharedMemory ⟨region, h⟩ (some (memcpy block d size)) }) := by
  unfold memory_matrix_write
  rw [dif_pos h, if_neg hready.1]
  simp only [hblock]
  rw [if_neg (by rw [(hready.2 ⟨region, h⟩).1]; exact not_lt.mpr hsize)]

/-- A read within the capacity of a valid region of a ready matrix: the return
code is 0 and the buffer receives the first bytes of the block. -/
theorem memory_matrix_read_ok (m : MemoryMatrix) (hinit : m.g_initialized ≠ 0)
    (region : Nat) (h : region < SHM_COUNT) (block b : List Nat) (size : Nat)
    (hblock : m.g_sharedMemory ⟨region, h⟩ = some block)
    (hsize : size ≤ m.g_regionSizes ⟨region, h⟩) :
    memory_matrix_read m region (some b) size = (0, some (memcpy b block size)) := by
  unfold memory_matrix_read
  rw [dif_pos h, if_neg hinit]
  simp only [hblock]
  rw [if_neg (not_lt.mpr hsize)]

/-- A write or read beyond the capacity of a valid region of a ready matrix
returns the SIZE code `-2`. -/
theorem memory_matrix_too_large (m : MemoryMatrix) (hready : MemoryMatrixReady m)
    (region : Nat) (h : region < SHM_COUNT) (d : List Nat) (size : Nat)
    (hsize : DEFAULT_SIZES ⟨region, h⟩ < size) :
    memory_matrix_write m region (some d) size = (-2, m) ∧
    memory_matrix_read m region (some d) size = (-2, some d) := by
  obtain ⟨hinit, hregions⟩ := hready
  obtain ⟨hsz, block, hblock, _⟩ := hregions ⟨region, h⟩
  unfold memory_matrix_write memory_matrix_read
  rw [dif_pos h, if_neg hinit, dif_pos h, if_neg hinit]
  have hgt : size > m.g_regionSizes ⟨region, h⟩ := by rw [hsz]; exact hsize
  simp only [hblock]
  rw [if_pos hgt, if_pos hgt]
  exact ⟨rfl, rfl⟩

/-- A failing `memory_matrix_write` leaves the matrix as it was. -/
theorem memory_matrix_write_fail (m : MemoryMatrix) (region : Nat) (data : Option (List Nat))
    (size : Nat) (hfail : (memory_matrix_write m region data size).1 ≠ 0) :
    (memory_matrix_write m region data size).2 = m := by
  unfold memory_matrix_write at hfail ⊢
  by_cases h : region < SHM_COUNT
  · rw [dif_pos h] at hfail ⊢
    by_cases hinit : m.g_initialized = 0
    · rw [if_pos hinit]
    · rw [if_neg hinit] at hfail ⊢
      cases hmem : m.g_sharedMemory ⟨region, h⟩ with
      | none => simp only [hmem]
      | some block =>
        cases data with
        | none => simp only [hmem]
        | some d =>
          simp only [hmem] at hfail ⊢
          by_cases hsz : size > m.g_regionSizes ⟨region, h⟩
          · rw [if_pos hsz]
          · rw [if_neg hsz] at hfail
            exact absurd rfl hfail
  · rw [dif_neg h]

/-- Readiness is kept by every `memory_matrix_write` whose source holds at
least `size` bytes, so it holds in every state after initialisation. -/
theorem memory_matrix_write_ready (m : MemoryMatrix) (hready : MemoryMatrixReady m)
    (region : Nat) (data : Option (List Nat)) (size : Nat)
    (hsrc : ∀ d, data = some d → size ≤ d.length) :
    MemoryMatrixReady (memory_matrix_write m region data size).2 := by
  by_cases hret : (memory_matrix_write m region data size).1 = 0
  · by_cases h : region < SHM_COUNT
    · obtain ⟨hsz, block, hblock, hlen⟩ := hready.2 ⟨region, h⟩
      cases data with
      | none =>
        exfalso
        unfold memory_matrix_write at hret
        rw [dif_pos h, if_neg hready.1] at hret
        simp only [hblock] at hret
        exact absurd hret (by decide)
      | some d =>
        by_cases hcap : size ≤ DEFAULT_SIZES ⟨region, h⟩
        · rw [memory_matrix_write_ok m hready region h block d size hblock hcap]
          refine ⟨hready.1, fun i => ⟨(hready.2 i).1, ?_⟩⟩
          by_cases hi : i = ⟨region, h⟩
          · subst hi
            refine ⟨memcpy block d size, Function.update_same _ _ _, ?_⟩
            unfold memcpy
            rw [List.length_append, List.length_take, List.length_drop,
              Nat.min_eq_left (hsrc d rfl)]
            omega
          · obtain ⟨_, b, hb, hbl⟩ := hready.2 i
            exact ⟨b, by dsimp only; rw [Function.update_noteq hi]; exact hb, hbl⟩
        · exfalso
          rw [(memory_matrix_too_large m hready region h d size (not_le.mp hcap)).1] at hret
          have hneg : ((-2 : Int), m).1 = -2 := rfl
          omega
    · exfalso
      unfold memory_matrix_write at hret
      rw [dif_neg h] at hret
      have hneg : ((-1 : Int), m).1 = -1 := rfl
      omega
  · rw [memory_matrix_write_fail m region data size hret]
    exact hready

/-! ## Memory matrix -/

/-- C18: in a ready memory matrix, for every valid region and every byte
string `d` no longer than the capacity of the region, writing `d` succeeds and
an immediately following read of `d.length` bytes succeeds and fills the first
`d.length` bytes of the buffer with `d`; a buffer of exactly that length
equals `d` afterwards. -/
theorem memory_matrix_round_trip (m : MemoryMatrix) (hready : MemoryMatrixReady m)
    (region : Nat) (h : region < SHM_COUNT) (d buf : List Nat)
    (hlen : d.length ≤ DEFAULT_SIZES ⟨region, h⟩) :
    (memory_matrix_write m region (some d) d.length).1 = 0 ∧
    (memory_matrix_read (memory_matrix_write m region (some d) d.length).2 region
      (some buf) d.length).1 = 0 ∧
    (memory_matrix_read (memory_matrix_write m region (some d) d.length).2 region
      (some buf) d.length).2 = some (d ++ buf.drop d.length) ∧
    (buf.length = d.length →
      (memory_matrix_read (memory_matrix_write m region (some d) d.length).2 region
        (some buf) d.length).2 = some d) := by
  obtain ⟨hsz, block, hblock, _⟩ := hready.2 ⟨region, h⟩
  have hw := memory_matrix_write_ok m hready region h block d d.length hblock hlen
  have hr := memory_matrix_read_ok (memory_matrix_write m region (some d) d.length).2
    (by rw [hw]; exact hready.1) region h (memcpy block d d.length) buf d.length
    (by rw [hw]; exact Function.update_same _ _ _)
    (by rw [hw]; dsimp only; rw [hsz]; exact hlen)
  have hcopy : memcpy buf (memcpy block d d.length) d.length = d ++ buf.drop d.length := by
    unfold memcpy
    rw [List.take_length, List.take_left]
  rw [hr, hcopy]
  refine ⟨by rw [hw], rfl, rfl, ?_⟩
  intro hb
  rw [← hb, List.drop_length, List.append_nil]

/-- Witness for C18: three bytes written to region 0 right after
initialisation are read back. -/
theorem memory_matrix_round_trip_witness :
    MemoryMatrixReady (memory_matrix_init memoryMatrixStartup) ∧ (0 : Nat) < SHM_COUNT ∧
    [1, 2, 3].length ≤ DEFAULT_SIZES ⟨0, by decide⟩ ∧
    (memory_matrix_read
      (memory_matrix_write (memory_matrix_init memoryMatrixStartup) 0 (some [1, 2, 3])
        [1, 2, 3].length).2 0 (some [9, 9, 9]) [1, 2, 3].length).2 = some [1, 2, 3] :=
  ⟨memory_matrix_init_ready, by decide, by decide,
   (memory_matrix_round_trip (memory_matrix_init memoryMatrixStartup) memory_matrix_init_ready
      0 (by decide) [1, 2, 3] [9, 9, 9] (by decide)).2.2.2 rfl⟩

/-- C19: in a ready memory matrix the region capacities are 1024, 4096, 1024,
2048, 8192 and 16384 bytes; for a valid region and non-null data, write and
read return the SIZE code `-2` exactly when the size exceeds the capacity and
succeed otherwise; and whenever a write fails, in any state, the matrix is
unchanged. -/
theorem memory_matrix_size_guard (m : MemoryMatrix) (hready : MemoryMatrixReady m)
    (region : Nat) (h : region < SHM_COUNT) (d : List Nat) (n : Nat) :
    m.g_regionSizes = ![1024, 4096, 1024, 2048, 8192, 16384] ∧
    ((memory_matrix_write m region (some d) n).1 = -2 ↔ m.g_regionSizes ⟨region, h⟩ < n) ∧
    (n ≤ m.g_regionSizes ⟨region, h⟩ → (memory_matrix_write m region (some d) n).1 = 0) ∧
    ((memory_matrix_read m region (some d) n).1 = -2 ↔ m.g_regionSizes ⟨region, h⟩ < n) ∧
    (n ≤ m.g_regionSizes ⟨region, h⟩ → (memory_matrix_read m region (some d) n).1 = 0) ∧
    (∀ (m0 : MemoryMatrix) (r : Nat) (data : Option (List Nat)) (size : Nat),
      (memory_matrix_write m0 r data size).1 ≠ 0 →
      (memory_matrix_write m0 r data size).2 = m0) := by
  obtain ⟨hsz, block, hblock, _⟩ := hready.2 ⟨region, h⟩
  have hcap : m.g_regionSizes = ![1024, 4096, 1024, 2048, 8192, 16384] :=
    funext fun i => (hready.2 i).1
  have hok_w : n ≤ m.g_regionSizes ⟨region, h⟩ →
      (memory_matrix_write m region (some d) n).1 = 0 := fun hn => by
    rw [memory_matrix_write_ok m hready region h block d n hblock (by rw [← hsz]; exact hn)]
  have hok_r : n ≤ m.g_regionSizes ⟨region, h⟩ →
      (memory_matrix_read m region (some d) n).1 = 0 := fun hn => by
    rw [memory_matrix_read_ok m hready.1 region h block d n hblock hn]
  have hbig : m.g_regionSizes ⟨region, h⟩ < n →
      (memory_matrix_write m region (some d) n).1 = -2 ∧
      (memory_matrix_read m region (some d) n).1 = -2 := fun hn => by
    obtain ⟨h1, h2⟩ := memory_matrix_too_large m hready region h d n (by rw [← hsz]; exact hn)
    rw [h1, h2]
    exact ⟨rfl, rfl⟩
  refine ⟨hcap, ⟨?_, fun hn => (hbig hn).1⟩, hok_w, ⟨?_, fun hn => (hbig hn).2⟩, hok_r,
    fun m0 r data size => memory_matrix_write_fail m0 r data size⟩
  · intro hret
    by_contra hn
    rw [hok_w (not_lt.mp hn)] at hret
    exact absurd hret (by decide)
  · intro hret
    by_contra hn
    rw [hok_r (not_lt.mp hn)] at hret
    exact absurd hret (by decide)

/-- Witness for C19: right after initialisation a write of 2048 bytes to
region 0 (`SHM_SYSTEM_STATE`, capacity 1024) returns the SIZE code. -/
theorem memory_matrix_size_guard_witness :
    MemoryMatrixReady (memory_matrix_init memoryMatrixStartup) ∧ (0 : Nat) < SHM_COUNT ∧
    (memory_matrix_write (memory_matrix_init memoryMatrixStartup) 0
      (some (List.replicate 2048 0)) 2048).1 = -2 :=
  ⟨memory_matrix_init_ready, by decide,
   (memory_matrix_size_guard (memory_matrix_init memoryMatrixStartup) memory_matrix_init_ready
      0 (by decide) (List.replicate 2048 0) 2048).2.1.mpr
      (by rw [(memory_matrix_init_ready.2 ⟨0, by decide⟩).1]; decide)⟩

/-! ## Jitter -/

/-- C20, defect of the code: with a worst-case jitter of 100 ns recorded, a
tick whose measured duration is `2 ^ 32` ns passes the test
`elapsed_ns > g_worstCaseJitterNs` and stores `(uint32_t)elapsed_ns = 0`, so
the stored worst case falls from 100 to 0. -/
theorem worst_case_jitter_decreases :
    (4294967296 : Nat) < 2 ^ 64 ∧
    (schedulerWith 100).g_worstCaseJitterNs = 100 ∧
    (scheduler_tick (schedulerWith 100) (kernelWith []) (fun _ => 0) 1 (fun _ => 0)
      4294967296).1.g_worstCaseJitterNs = 0 := by
  decide

/-! ## Lemmas on the registry -/

/-- A state with the same table satisfies the registry invariant as well. -/
theorem registryInvariant_congr {α : Type} (k k2 : KernelState α)
    (htasks : k2.g_tasks = k.g_tasks) (hinv : RegistryInvariant k) :
    RegistryInvariant k2 := by
  unfold RegistryInvariant
  rw [htasks]
  exact hinv

/-- Replacing slot `i` by a task with id `i` keeps the registry invariant. -/
theorem registryInvariant_set {α : Type} (k k2 : KernelState α) (i : Nat) (x : Task α)
    (htasks : k2.g_tasks = k.g_tasks.set i x) (hx : x.id = i)
    (hinv : RegistryInvariant k) :
    RegistryInvariant k2 := by
  unfold RegistryInvariant
  rw [htasks]
  refine ⟨by simpa using hinv.1, ?_⟩
  intro j t hj
  rw [List.getElem?_set] at hj
  split_ifs at hj with h1 h2
  · cases hj
    rw [← h1]
    exact hx
  · exact hinv.2 j t hj

/-- The id that the registry invariant gives to the task in a slot. -/
theorem registryInvariant_id {α : Type} (k : KernelState α) (hinv : RegistryInvariant k)
    (i : Nat) (h : i < k.g_tasks.length) : k.g_tasks[i].id = i :=
  hinv.2 i k.g_tasks[i] (List.getElem?_eq_getElem h)

/-- Writing back the task a slot holds leaves the table as it was. -/
theorem list_set_same {β : Type} (l : List β) (i : Nat) (h : i < l.length) :
    l.set i l[i] = l := by
  apply List.ext_getElem?
  intro n
  rw [List.getElem?_set]
  split_ifs with h1
  · subst h1
    exact (List.getElem?_eq_getElem h).symm
  · rfl

/-- A `task_create` that fails returns `-1` and leaves the registry and the
fault state as they were. -/
theorem task_create_failure {α : Type} [NatCast α] (k : KernelState α) (f : FaultState)
    (now : Nat) (task : Option (Task α)) (name : Option (List Nat))
    (entryPoint args periodMs deadlineMs criticality : Nat)
    (h : MAX_TASKS ≤ k.g_tasks.length ∨ task = none ∨ name = none ∨ entryPoint = 0) :
    (task_create k f now task name entryPoint args periodMs deadlineMs criticality).1 = -1 ∧
    (task_create k f now task name entryPoint args periodMs deadlineMs criticality).2.2.1 = k ∧
    (task_create k f now task name entryPoint args periodMs deadlineMs criticality).2.2.2 = f := by
  unfold task_create
  cases task with
  | none => exact ⟨rfl, rfl, rfl⟩
  | some t0 =>
    cases name with
    | none => exact ⟨rfl, rfl, rfl⟩
    | some nm =>
      dsimp only
      by_cases hentry : entryPoint = 0
      · rw [if_pos hentry]
        exact ⟨rfl, rfl, rfl⟩
      · rw [if_neg hentry]
        have hfull : MAX_TASKS ≤ k.g_tasks.length := by
          rcases h with h | h | h | h
          · exact h
          · cases h
          · cases h
          · exact absurd h hentry
        have hadd : kernel_add_task k
            (newTask nm entryPoint args periodMs deadlineMs criticality : Task α) = (-1, k) := by
          unfold kernel_add_task
          rw [if_pos hfull]
        rw [hadd]
        dsimp only
        rw [if_neg (by decide)]
        exact ⟨rfl, rfl, rfl⟩

/-! ## Registry -/

/-- C21: with `n < MAX_TASKS` registered tasks, `task_create` with non-null
descriptor, name and entry point returns the id `n`, which is below
`MAX_TASKS`, and the registry then holds `n + 1` tasks, the first `n` as
before; when the registry is full, or the descriptor, the name or the entry
point is null, it returns `-1` and the registry is unchanged. -/
theorem task_create_registry {α : Type} [NatCast α] (k : KernelState α) (f : FaultState)
    (now entryPoint args periodMs deadlineMs criticality : Nat) :
    (∀ (task : Task α) (name : List Nat), entryPoint ≠ 0 → k.g_tasks.length < MAX_TASKS →
      (task_create k f now (some task) (some name) entryPoint args periodMs deadlineMs
        criticality).1 = (k.g_tasks.length : Int) ∧
      k.g_tasks.length < MAX_TASKS ∧
      (task_create k f now (some task) (some name) entryPoint args periodMs deadlineMs
        criticality).2.2.1.g_tasks.length = k.g_tasks.length + 1 ∧
      ∀ (i : Nat) (t : Task α), k.g_tasks[i]? = some t →
        (task_create k f now (some task) (some name) entryPoint args periodMs deadlineMs
          criticality).2.2.1.g_tasks[i]? = some t) ∧
    (∀ (task : Option (Task α)) (name : Option (List Nat)),
      (MAX_TASKS ≤ k.g_tasks.length ∨ task = none ∨ name = none ∨ entryPoint = 0) →
      (task_create k f now task name entryPoint args periodMs deadlineMs criticality).1 = -1 ∧
      (task_create k f now task name entryPoint args periodMs deadlineMs
        criticality).2.2.1 = k) := by
  constructor
  · intro task name hentry hroom
    obtain ⟨hret, htasks, _⟩ := task_create_success k f now task name entryPoint args periodMs
      deadlineMs criticality hentry hroom
    refine ⟨hret, hroom, by rw [htasks]; simp, ?_⟩
    intro i t hi
    rw [htasks, List.getElem?_append_left (List.getElem?_eq_some.mp hi).1]
    exact hi
  · intro task name h
    obtain ⟨h1, h3, _⟩ := task_create_failure k f now task name entryPoint args periodMs
      deadlineMs criticality h
    exact ⟨h1, h3⟩

/-- Witness for C21: the first task created in the empty registry gets id 0. -/
theorem task_create_registry_witness :
    (1 : Nat) ≠ 0 ∧ (kernelWith []).g_tasks.length < MAX_TASKS ∧
    (task_create (kernelWith []) (fault_tolerance_init 0) 0 (some (mkTask 0 0 0 0))
      (some (cstr "SafetyCritical")) 1 0 100 100 DAL_A).1 = 0 :=
  ⟨by decide, by decide,
   ((task_create_registry (kernelWith []) (fault_tolerance_init 0) 0 1 0 100 100 DAL_A).1
      (mkTask 0 0 0 0) (cstr "SafetyCritical") (by decide) (by decide)).1⟩

/-- Every registry, scheduler and recovery operation keeps the registry
invariant. -/
theorem rtosStep_registryInvariant {α : Type} [LinearOrderedField α] [FloorRing α]
    (s : RtosState α) (op : RtosOp α) (hinv : RegistryInvariant s.kernel) :
    RegistryInvariant (rtosStep s op).kernel := by
  cases op with
  | create now task name entryPoint args periodMs deadlineMs criticality =>
    unfold rtosStep
    dsimp only
    by_cases hfail : MAX_TASKS ≤ s.kernel.g_tasks.length ∨ task = none ∨ name = none ∨
        entryPoint = 0
    · rw [(task_create_failure s.kernel s.fault now task name entryPoint args periodMs
        deadlineMs criticality hfail).2.1]
      exact hinv
    · simp only [not_or, not_le] at hfail
      obtain ⟨hroom, htask, hname, hentry⟩ := hfail
      cases task with
      | none => exact absurd rfl htask
      | some t0 =>
        cases name with
        | none => exact absurd rfl hname
        | some nm =>
          obtain ⟨_, htasks, _⟩ := task_create_success s.kernel s.fault now t0 nm entryPoint
            args periodMs deadlineMs criticality hentry hroom
          unfold RegistryInvariant
          rw [htasks]
          refine ⟨by simp only [List.length_append, List.length_singleton]; omega, ?_⟩
          intro i t hi
          by_cases hlt : i < s.kernel.g_tasks.length
          · rw [List.getElem?_append_left hlt] at hi
            exact hinv.2 i t hi
          · rw [List.getElem?_append_right (not_lt.mp hlt)] at hi
            have hi0 : i - s.kernel.g_tasks.length = 0 := by
              by_contra hne
              rw [List.getElem?_eq_none (by simp only [List.length_singleton]; omega)] at hi
              cases hi
            rw [hi0] at hi
            simp only [List.getElem?_cons_zero, Option.some.injEq] at hi
            subst hi
            dsimp only
            omega
  | delete taskId =>
    unfold rtosStep task_delete
    dsimp only
    split_ifs with h
    · exact registryInvariant_set s.kernel _ taskId _ rfl
        (registryInvariant_id s.kernel hinv taskId h) hinv
    · exact hinv
  | suspend taskId =>
    unfold rtosStep task_suspend
    dsimp only
    split_ifs with h h2
    · exact registryInvariant_set s.kernel _ taskId _ rfl
        (registryInvariant_id s.kernel hinv taskId h) hinv
    · exact hinv
    · exact hinv
  | resume taskId =>
    unfold rtosStep task_resume
    dsimp only
    split_ifs with h h2
    · exact registryInvariant_set s.kernel _ taskId _ rfl
        (registryInvariant_id s.kernel hinv taskId h) hinv
    · exact hinv
    · exact hinv
  | setPriority taskId priority =>
    unfold rtosStep task_set_priority
    dsimp only
    split_ifs with h h2
    · exact registryInvariant_set s.kernel _ taskId _ rfl
        (registryInvariant_id s.kernel hinv taskId h) hinv
    · exact hinv
    · exact hinv
  | tick g_modelLoaded inference elapsed_ns =>
    unfold rtosStep scheduler_tick
    dsimp only
    split_ifs with h h2
    · exact registryInvariant_set s.kernel _ _ _ rfl
        (registryInvariant_id s.kernel hinv _ h) hinv
    · exact registryInvariant_congr s.kernel _ rfl hinv
    · exact registryInvariant_congr s.kernel _ rfl hinv
  | recovery result now =>
    exact hinv

/-- The registry invariant holds after every sequence of operations started
in a state where it holds. -/
theorem rtosRun_registryInvariant {α : Type} [LinearOrderedField α] [FloorRing α]
    (ops : List (RtosOp α)) (s : RtosState α) (hinv : RegistryInvariant s.kernel) :
    RegistryInvariant (rtosRun s ops).kernel := by
  induction ops generalizing s with
  | nil => exact hinv
  | cons op ops ih =>
    unfold rtosRun
    rw [List.foldl_cons]
    exact ih (rtosStep s op) (rtosStep_registryInvariant s op hinv)

/-- Replacing a slot by a task whose active flag is 0 or 1 keeps all flags
0 or 1. -/
theorem active_flags_set {α : Type} (tasks : List (Task α)) (i : Nat) (x : Task α)
    (hx : x.active ≤ 1) (hflags : ∀ (j : Nat) (t : Task α), tasks[j]? = some t → t.active ≤ 1) :
    ∀ (j : Nat) (t : Task α), (tasks.set i x)[j]? = some t → t.active ≤ 1 := by
  intro j t hj
  rw [List.getElem?_set] at hj
  split_ifs at hj with h1 h2
  · cases hj
    exact hx
  · exact hflags j t hj

/-- Every registry, scheduler and recovery operation keeps every active flag
0 or 1. -/
theorem rtosStep_active_flags {α : Type} [LinearOrderedField α] [FloorRing α]
    (s : RtosState α) (op : RtosOp α)
    (hflags : ∀ (j : Nat) (t : Task α), s.kernel.g_tasks[j]? = some t → t.active ≤ 1) :
    ∀ (j : Nat) (t : Task α), (rtosStep s op).kernel.g_tasks[j]? = some t → t.active ≤ 1 := by
  have hslot : ∀ (i : Nat) (h : i < s.kernel.g_tasks.length), s.kernel.g_tasks[i].active ≤ 1 :=
    fun i h => hflags i _ (List.getElem?_eq_getElem h)
  cases op with
  | create now task name entryPoint args periodMs deadlineMs criticality =>
    unfold rtosStep
    dsimp only
    by_cases hfail : MAX_TASKS ≤ s.kernel.g_tasks.length ∨ task = none ∨ name = none ∨
        entryPoint = 0
    · rw [(task_create_failure s.kernel s.fault now task name entryPoint args periodMs
        deadlineMs criticality hfail).2.1]
      exact hflags
    · simp only [not_or, not_le] at hfail
      obtain ⟨hroom, htask, hname, hentry⟩ := hfail
      cases task with
      | none => exact absurd rfl htask
      | some t0 =>
        cases name with
        | none => exact absurd rfl hname
        | some nm =>
          obtain ⟨_, htasks, _⟩ := task_create_success s.kernel s.fault now t0 nm entryPoint
            args periodMs deadlineMs criticality hentry hroom
          rw [htasks]
          intro i t hi
          by_cases hlt : i < s.kernel.g_tasks.length
          · rw [List.getElem?_append_left hlt] at hi
            exact hflags i t hi
          · rw [List.getElem?_append_right (not_lt.mp hlt)] at hi
            have hmem := List.getElem?_mem hi
            rw [List.mem_singleton] at hmem
            subst hmem
            exact le_refl _
  | delete taskId =>
    unfold rtosStep task_delete
    dsimp only
    split_ifs with h
    · exact active_flags_set _ _ _ (Nat.zero_le _) hflags
    · exact hflags
  | suspend taskId =>
    unfold rtosStep task_suspend
    dsimp only
    split_ifs with h h2
    · exact active_flags_set _ _ _ (Nat.zero_le _) hflags
    · exact hflags
    · exact hflags
  | resume taskId =>
    unfold rtosStep task_resume
    dsimp only
    split_ifs with h h2
    · exact active_flags_set _ _ _ (le_refl _) hflags
    · exact hflags
    · exact hflags
  | setPriority taskId priority =>
    unfold rtosStep task_set_priority
    dsimp only
    split_ifs with h h2
    · exact active_flags_set _ _ _ (hslot taskId h) hflags
    · exact hflags
    · exact hflags
  | tick g_modelLoaded inference elapsed_ns =>
    unfold rtosStep scheduler_tick
    dsimp only
    split_ifs with h h2
    · exact active_flags_set _ _ _ (hslot _ h) hflags
    · exact hflags
    · exact hflags
  | recovery result now =>
    exact hflags

/-- In every state reached from `kernel_init` the active flag of every
registered task is 0 or 1. -/
theorem rtosRun_active_flags {α : Type} [LinearOrderedField α] [FloorRing α]
    (ops : List (RtosOp α)) (s : RtosState α)
    (hflags : ∀ (j : Nat) (t : Task α), s.kernel.g_tasks[j]? = some t → t.active ≤ 1) :
    ∀ (j : Nat) (t : Task α), (rtosRun s ops).kernel.g_tasks[j]? = some t → t.active ≤ 1 := by
  induction ops generalizing s with
  | nil => exact hflags
  | cons op ops ih =>
    unfold rtosRun
    rw [List.foldl_cons]
    exact ih (rtosStep s op) (rtosStep_active_flags s op hflags)

/-- C22: in every state reached from `kernel_init` by a sequence of
`task_create`, `task_delete`, `task_suspend`, `task_resume`,
`task_set_priority`, scheduler ticks and fault recovery actions, the task
count is at most `MAX_TASKS` and the task in every registered slot `i` has
id `i`. -/
theorem registry_invariant_reachable {α : Type} [LinearOrderedField α] [FloorRing α]
    (sch : SchedulerState α) (now : Nat) (ops : List (RtosOp α)) :
    (rtosRun (rtosInit sch now) ops).kernel.g_tasks.length ≤ MAX_TASKS ∧
    ∀ (i : Nat) (t : Task α),
      (rtosRun (rtosInit sch now) ops).kernel.g_tasks[i]? = some t → t.id = i :=
  rtosRun_registryInvariant ops (rtosInit sch now)
    ⟨Nat.zero_le _, fun i t hi => by
      have hnil : (rtosInit sch now).kernel.g_tasks = [] := rfl
      rw [hnil] at hi
      simp at hi⟩

/-- Witness for C22: after two creations, a deletion and a tick the registry
holds at most `MAX_TASKS` tasks. -/
theorem registry_invariant_reachable_witness :
    (rtosRun (rtosInit (schedulerWith 0) 0)
      [RtosOp.create 0 (some (mkTask 0 0 0 0)) (some (cstr "SafetyCritical")) 1 0 100 100
        DAL_A,
       RtosOp.create 0 (some (mkTask 0 0 0 0)) (some (cstr "Monitoring")) 1 0 500 450
         DAL_C,
       RtosOp.delete 0, RtosOp.tick 1 (fun _ => 1 / 2) 7]).kernel.g_tasks.length
      ≤ MAX_TASKS :=
  (registry_invariant_reachable (schedulerWith 0) 0
    [RtosOp.create 0 (some (mkTask 0 0 0 0)) (some (cstr "SafetyCritical")) 1 0 100 100
        DAL_A,
     RtosOp.create 0 (some (mkTask 0 0 0 0)) (some (cstr "Monitoring")) 1 0 500 450
         DAL_C,
     RtosOp.delete 0, RtosOp.tick 1 (fun _ => 1 / 2) 7]).1

/-- Up to `2 ^ 24` the conversion of an integer to binary32 is exact. -/
theorem uint32ToFloat_exact (n : Nat) (h : n ≤ 2 ^ 24) : uint32ToFloat n = n := by
  rcases Nat.lt_or_eq_of_le h with hlt | heq
  · have he : droppedBits 8 n = 0 := by
      show (if n < 2 ^ 24 then 0 else droppedBits 7 (n / 2) + 1) = 0
      rw [if_pos hlt]
    unfold uint32ToFloat
    dsimp only
    rw [he]
    simp [Nat.mod_one]
  · subst heq
    decide

/-- The integer `2 ^ 24 + 1` is converted to the binary32 value `2 ^ 24`. -/
theorem uint32ToFloat_first_inexact : uint32ToFloat 16777217 = 16777216 := by
  decide

/-- C23, counterexample: `task_create` with a period of 167772170 ms in the
empty registry succeeds and registers a descriptor whose `executionTimeMs` is
16777217 and whose ten history entries are 16777216, the binary32 value of
`(float)16777217`: no history entry equals `executionTimeMs`. -/
theorem task_create_history_rounds :
    (167772170 : Nat) < 2 ^ 32 ∧
    (task_create (kernelWith []) (fault_tolerance_init 0) 0 (some (mkTask 0 0 0 0))
      (some (cstr "Background")) 1 0 167772170 167772170 DAL_D).1 = 0 ∧
    ∃ t : Task ℚ,
      (task_create (kernelWith []) (fault_tolerance_init 0) 0 (some (mkTask 0 0 0 0))
        (some (cstr "Background")) 1 0 167772170 167772170 DAL_D).2.2.1.g_tasks[0]? = some t ∧
      t.executionTimeMs = 16777217 ∧
      t.executionHistory = List.replicate 10 16777216 ∧
      ∀ (i : Nat), i < 10 → t.executionHistory[i]? ≠ some ((t.executionTimeMs : Nat) : ℚ) := by
  obtain ⟨hret, htasks, _⟩ := task_create_success (kernelWith []) (fault_tolerance_init 0) 0
    (mkTask 0 0 0 0) (cstr "Background") 1 0 167772170 167772170 DAL_D (by decide) (by decide)
  have hhist : ({ (newTask (cstr "Background") 1 0 167772170 167772170 DAL_D : Task ℚ) with
      id := (kernelWith []).g_tasks.length, active := 1 } : Task ℚ).executionHistory =
      List.replicate 10 16777216 := by
    show List.replicate 10 ((uint32ToFloat (167772170 / 10) : Nat) : ℚ) =
      List.replicate 10 16777216
    have hdiv : (167772170 / 10 : Nat) = 16777217 := by decide
    rw [hdiv, uint32ToFloat_first_inexact]
    norm_num
  refine ⟨by decide, hret, { (newTask (cstr "Background") 1 0 167772170 167772170 DAL_D :
      Task ℚ) with id := (kernelWith []).g_tasks.length, active := 1 }, ?_, ?_, hhist, ?_⟩
  · rw [htasks]
    rfl
  · decide
  · intro i hi
    rw [hhist, List.getElem?_eq_getElem (by rw [List.length_replicate]; exact hi)]
    simp only [List.getElem_replicate]
    have hexec : ({ (newTask (cstr "Background") 1 0 167772170 167772170 DAL_D : Task ℚ) with
        id := (kernelWith []).g_tasks.length, active := 1 } : Task ℚ).executionTimeMs =
        16777217 := by decide
    rw [hexec]
    norm_num

/-- C23, amended: after a successful `task_create` the descriptor registered
in the new slot has the given period, deadline and criticality,
`executionTimeMs = periodMs / 10`, base priority 8, core 0, no missed
deadline, last execution time 0, active flag 1, and ten history entries, all
equal to `(float)executionTimeMs`, the execution time rounded to binary32;
the entries equal `executionTimeMs` itself whenever it is at most `2 ^ 24`. -/
theorem task_create_descriptor {α : Type} [NatCast α] (k : KernelState α) (f : FaultState)
    (now : Nat) (task : Task α) (name : List Nat)
    (entryPoint args periodMs deadlineMs criticality : Nat)
    (hentry : entryPoint ≠ 0) (hroom : k.g_tasks.length < MAX_TASKS) :
    ∃ t : Task α,
      (task_create k f now (some task) (some name) entryPoint args periodMs deadlineMs
        criticality).2.2.1.g_tasks[k.g_tasks.length]? = some t ∧
      t.id = k.g_tasks.length ∧ t.periodMs = periodMs ∧ t.deadlineMs = deadlineMs ∧
      t.executionTimeMs = periodMs / 10 ∧ t.basePriority = 8 ∧
      t.criticality = criticality ∧ t.coreAffinity = 0 ∧ t.missedDeadlines = 0 ∧
      t.lastExecutionTime = 0 ∧ t.active = 1 ∧
      t.executionHistory.length = 10 ∧
      (∀ (i : Nat), i < 10 →
        t.executionHistory[i]? = some ((uint32ToFloat t.executionTimeMs : Nat) : α)) ∧
      (t.executionTimeMs ≤ 2 ^ 24 →
        ∀ (i : Nat), i < 10 → t.executionHistory[i]? = some ((t.executionTimeMs : Nat) : α)) := by
  obtain ⟨_, htasks, _⟩ := task_create_success k f now task name entryPoint args periodMs
    deadlineMs criticality hentry hroom
  have hall : ∀ (i : Nat), i < 10 →
      (List.replicate 10 ((uint32ToFloat (periodMs / 10) : Nat) : α))[i]? =
        some ((uint32ToFloat (periodMs / 10) : Nat) : α) := by
    intro i hi
    rw [List.getElem?_eq_getElem (by rw [List.length_replicate]; exact hi)]
    simp only [List.getElem_replicate]
  refine ⟨{ (newTask name entryPoint args periodMs deadlineMs criticality : Task α) with
      id := k.g_tasks.length, active := 1 }, ?_, rfl, rfl, rfl, rfl, rfl, rfl, rfl, rfl, rfl, rfl,
    ?_, ?_, ?_⟩
  · rw [htasks, List.getElem?_append_right (le_refl _), Nat.sub_self]
    rfl
  · exact List.length_replicate _ _
  · exact hall
  · intro hle i hi
    have hle2 : periodMs / 10 ≤ 2 ^ 24 := hle
    show (List.replicate 10 ((uint32ToFloat (periodMs / 10) : Nat) : α))[i]? =
      some ((periodMs / 10 : Nat) : α)
    rw [hall i hi, uint32ToFloat_exact _ hle2]

/-- Witness for C23: the task created from period 100 and deadline 90 in the
empty registry has execution time 10, and the first entry of its history
is 10. -/
theorem task_create_descriptor_witness :
    (1 : Nat) ≠ 0 ∧ (kernelWith []).g_tasks.length < MAX_TASKS ∧
    ∃ t : Task ℚ,
      (task_create (kernelWith []) (fault_tolerance_init 0) 0 (some (mkTask 0 0 0 0))
        (some (cstr "Control")) 1 0 100 90
        DAL_B).2.2.1.g_tasks[(kernelWith []).g_tasks.length]? = some t ∧
      t.executionTimeMs = 100 / 10 ∧
      t.executionHistory[0]? = some ((t.executionTimeMs : Nat) : ℚ) :=
  ⟨by decide, by decide,
   (task_create_descriptor (kernelWith []) (fault_tolerance_init 0) 0 (mkTask 0 0 0 0)
      (cstr "Control") 1 0 100 90 DAL_B (by decide) (by decide)).imp
      (fun _ h => ⟨h.1, h.2.2.2.2.1,
        h.2.2.2.2.2.2.2.2.2.2.2.2.2 (by rw [h.2.2.2.2.1]; decide) 0 (by decide)⟩)⟩

/-- C24: `task_suspend` returns 0 exactly for a registered, active task and
then clears only that task's active flag; `task_resume` returns 0 exactly for
a registered, inactive task and then sets only that task's active flag; in
every other case the call returns `-1` and the registry is unchanged; and
suspending then resuming a task whose active flag is 1 restores the registry
exactly. -/
theorem task_suspend_resume {α : Type} (k : KernelState α) (taskId : Nat) :
    ((task_suspend k taskId).1 = 0 ↔ ∃ t, k.g_tasks[taskId]? = some t ∧ t.active ≠ 0) ∧
    (∀ t, k.g_tasks[taskId]? = some t → t.active ≠ 0 →
      (task_suspend k taskId).2 =
        { k with g_tasks := k.g_tasks.set taskId { t with active := 0 } }) ∧
    ((task_suspend k taskId).1 ≠ 0 →
      (task_suspend k taskId).1 = -1 ∧ (task_suspend k taskId).2 = k) ∧
    ((task_resume k taskId).1 = 0 ↔ ∃ t, k.g_tasks[taskId]? = some t ∧ t.active = 0) ∧
    (∀ t, k.g_tasks[taskId]? = some t → t.active = 0 →
      (task_resume k taskId).2 =
        { k with g_tasks := k.g_tasks.set taskId { t with active := 1 } }) ∧
    ((task_resume k taskId).1 ≠ 0 →
      (task_resume k taskId).1 = -1 ∧ (task_resume k taskId).2 = k) ∧
    (∀ t, k.g_tasks[taskId]? = some t → t.active = 1 →
      (task_suspend k taskId).1 = 0 ∧
      (task_resume (task_suspend k taskId).2 taskId).1 = 0 ∧
      (task_resume (task_suspend k taskId).2 taskId).2 = k) := by
  have hsus : ∀ t, k.g_tasks[taskId]? = some t → t.active ≠ 0 →
      task_suspend k taskId =
        (0, { k with g_tasks := k.g_tasks.set taskId { t with active := 0 } }) := by
    intro t ht hact
    obtain ⟨h, hget⟩ := List.getElem?_eq_some.mp ht
    unfold task_suspend
    rw [dif_pos h, hget, if_pos hact]
  have hres : ∀ (k2 : KernelState α) t, k2.g_tasks[taskId]? = some t → t.active = 0 →
      task_resume k2 taskId =
        (0, { k2 with g_tasks := k2.g_tasks.set taskId { t with active := 1 } }) := by
    intro k2 t ht hact
    obtain ⟨h, hget⟩ := List.getElem?_eq_some.mp ht
    unfold task_resume
    rw [dif_pos h, hget, if_pos hact]
  refine ⟨⟨?_, ?_⟩, fun t ht hact => by rw [hsus t ht hact], ?_,
    ⟨?_, ?_⟩, fun t ht hact => by rw [hres k t ht hact], ?_, ?_⟩
  · intro hret
    unfold task_suspend at hret
    split_ifs at hret with h h2
    · exact ⟨k.g_tasks[taskId], List.getElem?_eq_getElem h, h2⟩
    · exact absurd (show (-1 : Int) = 0 from hret) (by decide)
    · exact absurd (show (-1 : Int) = 0 from hret) (by decide)
  · rintro ⟨t, ht, hact⟩
    rw [hsus t ht hact]
  · intro hret
    unfold task_suspend at hret ⊢
    split_ifs at hret ⊢ with h h2
    · exact absurd rfl hret
    · exact ⟨rfl, rfl⟩
    · exact ⟨rfl, rfl⟩
  · intro hret
    unfold task_resume at hret
    split_ifs at hret with h h2
    · exact ⟨k.g_tasks[taskId], List.getElem?_eq_getElem h, h2⟩
    · exact absurd (show (-1 : Int) = 0 from hret) (by decide)
    · exact absurd (show (-1 : Int) = 0 from hret) (by decide)
  · rintro ⟨t, ht, hact⟩
    rw [hres k t ht hact]
  · intro hret
    unfold task_resume at hret ⊢
    split_ifs at hret ⊢ with h h2
    · exact absurd rfl hret
    · exact ⟨rfl, rfl⟩
    · exact ⟨rfl, rfl⟩
  · intro t ht hact
    obtain ⟨h, hget⟩ := List.getElem?_eq_some.mp ht
    have hne : t.active ≠ 0 := by rw [hact]; exact Nat.one_ne_zero
    have hslot : ({ k with g_tasks := k.g_tasks.set taskId { t with active := 0 } } :
        KernelState α).g_tasks[taskId]? = some { t with active := 0 } :=
      List.getElem?_set_self h
    rw [hsus t ht hne, hres _ _ hslot rfl]
    refine ⟨rfl, rfl, ?_⟩
    dsimp only
    rw [List.set_set]
    have hback : ({ t with active := 1 } : Task α) = k.g_tasks[taskId] := by
      rw [hget]
      cases t
      simp only at hact
      subst hact
      rfl
    rw [hback, list_set_same k.g_tasks taskId h]

/-- C25: `task_delete` of a registered id clears the active flag of that slot,
so `task_ready` is 0 for it, and changes nothing else: the count and every
other slot are as before, and the next successful `task_create` returns the
unchanged count, never the deleted id; for an unregistered id `task_delete`
changes nothing. -/
theorem task_delete_frame {α : Type} [NatCast α] (k : KernelState α) (taskId : Nat) :
    (∀ t, k.g_tasks[taskId]? = some t →
      task_delete k taskId =
        { k with g_tasks := k.g_tasks.set taskId { t with active := 0 } } ∧
      task_ready (task_delete k taskId) taskId = 0 ∧
      (task_delete k taskId).g_tasks.length = k.g_tasks.length ∧
      (∀ (j : Nat) (u : Task α), j ≠ taskId → k.g_tasks[j]? = some u →
        (task_delete k taskId).g_tasks[j]? = some u) ∧
      ∀ (f : FaultState) (now : Nat) (task : Task α) (name : List Nat)
        (entryPoint args periodMs deadlineMs criticality : Nat),
        entryPoint ≠ 0 → k.g_tasks.length < MAX_TASKS →
        (task_create (task_delete k taskId) f now (some task) (some name) entryPoint args
          periodMs deadlineMs criticality).1 = (k.g_tasks.length : Int) ∧
        (task_create (task_delete k taskId) f now (some task) (some name) entryPoint args
          periodMs deadlineMs criticality).1 ≠ (taskId : Int)) ∧
    (k.g_tasks.length ≤ taskId → task_delete k taskId = k) := by
  constructor
  · intro t ht
    obtain ⟨h, hget⟩ := List.getElem?_eq_some.mp ht
    have hdel : task_delete k taskId =
        { k with g_tasks := k.g_tasks.set taskId { t with active := 0 } } := by
      unfold task_delete
      rw [dif_pos h, hget]
    have hlen : (task_delete k taskId).g_tasks.length = k.g_tasks.length := by
      rw [hdel]
      exact List.length_set _ _ _
    refine ⟨hdel, ?_, hlen, ?_, ?_⟩
    · unfold task_ready
      rw [dif_pos (by rw [hlen]; exact h)]
      have hslot : (task_delete k taskId).g_tasks[taskId]? = some { t with active := 0 } := by
        rw [hdel]
        exact List.getElem?_set_self h
      obtain ⟨_, hval⟩ := List.getElem?_eq_some.mp hslot
      rw [hval]
      rfl
    · intro j u hj hu
      rw [hdel]
      dsimp only
      rw [List.getElem?_set_ne (Ne.symm hj)]
      exact hu
    · intro f now task name entryPoint args periodMs deadlineMs criticality hentry hroom
      have hret := (task_create_success (task_delete k taskId) f now task name entryPoint args
        periodMs deadlineMs criticality hentry (by rw [hlen]; exact hroom)).1
      rw [hlen] at hret
      refine ⟨hret, ?_⟩
      rw [hret]
      omega
  · intro hout
    unfold task_delete
    rw [dif_neg (not_lt.mpr hout)]

/-- Witness for C25: deleting slot 0 of a two-slot registry. -/
theorem task_delete_frame_witness :
    (kernelWith [mkTask 0 100 100 1, mkTask 1 50 40 1]).g_tasks[0]?
      = some (mkTask 0 100 100 1) ∧
    task_ready (task_delete (kernelWith [mkTask 0 100 100 1, mkTask 1 50 40 1]) 0) 0 = 0 :=
  ⟨rfl,
   ((task_delete_frame (kernelWith [mkTask 0 100 100 1, mkTask 1 50 40 1]) 0).1
      (mkTask 0 100 100 1) rfl).2.1⟩

/-- Witness for C24: suspending and resuming the active slot 1 of a two-slot
registry restores it. -/
theorem task_suspend_resume_witness :
    (kernelWith [mkTask 0 100 100 1, mkTask 1 50 40 1]).g_tasks[1]?
      = some (mkTask 1 50 40 1) ∧ (mkTask 1 50 40 1).active = 1 ∧
    (task_resume (task_suspend (kernelWith [mkTask 0 100 100 1, mkTask 1 50 40 1]) 1).2 1).2
      = kernelWith [mkTask 0 100 100 1, mkTask 1 50 40 1] :=
  ⟨rfl, rfl,
   ((task_suspend_resume (kernelWith [mkTask 0 100 100 1, mkTask 1 50 40 1]) 1).2.2.2.2.2.2
      (mkTask 1 50 40 1) rfl rfl).2.2⟩

/-! ## Lemmas on the priority formulas -/

/-- The two clamps at the end of `compute_dynamic_priority` are the
specification's `clamp(x, 0, 1)`. -/
theorem clamp_code_eq_spec {α : Type} [LinearOrderedField α] (x : α) :
    (if (if x > 1 then 1 else x) < 0 then 0 else (if x > 1 then 1 else x)) = specClamp01 x := by
  unfold specClamp01
  by_cases h1 : x > 1
  · rw [if_pos h1, if_neg (by norm_num), min_eq_right (le_of_lt h1), max_eq_right (by norm_num)]
  · rw [if_neg h1, min_eq_left (not_lt.mp h1)]
    by_cases h0 : x < 0
    · rw [if_pos h0, max_eq_left (le_of_lt h0)]
    · rw [if_neg h0, max_eq_right (not_lt.mp h0)]

/-- The two clamps of `fuzzy_level_for_value` are the specification's
`clamp(x, 0, 1)`. -/
theorem clamp_level_eq_spec {α : Type} [LinearOrderedField α] (x : α) :
    (if (if x < 0 then 0 else x) > 1 then 1 else (if x < 0 then 0 else x)) = specClamp01 x := by
  unfold specClamp01
  by_cases h0 : x < 0
  · rw [if_pos h0, if_neg (by norm_num), min_eq_left (by linarith), max_eq_left (le_of_lt h0)]
  · rw [if_neg h0]
    by_cases h1 : x > 1
    · rw [if_pos h1, min_eq_right (le_of_lt h1), max_eq_right (by norm_num)]
    · rw [if_neg h1, min_eq_left (not_lt.mp h1), max_eq_right (not_lt.mp h0)]

/-- The specification's `clamp(x, 0, 1)` lies in `[0, 1]`. -/
theorem specClamp01_range {α : Type} [LinearOrderedField α] (x : α) :
    0 ≤ specClamp01 x ∧ specClamp01 x ≤ 1 := by
  unfold specClamp01
  exact ⟨le_max_left _ _, max_le (by norm_num) (min_le_right _ _)⟩

/-- The energy penalty computed by `compute_dynamic_priority` is the
specification's. -/
theorem energy_penalty_eq_spec {α : Type} [LinearOrderedField α]
    (sysState : SystemStateVector α) :
    (if sysState.powerConsumption > 4 then (2 / 10 : α)
      else if sysState.temperature > 70 then 15 / 100 else 0) =
    specEnergyPenalty sysState := by
  unfold specEnergyPenalty
  by_cases hp : sysState.powerConsumption > 4
  · rw [if_pos hp, if_pos hp]
    norm_num
  · rw [if_neg hp, if_neg hp]
    by_cases ht : sysState.temperature > 70
    · rw [if_pos ht, if_pos ⟨not_lt.mp hp, ht⟩]
    · rw [if_neg ht, if_neg (fun hc => ht hc.2)]

/-- The quantisation of `fuzzy_level_for_value` is the floor of four times the
clamped normalised value. -/
theorem fuzzy_level_eq_floor {α : Type} [LinearOrderedField α] [FloorRing α]
    (v min max : α) :
    fuzzy_level_for_value v min max = ⌊4 * specClamp01 ((v - min) / (max - min))⌋ := by
  unfold fuzzy_level_for_value
  dsimp only
  rw [clamp_level_eq_spec]
  have h4 : ((FUZZY_LEVELS : Nat) : α) - 1 = 4 := by
    unfold FUZZY_LEVELS
    norm_num
  rw [h4, mul_comm]
  unfold truncToInt
  rw [if_pos (mul_nonneg (by norm_num) (specClamp01_range _).1)]

/-- Every fuzzy level lies between 0 and 4. -/
theorem fuzzy_level_range {α : Type} [LinearOrderedField α] [FloorRing α]
    (v min max : α) :
    0 ≤ fuzzy_level_for_value v min max ∧ fuzzy_level_for_value v min max < 5 := by
  rw [fuzzy_level_eq_floor]
  obtain ⟨h0, h1⟩ := specClamp01_range ((v - min) / (max - min))
  constructor
  · exact Int.floor_nonneg.mpr (mul_nonneg (by norm_num) h0)
  · rw [Int.floor_lt]
    push_cast
    linarith

/-- Every criticality level lies between 0 and 4. -/
theorem criticalityLevel_range (criticality : Nat) :
    0 ≤ criticalityLevel criticality ∧ criticalityLevel criticality < 5 := by
  unfold criticalityLevel
  split_ifs <;> decide

/-! ## Priority formulas -/

/-- C26: `compute_dynamic_priority` equals
`clamp(fuzzy_adjust(base + urg * fault - penalty), 0, 1)` with
`base = basePriority / MAX_PRIORITY_LEVELS`, `urg = ml_predict_urgency`,
`fault = get_fault_recovery_factor(task id)`, and a single penalty chosen with
the power test first: 0.20 whenever the power exceeds 4.0, whatever the
temperature, 0.15 when the power is at most 4.0 and the temperature exceeds
70, and 0 otherwise. -/
theorem compute_dynamic_priority_formula {α : Type} [LinearOrderedField α] [FloorRing α]
    (g_faultRecoveryCounter : Fin MAX_TASKS → Nat) (g_modelLoaded : Nat) (inference : α)
    (task : Task α) (sysState : SystemStateVector α) :
    compute_dynamic_priority g_faultRecoveryCounter g_modelLoaded inference task sysState =
      specDynamicPriority g_faultRecoveryCounter g_modelLoaded inference task sysState ∧
    (sysState.powerConsumption > 4 →
      compute_dynamic_priority g_faultRecoveryCounter g_modelLoaded inference task sysState =
        specClamp01 (fuzzy_adjust_priority task
          ((task.basePriority : α) / (MAX_PRIORITY_LEVELS : α) +
            ml_predict_urgency g_modelLoaded inference *
              get_fault_recovery_factor g_faultRecoveryCounter task.id - 20 / 100)
          sysState)) ∧
    (sysState.powerConsumption ≤ 4 → sysState.temperature > 70 →
      compute_dynamic_priority g_faultRecoveryCounter g_modelLoaded inference task sysState =
        specClamp01 (fuzzy_adjust_priority task
          ((task.basePriority : α) / (MAX_PRIORITY_LEVELS : α) +
            ml_predict_urgency g_modelLoaded inference *
              get_fault_recovery_factor g_faultRecoveryCounter task.id - 15 / 100)
          sysState)) ∧
    (sysState.powerConsumption ≤ 4 → sysState.temperature ≤ 70 →
      compute_dynamic_priority g_faultRecoveryCounter g_modelLoaded inference task sysState =
        specClamp01 (fuzzy_adjust_priority task
          ((task.basePriority : α) / (MAX_PRIORITY_LEVELS : α) +
            ml_predict_urgency g_modelLoaded inference *
              get_fault_recovery_factor g_faultRecoveryCounter task.id - 0)
          sysState)) := by
  have hspec : compute_dynamic_priority g_faultRecoveryCounter g_modelLoaded inference task
      sysState =
      specDynamicPriority g_faultRecoveryCounter g_modelLoaded inference task sysState := by
    unfold compute_dynamic_priority specDynamicPriority
    dsimp only
    rw [clamp_code_eq_spec, energy_penalty_eq_spec]
  refine ⟨hspec, ?_, ?_, ?_⟩
  · intro hp
    rw [hspec]
    unfold specDynamicPriority specEnergyPenalty
    rw [if_pos hp]
  · intro hp ht
    rw [hspec]
    unfold specDynamicPriority specEnergyPenalty
    rw [if_neg (not_lt.mpr hp), if_pos ⟨hp, ht⟩]
  · intro hp ht
    rw [hspec]
    unfold specDynamicPriority specEnergyPenalty
    rw [if_neg (not_lt.mpr hp), if_neg (fun hc => absurd hc.2 (not_lt.mpr ht))]

/-- Witness for C26: with 4.5 W and 75 °C only the power penalty applies. -/
theorem compute_dynamic_priority_formula_witness :
    (9 / 2 : ℚ) > 4 ∧
    compute_dynamic_priority (fun _ => 0) 1 (1 / 2 : ℚ) (mkTask 0 100 100 1)
        ⟨0, 0, 75, 9 / 2, 0, 0⟩ =
      specClamp01 (fuzzy_adjust_priority (mkTask 0 100 100 1)
        (((mkTask 0 100 100 1).basePriority : ℚ) / (MAX_PRIORITY_LEVELS : ℚ) +
          ml_predict_urgency 1 (1 / 2 : ℚ) *
            get_fault_recovery_factor (fun _ => 0) (mkTask 0 100 100 1).id - 20 / 100)
        ⟨0, 0, 75, 9 / 2, 0, 0⟩) :=
  ⟨by norm_num,
   (compute_dynamic_priority_formula (fun _ => 0) 1 (1 / 2 : ℚ) (mkTask 0 100 100 1)
      ⟨0, 0, 75, 9 / 2, 0, 0⟩).2.1 (show (9 / 2 : ℚ) > 4 by norm_num)⟩

/-- C27: `fuzzy_adjust_priority` returns the base score times
`0.5 * M[L][c] + 0.3 * M[T][c] + 0.2 * M[P][c]`, unclamped, where `L`, `T`, `P`
are the levels of the CPU load over `[0, 1]`, the temperature over `[20, 80]`
and the power over `[0.5, 5.0]`, `c` is the criticality level (`DAL_A` to 0,
`DAL_B` to 1, `DAL_C` to 3, `DAL_D` to 4, any other value to 2), and `M` is
the 5×5 membership matrix, which is symmetric with diagonal 1. -/
theorem fuzzy_adjust_priority_formula {α : Type} [LinearOrderedField α] [FloorRing α]
    (task : Task α) (baseScore : α) (sysState : SystemStateVector α) :
    fuzzy_adjust_priority task baseScore sysState =
      baseScore *
        (5 / 10 * fuzzyMembership (fuzzy_level_for_value sysState.cpuLoad 0 1)
            (criticalityLevel task.criticality) +
          3 / 10 * fuzzyMembership (fuzzy_level_for_value sysState.temperature 20 80)
            (criticalityLevel task.criticality) +
          2 / 10 * fuzzyMembership (fuzzy_level_for_value sysState.powerConsumption (5 / 10) 5)
            (criticalityLevel task.criticality)) ∧
    criticalityLevel DAL_A = 0 ∧ criticalityLevel DAL_B = 1 ∧
    criticalityLevel DAL_C = 3 ∧ criticalityLevel DAL_D = 4 ∧
    (∀ c : Nat, c ≠ DAL_A → c ≠ DAL_B → c ≠ DAL_C → c ≠ DAL_D → criticalityLevel c = 2) ∧
    (g_fuzzyMembershipMatrix : List (List α)) =
      [[1, 7 / 10, 3 / 10, 1 / 10, 0],
       [7 / 10, 1, 7 / 10, 3 / 10, 1 / 10],
       [3 / 10, 7 / 10, 1, 7 / 10, 3 / 10],
       [1 / 10, 3 / 10, 7 / 10, 1, 7 / 10],
       [0, 1 / 10, 3 / 10, 7 / 10, 1]] ∧
    (∀ i j : Int, 0 ≤ i → i < 5 → 0 ≤ j → j < 5 →
      (fuzzyMembership i j : α) = fuzzyMembership j i) ∧
    (∀ i : Int, 0 ≤ i → i < 5 → (fuzzyMembership i i : α) = 1) := by
  refine ⟨rfl, by decide, by decide, by decide, by decide, ?_, rfl, ?_, ?_⟩
  · intro c ha hb hc hd
    unfold criticalityLevel
    rw [if_neg ha, if_neg hb, if_neg hc, if_neg hd]
  · intro i j hi0 hi5 hj0 hj5
    unfold fuzzyMembership g_fuzzyMembershipMatrix
    rw [if_pos ⟨hi0, hi5, hj0, hj5⟩, if_pos ⟨hj0, hj5, hi0, hi5⟩]
    interval_cases i <;> interval_cases j <;> rfl
  · intro i hi0 hi5
    unfold fuzzyMembership g_fuzzyMembershipMatrix
    rw [if_pos ⟨hi0, hi5, hi0, hi5⟩]
    interval_cases i <;> rfl

/-- Witness for C27: a criticality value outside the enum maps to level 2. -/
theorem fuzzy_adjust_priority_formula_witness :
    (7 : Nat) ≠ DAL_A ∧ (7 : Nat) ≠ DAL_B ∧ (7 : Nat) ≠ DAL_C ∧ (7 : Nat) ≠ DAL_D ∧
    criticalityLevel 7 = 2 :=
  ⟨by decide, by decide, by decide, by decide,
   (fuzzy_adjust_priority_formula (mkTask 0 100 100 1) (1 : ℚ) kernelInitState).2.2.2.2.2.1 7
      (by decide) (by decide) (by decide) (by decide)⟩

/-- C28: for every value and every range `min < max`,
`fuzzy_level_for_value` equals `floor(4 * clamp((v - min) / (max - min), 0, 1))`
and lies in `0 .. 4`, with level 0 at or below `min` and level 4 at or above
`max`; so all indices that `fuzzy_adjust_priority` uses for the 5×5 matrix,
the three levels and the criticality level, lie in `0 .. 4` for every system
state. -/
theorem fuzzy_level_for_value_total {α : Type} [LinearOrderedField α] [FloorRing α]
    (v min max : α) (hlt : min < max) :
    fuzzy_level_for_value v min max = specFuzzyLevel v min max ∧
    0 ≤ fuzzy_level_for_value v min max ∧ fuzzy_level_for_value v min max ≤ 4 ∧
    (v ≤ min → fuzzy_level_for_value v min max = 0) ∧
    (max ≤ v → fuzzy_level_for_value v min max = 4) ∧
    ∀ (task : Task α) (sysState : SystemStateVector α),
      (0 ≤ fuzzy_level_for_value sysState.cpuLoad 0 1 ∧
        fuzzy_level_for_value sysState.cpuLoad 0 1 < 5) ∧
      (0 ≤ fuzzy_level_for_value sysState.temperature 20 80 ∧
        fuzzy_level_for_value sysState.temperature 20 80 < 5) ∧
      (0 ≤ fuzzy_level_for_value sysState.powerConsumption (5 / 10) 5 ∧
        fuzzy_level_for_value sysState.powerConsumption (5 / 10) 5 < 5) ∧
      (0 ≤ criticalityLevel task.criticality ∧ criticalityLevel task.criticality < 5) := by
  have hpos : 0 < max - min := sub_pos.mpr hlt
  obtain ⟨h0, h5⟩ := fuzzy_level_range v min max
  refine ⟨fuzzy_level_eq_floor v min max, h0, by omega, ?_, ?_, ?_⟩
  · intro hv
    rw [fuzzy_level_eq_floor]
    have hq : (v - min) / (max - min) ≤ 0 :=
      div_nonpos_of_nonpos_of_nonneg (sub_nonpos.mpr hv) (le_of_lt hpos)
    have hc : specClamp01 ((v - min) / (max - min)) = 0 := by
      unfold specClamp01
      rw [min_eq_left (le_trans hq (by norm_num)), max_eq_left hq]
    rw [hc, mul_zero, Int.floor_zero]
  · intro hv
    rw [fuzzy_level_eq_floor]
    have hq : 1 ≤ (v - min) / (max - min) := by
      rw [le_div_iff₀ hpos]
      linarith
    have hc : specClamp01 ((v - min) / (max - min)) = 1 := by
      unfold specClamp01
      rw [min_eq_right hq, max_eq_right (by norm_num)]
    rw [hc, mul_one]
    exact Int.floor_ofNat 4
  · intro task sysState
    exact ⟨fuzzy_level_range _ _ _, fuzzy_level_range _ _ _, fuzzy_level_range _ _ _,
      criticalityLevel_range _⟩

/-- Witness for C28: 100 °C over the range 20 to 80 is quantised to level 4. -/
theorem fuzzy_level_for_value_total_witness :
    (20 : ℚ) < 80 ∧ (80 : ℚ) ≤ 100 ∧ fuzzy_level_for_value (100 : ℚ) 20 80 = 4 :=
  ⟨by norm_num, by norm_num,
   (fuzzy_level_for_value_total (100 : ℚ) 20 80 (by norm_num)).2.2.2.2.1 (by norm_num)⟩

/-! ## Tick history -/

/-- C30: `tmr_voting` returns the low eight bits of the majority value:
`result1 mod 256` when `result1` equals `result2` or `result3`, otherwise
`result2 mod 256` when `result2 = result3`, and `0xFF` when all three differ;
so the result is always below 256, and the genuine majorities 255 and 511
give the same result as the no-majority inputs 1, 2, 3. -/
theorem tmr_voting_low_byte (result1 result2 result3 : Nat) :
    ((result1 = result2 ∨ result1 = result3) →
      tmr_voting result1 result2 result3 = result1 % 256) ∧
    (¬ (result1 = result2 ∨ result1 = result3) → result2 = result3 →
      tmr_voting result1 result2 result3 = result2 % 256) ∧
    (result1 ≠ result2 → result1 ≠ result3 → result2 ≠ result3 →
      tmr_voting result1 result2 result3 = 0xFF) ∧
    tmr_voting result1 result2 result3 < 256 ∧
    tmr_voting 255 255 0 = tmr_voting 1 2 3 ∧
    tmr_voting 511 0 511 = tmr_voting 1 2 3 := by
  refine ⟨?_, ?_, ?_, ?_, by decide, by decide⟩
  · intro h
    unfold tmr_voting
    rw [if_pos h]
    rfl
  · intro h1 h2
    unfold tmr_voting
    rw [if_neg h1, if_pos h2]
    rfl
  · intro h12 h13 h23
    unfold tmr_voting
    rw [if_neg (by tauto), if_neg h23]
  · unfold tmr_voting
    split_ifs <;> omega

/-- Witness for C30: the inputs 300, 300, 7 agree on 300 and the vote is
300 mod 256 = 44. -/
theorem tmr_voting_low_byte_witness :
    ((300 : Nat) = 300 ∨ (300 : Nat) = 7) ∧ tmr_voting 300 300 7 = 300 % 256 :=
  ⟨Or.inl rfl, (tmr_voting_low_byte 300 300 7).1 (Or.inl rfl)⟩

/-! ## Lemmas on stressed states -/

/-- A value at or above the upper end of its range is quantised to level 4. -/
theorem fuzzy_level_top {α : Type} [LinearOrderedField α] [FloorRing α]
    (v min max : α) (hlt : min < max) (hv : max ≤ v) :
    fuzzy_level_for_value v min max = 4 := by
  have hpos : 0 < max - min := sub_pos.mpr hlt
  rw [fuzzy_level_eq_floor]
  have hq : 1 ≤ (v - min) / (max - min) := by
    rw [le_div_iff₀ hpos]
    linarith
  have hc : specClamp01 ((v - min) / (max - min)) = 1 := by
    unfold specClamp01
    rw [min_eq_right hq, max_eq_right (by norm_num)]
  rw [hc, mul_one]
  exact Int.floor_ofNat 4

/-- When the three system levels are all 4, `fuzzy_adjust_priority` multiplies
the base score by the matrix entry of row 4 in the column of the task's
criticality level. -/
theorem fuzzy_adjust_priority_stressed {α : Type} [LinearOrderedField α] [FloorRing α]
    (task : Task α) (baseScore : α) (sysState : SystemStateVector α)
    (hl : fuzzy_level_for_value sysState.cpuLoad 0 1 = 4)
    (ht : fuzzy_level_for_value sysState.temperature 20 80 = 4)
    (hp : fuzzy_level_for_value sysState.powerConsumption (5 / 10) 5 = 4) :
    fuzzy_adjust_priority task baseScore sysState =
      baseScore * fuzzyMembership 4 (criticalityLevel task.criticality) := by
  unfold fuzzy_adjust_priority
  dsimp only
  rw [hl, ht, hp]
  ring

/-- Row 4 of the membership matrix: the entries for the criticality levels of
`DAL_A`, `DAL_B`, `DAL_C` and `DAL_D` are 0, 0.1, 0.7 and 1. -/
theorem fuzzyMembership_row_four {α : Type} [LinearOrderedField α] :
    (fuzzyMembership 4 (criticalityLevel DAL_A) : α) = 0 ∧
    (fuzzyMembership 4 (criticalityLevel DAL_B) : α) = 1 / 10 ∧
    (fuzzyMembership 4 (criticalityLevel DAL_C) : α) = 7 / 10 ∧
    (fuzzyMembership 4 (criticalityLevel DAL_D) : α) = 1 := by
  refine ⟨?_, ?_, ?_, ?_⟩
  · have hc : criticalityLevel DAL_A = 0 := by decide
    rw [hc]
    unfold fuzzyMembership g_fuzzyMembershipMatrix
    rw [if_pos (by decide)]
    rfl
  · have hc : criticalityLevel DAL_B = 1 := by decide
    rw [hc]
    unfold fuzzyMembership g_fuzzyMembershipMatrix
    rw [if_pos (by decide)]
    rfl
  · have hc : criticalityLevel DAL_C = 3 := by decide
    rw [hc]
    unfold fuzzyMembership g_fuzzyMembershipMatrix
    rw [if_pos (by decide)]
    rfl
  · have hc : criticalityLevel DAL_D = 4 := by decide
    rw [hc]
    unfold fuzzyMembership g_fuzzyMembershipMatrix
    rw [if_pos (by decide)]
    rfl

/-- Under full stress the adjusted score grows as the criticality falls: it is
0 for `DAL_A`, a tenth of the base score for `DAL_B`, seven tenths for `DAL_C`
and the whole base score for `DAL_D`. -/
theorem fuzzy_adjust_priority_stressed_values {α : Type} [LinearOrderedField α] [FloorRing α]
    (task : Task α) (baseScore : α) (sysState : SystemStateVector α)
    (hl : fuzzy_level_for_value sysState.cpuLoad 0 1 = 4)
    (ht : fuzzy_level_for_value sysState.temperature 20 80 = 4)
    (hp : fuzzy_level_for_value sysState.powerConsumption (5 / 10) 5 = 4) :
    (task.criticality = DAL_A → fuzzy_adjust_priority task baseScore sysState = 0) ∧
    (task.criticality = DAL_B →
      fuzzy_adjust_priority task baseScore sysState = baseScore * (1 / 10)) ∧
    (task.criticality = DAL_C →
      fuzzy_adjust_priority task baseScore sysState = baseScore * (7 / 10)) ∧
    (task.criticality = DAL_D → fuzzy_adjust_priority task baseScore sysState = baseScore) := by
  rw [fuzzy_adjust_priority_stressed task baseScore sysState hl ht hp]
  obtain ⟨ha, hb, hc, hd⟩ := fuzzyMembership_row_four (α := α)
  refine ⟨?_, ?_, ?_, ?_⟩
  · intro h
    rw [h, ha, mul_zero]
  · intro h
    rw [h, hb]
  · intro h
    rw [h, hc]
  · intro h
    rw [h, hd, mul_one]

/-! ## Criticality under stress -/

/-- C31, defect of the code: in the state with CPU load 1.0, 80 °C and 5 W all
three fuzzy levels are 4, and for the base score 1 `fuzzy_adjust_priority`
returns 0 for a `DAL_A` task and 1 for a `DAL_D` task: the most critical task
receives the smallest adjusted score, not the largest. -/
theorem fuzzy_adjust_priority_inverts_criticality :
    fuzzy_level_for_value stressedState.cpuLoad 0 1 = 4 ∧
    fuzzy_level_for_value stressedState.temperature 20 80 = 4 ∧
    fuzzy_level_for_value stressedState.powerConsumption (5 / 10) 5 = 4 ∧
    (mkCriticalTask 0 DAL_A).criticality = DAL_A ∧
    (mkCriticalTask 1 DAL_D).criticality = DAL_D ∧
    fuzzy_adjust_priority (mkCriticalTask 0 DAL_A) 1 stressedState = 0 ∧
    fuzzy_adjust_priority (mkCriticalTask 1 DAL_D) 1 stressedState = 1 := by
  have hl : fuzzy_level_for_value stressedState.cpuLoad 0 1 = 4 :=
    fuzzy_level_top _ _ _ (by norm_num) (le_refl _)
  have ht : fuzzy_level_for_value stressedState.temperature 20 80 = 4 :=
    fuzzy_level_top _ _ _ (by norm_num) (le_refl _)
  have hp : fuzzy_level_for_value stressedState.powerConsumption (5 / 10) 5 = 4 :=
    fuzzy_level_top _ _ _ (by norm_num) (le_refl _)
  refine ⟨hl, ht, hp, rfl, rfl, ?_, ?_⟩
  · exact (fuzzy_adjust_priority_stressed_values (mkCriticalTask 0 DAL_A) 1 stressedState
      hl ht hp).1 rfl
  · rw [(fuzzy_adjust_priority_stressed_values (mkCriticalTask 1 DAL_D) 1 stressedState
      hl ht hp).2.2.2 rfl]

/-! ## Lemmas on rate-monotonic selection -/

/-- Between 1 and 1000 the integer quotient `1000000 / period` is strictly
decreasing in the period. -/
theorem rms_quotient_strict (p q : Nat) (hp : 1 ≤ p) (hpq : p < q) (hq : q ≤ 1000) :
    1000000 / q < 1000000 / p := by
  rw [Nat.div_lt_iff_lt_mul (by omega)]
  have hk : 1000 ≤ 1000000 / p := by
    rw [Nat.le_div_iff_mul_le (by omega)]
    omega
  have hdm : p * (1000000 / p) + 1000000 % p = 1000000 := Nat.div_add_mod 1000000 p
  have hr : 1000000 % p < p := Nat.mod_lt _ (by omega)
  have hmul : 1000000 / p * (p + 1) ≤ 1000000 / p * q := Nat.mul_le_mul_left _ hpq
  rw [Nat.mul_succ, Nat.mul_comm (1000000 / p) p] at hmul
  omega

/-- The loop of `rate_monotonic_schedule`, started in state `acc`: either no
slot passing the guard beats the running best and the state is unchanged, or
the final state comes from a slot `k` passing the guard whose quotient beats
the initial best, is maximal among the slots passing the guard, and is
strictly larger than the quotient of every such slot before it. -/
theorem rate_monotonic_foldl_spec {α : Type} (ts : List (Task α))
    (acc : Int × ScheduleDecision) :
    (ts.foldl rate_monotonic_step acc = acc ∧
      ∀ (k : Nat) (t : Task α), ts[k]? = some t → t.active ≠ 0 ∧ t.periodMs > 0 →
        ((1000000 / t.periodMs : Nat) : Int) ≤ acc.1) ∨
    (∃ (k : Nat) (t : Task α), ts[k]? = some t ∧ (t.active ≠ 0 ∧ t.periodMs > 0) ∧
      ts.foldl rate_monotonic_step acc = (((1000000 / t.periodMs : Nat) : Int), decisionOf t) ∧
      acc.1 < ((1000000 / t.periodMs : Nat) : Int) ∧
      (∀ (j : Nat) (u : Task α), ts[j]? = some u → u.active ≠ 0 ∧ u.periodMs > 0 →
        ((1000000 / u.periodMs : Nat) : Int) ≤ ((1000000 / t.periodMs : Nat) : Int)) ∧
      (∀ (j : Nat) (u : Task α), j < k → ts[j]? = some u → u.active ≠ 0 ∧ u.periodMs > 0 →
        ((1000000 / u.periodMs : Nat) : Int) < ((1000000 / t.periodMs : Nat) : Int))) := by
  induction ts generalizing acc with
  | nil =>
    left
    exact ⟨rfl, fun k t hk => by simp at hk⟩
  | cons t ts ih =>
    rw [List.foldl_cons]
    by_cases hsel : (t.active ≠ 0 ∧ t.periodMs > 0) ∧
        ((1000000 / t.periodMs : Nat) : Int) > acc.1
    · have hacc : rate_monotonic_step acc t =
          (((1000000 / t.periodMs : Nat) : Int), decisionOf t) := by
        unfold rate_monotonic_step
        dsimp only
        rw [if_pos hsel.1, if_pos hsel.2]
      rw [hacc]
      rcases ih (((1000000 / t.periodMs : Nat) : Int), decisionOf t) with
        ⟨hr, hall⟩ | ⟨k, u, hk, hu, hr, hlt, hall, hbefore⟩
      · right
        refine ⟨0, t, List.getElem?_cons_zero, hsel.1, hr, hsel.2, ?_, ?_⟩
        · intro j u hj hu
          cases j with
          | zero =>
            simp only [List.getElem?_cons_zero, Option.some.injEq] at hj
            subst hj
            exact le_refl _
          | succ j =>
            rw [List.getElem?_cons_succ] at hj
            exact hall j u hj hu
        · intro j u hj
          exact absurd hj (Nat.not_lt_zero j)
      · right
        refine ⟨k + 1, u, by rw [List.getElem?_cons_succ]; exact hk, hu, hr,
          lt_trans hsel.2 hlt, ?_, ?_⟩
        · intro j v hj hv
          cases j with
          | zero =>
            simp only [List.getElem?_cons_zero, Option.some.injEq] at hj
            subst hj
            exact le_of_lt hlt
          | succ j =>
            rw [List.getElem?_cons_succ] at hj
            exact hall j v hj hv
        · intro j v hjk hj hv
          cases j with
          | zero =>
            simp only [List.getElem?_cons_zero, Option.some.injEq] at hj
            subst hj
            exact hlt
          | succ j =>
            rw [List.getElem?_cons_succ] at hj
            exact hbefore j v (by omega) hj hv
    · have hacc : rate_monotonic_step acc t = acc := by
        unfold rate_monotonic_step
        dsimp only
        split_ifs with h1 h2
        · exact absurd ⟨h1, h2⟩ hsel
        · rfl
        · rfl
      have hle : t.active ≠ 0 ∧ t.periodMs > 0 →
          ((1000000 / t.periodMs : Nat) : Int) ≤ acc.1 := fun h1 =>
        le_of_not_lt (fun h2 => hsel ⟨h1, h2⟩)
      rw [hacc]
      rcases ih acc with ⟨hr, hall⟩ | ⟨k, u, hk, hu, hr, hlt, hall, hbefore⟩
      · left
        refine ⟨hr, ?_⟩
        intro j v hj hv
        cases j with
        | zero =>
          simp only [List.getElem?_cons_zero, Option.some.injEq] at hj
          subst hj
          exact hle hv
        | succ j =>
          rw [List.getElem?_cons_succ] at hj
          exact hall j v hj hv
      · right
        refine ⟨k + 1, u, by rw [List.getElem?_cons_succ]; exact hk, hu, hr, hlt, ?_, ?_⟩
        · intro j v hj hv
          cases j with
          | zero =>
            simp only [List.getElem?_cons_zero, Option.some.injEq] at hj
            subst hj
            exact le_of_lt (lt_of_le_of_lt (hle hv) hlt)
          | succ j =>
            rw [List.getElem?_cons_succ] at hj
            exact hall j v hj hv
        · intro j v hjk hj hv
          cases j with
          | zero =>
            simp only [List.getElem?_cons_zero, Option.some.injEq] at hj
            subst hj
            exact lt_of_le_of_lt (hle hv) hlt
          | succ j =>
            rw [List.getElem?_cons_succ] at hj
            exact hbefore j v (by omega) hj hv

/-! ## Rate-monotonic selection on periods up to one second -/

/-- C32: for every task table in which every active task has a period between
1 and 1000 ms and at least one task is active, `rate_monotonic_schedule`
returns the decision built from the active task of smallest period, the one in
the lowest slot among those of equal period; on that range the quotient
`1000000 / period` is strictly decreasing in the period. -/
theorem rate_monotonic_schedule_small_periods {α : Type} (tasks : List (Task α))
    (hrange : ∀ (i : Nat) (t : Task α), tasks[i]? = some t → t.active ≠ 0 →
      1 ≤ t.periodMs ∧ t.periodMs ≤ 1000)
    (hact : ∃ (i : Nat) (t : Task α), tasks[i]? = some t ∧ t.active ≠ 0) :
    (∀ p q : Nat, 1 ≤ p → p < q → q ≤ 1000 → 1000000 / q < 1000000 / p) ∧
    (∃ (i : Nat) (t : Task α), tasks[i]? = some t ∧ t.active ≠ 0 ∧
      (∀ (j : Nat) (u : Task α), tasks[j]? = some u → u.active ≠ 0 →
        t.periodMs ≤ u.periodMs) ∧
      (∀ (j : Nat) (u : Task α), j < i → tasks[j]? = some u → u.active ≠ 0 →
        t.periodMs < u.periodMs) ∧
      rate_monotonic_schedule tasks = decisionOf t) ∧
    (∀ (i : Nat) (t : Task α), tasks[i]? = some t → t.active ≠ 0 →
      (∀ (j : Nat) (u : Task α), tasks[j]? = some u → u.active ≠ 0 →
        t.periodMs ≤ u.periodMs) →
      (∀ (j : Nat) (u : Task α), j < i → tasks[j]? = some u → u.active ≠ 0 →
        t.periodMs < u.periodMs) →
      rate_monotonic_schedule tasks = decisionOf t ∧
      (rate_monotonic_schedule tasks).taskId = t.id ∧
      (rate_monotonic_schedule tasks).targetCore = t.coreAffinity ∧
      (rate_monotonic_schedule tasks).timeSliceMs = t.executionTimeMs) := by
  have hex : ∃ (i : Nat) (t : Task α), tasks[i]? = some t ∧ t.active ≠ 0 ∧
      (∀ (j : Nat) (u : Task α), tasks[j]? = some u → u.active ≠ 0 →
        t.periodMs ≤ u.periodMs) ∧
      (∀ (j : Nat) (u : Task α), j < i → tasks[j]? = some u → u.active ≠ 0 →
        t.periodMs < u.periodMs) ∧
      rate_monotonic_schedule tasks = decisionOf t := by
    rcases rate_monotonic_foldl_spec tasks (-1, zeroDecision) with
      ⟨_, hall⟩ | ⟨k, t, hk, ht, hd, _, hall, hbefore⟩
    · exfalso
      obtain ⟨i, t, hi, hta⟩ := hact
      have h1 := hall i t hi ⟨hta, (hrange i t hi hta).1⟩
      have h2 : (0 : Int) ≤ ((1000000 / t.periodMs : Nat) : Int) := Int.ofNat_nonneg _
      have h3 : ((-1 : Int), zeroDecision).1 = -1 := rfl
      rw [h3] at h1
      omega
    · refine ⟨k, t, hk, ht.1, ?_, ?_, ?_⟩
      · intro j u hj hu
        obtain ⟨hu1, hu2⟩ := hrange j u hj hu
        have hq := hall j u hj ⟨hu, hu1⟩
        by_contra hlt
        have := rms_quotient_strict u.periodMs t.periodMs hu1 (not_le.mp hlt)
          (hrange k t hk ht.1).2
        have hq2 : 1000000 / u.periodMs ≤ 1000000 / t.periodMs := Int.ofNat_le.mp hq
        omega
      · intro j u hjk hj hu
        obtain ⟨hu1, hu2⟩ := hrange j u hj hu
        have hq := hbefore j u hjk hj ⟨hu, hu1⟩
        by_contra hlt
        have := Nat.div_le_div_left (a := 1000000) (not_lt.mp hlt) hu1
        have hq2 : 1000000 / u.periodMs < 1000000 / t.periodMs := Int.ofNat_lt.mp hq
        omega
      · unfold rate_monotonic_schedule rate_monotonic_loop
        rw [hd]
  refine ⟨rms_quotient_strict, hex, ?_⟩
  intro i t hi hta hmin hfirst
  obtain ⟨k, t0, hk, ht0, hmin0, hfirst0, hd⟩ := hex
  have hik : i = k := by
    by_contra hne
    rcases Nat.lt_or_gt_of_ne hne with hlt | hgt
    · have h1 := hfirst0 i t hlt hi hta
      have h2 := hmin k t0 hk ht0
      omega
    · have h1 := hfirst k t0 hgt hk ht0
      have h2 := hmin0 i t hi hta
      omega
  subst hik
  rw [hi] at hk
  have htt : t = t0 := Option.some.inj hk
  subst htt
  rw [hd]
  exact ⟨rfl, rfl, rfl, rfl⟩

/-- Witness for C32: with active periods 200, 100 and 100 ms the decision
names slot 1, the first of the two tasks of period 100 ms. -/
theorem rate_monotonic_schedule_small_periods_witness :
    (∀ (i : Nat) (t : Task ℚ),
      [mkTask 0 200 200 1, mkTask 1 100 100 1, mkTask 2 100 100 1][i]? = some t →
      t.active ≠ 0 → 1 ≤ t.periodMs ∧ t.periodMs ≤ 1000) ∧
    (∃ (i : Nat) (t : Task ℚ),
      [mkTask 0 200 200 1, mkTask 1 100 100 1, mkTask 2 100 100 1][i]? = some t ∧
      t.active ≠ 0) ∧
    (rate_monotonic_schedule
      [mkTask 0 200 200 1, mkTask 1 100 100 1, mkTask 2 100 100 1]).taskId = 1 :=
  have hrange : ∀ (i : Nat) (t : Task ℚ),
      [mkTask 0 200 200 1, mkTask 1 100 100 1, mkTask 2 100 100 1][i]? = some t →
      t.active ≠ 0 → 1 ≤ t.periodMs ∧ t.periodMs ≤ 1000 := by
    intro i t h _
    rcases i with _ | _ | _ | i
    · simp at h; subst h; decide
    · simp at h; subst h; decide
    · simp at h; subst h; decide
    · simp at h
  have hact : ∃ (i : Nat) (t : Task ℚ),
      [mkTask 0 200 200 1, mkTask 1 100 100 1, mkTask 2 100 100 1][i]? = some t ∧
      t.active ≠ 0 :=
    ⟨0, mkTask 0 200 200 1, rfl, by decide⟩
  ⟨hrange, hact,
   ((rate_monotonic_schedule_small_periods
      [mkTask 0 200 200 1, mkTask 1 100 100 1, mkTask 2 100 100 1] hrange hact).2.2
      1 (mkTask 1 100 100 1) rfl (by decide)
      (by
        intro j u h _
        rcases j with _ | _ | _ | j
        · simp at h; subst h; decide
        · simp at h; subst h; decide
        · simp at h; subst h; decide
        · simp at h)
      (by
        intro j u hj h _
        rcases j with _ | j
        · simp at h; subst h; decide
        · omega)).2.1⟩

/-! ## Lemmas on the jitter record -/

/-- One tick stores the truncated duration as the last jitter; the stored
worst case stays a 32-bit value and bounds the last jitter from above. -/
theorem scheduler_tick_jitter {α : Type} [LinearOrderedField α] [FloorRing α]
    (sch : SchedulerState α) (k : KernelState α) (c : Fin MAX_TASKS → Nat) (l : Nat)
    (inf : Nat → α) (elapsed_ns : Nat) (hw : sch.g_worstCaseJitterNs < 2 ^ 32) :
    (scheduler_tick sch k c l inf elapsed_ns).1.g_lastJitterNs = elapsed_ns % 2 ^ 32 ∧
    (scheduler_tick sch k c l inf elapsed_ns).1.g_lastJitterNs ≤
      (scheduler_tick sch k c l inf elapsed_ns).1.g_worstCaseJitterNs ∧
    (scheduler_tick sch k c l inf elapsed_ns).1.g_worstCaseJitterNs < 2 ^ 32 := by
  have hlast : (scheduler_tick sch k c l inf elapsed_ns).1.g_lastJitterNs
      = elapsed_ns % 2 ^ 32 := rfl
  have hworst : (scheduler_tick sch k c l inf elapsed_ns).1.g_worstCaseJitterNs
      = if elapsed_ns > sch.g_worstCaseJitterNs then elapsed_ns % 2 ^ 32
        else sch.g_worstCaseJitterNs := rfl
  rw [hlast, hworst]
  have hmod : elapsed_ns % 2 ^ 32 < 2 ^ 32 := Nat.mod_lt _ (by norm_num)
  by_cases h : elapsed_ns > sch.g_worstCaseJitterNs
  · rw [if_pos h]
    exact ⟨rfl, le_refl _, hmod⟩
  · rw [if_neg h]
    have hle : elapsed_ns % 2 ^ 32 ≤ elapsed_ns := Nat.mod_le _ _
    exact ⟨rfl, by omega, hw⟩

/-- Every operation keeps the stored worst case a 32-bit value that bounds the
stored last jitter. -/
theorem rtosStep_jitter {α : Type} [LinearOrderedField α] [FloorRing α]
    (s : RtosState α) (op : RtosOp α)
    (h : s.scheduler.g_lastJitterNs ≤ s.scheduler.g_worstCaseJitterNs ∧
      s.scheduler.g_worstCaseJitterNs < 2 ^ 32) :
    (rtosStep s op).scheduler.g_lastJitterNs ≤ (rtosStep s op).scheduler.g_worstCaseJitterNs ∧
    (rtosStep s op).scheduler.g_worstCaseJitterNs < 2 ^ 32 := by
  cases op with
  | create now task name entryPoint args periodMs deadlineMs criticality => exact h
  | delete taskId => exact h
  | suspend taskId => exact h
  | resume taskId => exact h
  | setPriority taskId priority => exact h
  | tick g_modelLoaded inference elapsed_ns =>
    obtain ⟨_, h2, h3⟩ := scheduler_tick_jitter s.scheduler s.kernel
      s.fault.g_faultRecoveryCounter g_modelLoaded inference elapsed_ns h.2
    exact ⟨h2, h3⟩
  | recovery result now => exact h

/-- The jitter bound holds after every sequence of operations started in a
state where it holds. -/
theorem rtosRun_jitter {α : Type} [LinearOrderedField α] [FloorRing α]
    (ops : List (RtosOp α)) (s : RtosState α)
    (h : s.scheduler.g_lastJitterNs ≤ s.scheduler.g_worstCaseJitterNs ∧
      s.scheduler.g_worstCaseJitterNs < 2 ^ 32) :
    (rtosRun s ops).scheduler.g_lastJitterNs ≤ (rtosRun s ops).scheduler.g_worstCaseJitterNs ∧
    (rtosRun s ops).scheduler.g_worstCaseJitterNs < 2 ^ 32 := by
  induction ops generalizing s with
  | nil => exact h
  | cons op ops ih =>
    unfold rtosRun
    rw [List.foldl_cons]
    exact ih (rtosStep s op) (rtosStep_jitter s op h)

/-! ## Last jitter and worst-case jitter -/

/-- C33: after a scheduler tick with any measured duration `elapsed_ns`, run
in a state whose worst-case jitter is a 32-bit value, the stored last jitter
is `elapsed_ns` reduced modulo `2 ^ 32` and is at most the stored worst-case
jitter, which `scheduler_get_jitter_ns` returns and which stays a 32-bit
value; hence in every state reached from `kernel_init` by a sequence of
operations the value of `scheduler_get_jitter_ns` bounds the last jitter. -/
theorem last_jitter_le_worst_case {α : Type} [LinearOrderedField α] [FloorRing α]
    (sch : SchedulerState α) (k : KernelState α)
    (g_faultRecoveryCounter : Fin MAX_TASKS → Nat) (g_modelLoaded : Nat)
    (inference : Nat → α) (elapsed_ns : Nat) (hw : sch.g_worstCaseJitterNs < 2 ^ 32) :
    (scheduler_tick sch k g_faultRecoveryCounter g_modelLoaded inference
        elapsed_ns).1.g_lastJitterNs = elapsed_ns % 2 ^ 32 ∧
    (scheduler_tick sch k g_faultRecoveryCounter g_modelLoaded inference
        elapsed_ns).1.g_lastJitterNs ≤
      scheduler_get_jitter_ns (scheduler_tick sch k g_faultRecoveryCounter g_modelLoaded
        inference elapsed_ns).1 ∧
    scheduler_get_jitter_ns (scheduler_tick sch k g_faultRecoveryCounter g_modelLoaded
        inference elapsed_ns).1 < 2 ^ 32 ∧
    ∀ (now : Nat) (ops : List (RtosOp α)),
      (rtosRun (rtosInit sch now) ops).scheduler.g_lastJitterNs ≤
        scheduler_get_jitter_ns (rtosRun (rtosInit sch now) ops).scheduler := by
  obtain ⟨h1, h2, h3⟩ := scheduler_tick_jitter sch k g_faultRecoveryCounter g_modelLoaded
    inference elapsed_ns hw
  refine ⟨h1, h2, h3, ?_⟩
  intro now ops
  exact (rtosRun_jitter ops (rtosInit sch now) ⟨le_refl _, by
    show (0 : Nat) < 2 ^ 32
    norm_num⟩).1

/-- Witness for C33: with a worst case of 100 ns recorded, a tick that lasted
`2 ^ 32 + 5` ns stores the last jitter 5, which the worst case read
afterwards bounds. -/
theorem last_jitter_le_worst_case_witness :
    (schedulerWith 100).g_worstCaseJitterNs < 2 ^ 32 ∧
    (scheduler_tick (schedulerWith 100) (kernelWith []) (fun _ => 0) 1 (fun _ => 0)
        4294967301).1.g_lastJitterNs = 5 ∧
    (scheduler_tick (schedulerWith 100) (kernelWith []) (fun _ => 0) 1 (fun _ => 0)
        4294967301).1.g_lastJitterNs ≤
      scheduler_get_jitter_ns (scheduler_tick (schedulerWith 100) (kernelWith [])
        (fun _ => 0) 1 (fun _ => 0) 4294967301).1 :=
  ⟨by decide,
   (last_jitter_le_worst_case (schedulerWith 100) (kernelWith []) (fun _ => 0) 1
      (fun _ => 0) 4294967301 (by decide)).1,
   (last_jitter_le_worst_case (schedulerWith 100) (kernelWith []) (fun _ => 0) 1
      (fun _ => 0) 4294967301 (by decide)).2.1⟩

end RTOS
